import Mathlib

/-!
# Slicer Reporting module logic: slice identity and hierarchy consistency

A shallow embedding of `Logic/vtkSlicerReportingModuleLogic.cxx`.

Conventions of the embedding.

* A MRML node is a record `Node`; its dynamic class is the tag `cls`, and the
  fields that a class does not have keep their default value.
* A pointer argument is an `Option`: `none` is the null pointer.
* The scene is the ordered collection of its nodes.
* C++ undefined behaviour that the source can reach (dereferencing a null
  pointer, indexing a vector outside its bounds) is an explicit `Fault`.
* The read of a string whose owner was destroyed gives the characters that the build
  leaves there: they are a parameter of the embedding.
* A `double` is modelled by an exact rational number; `unsigned int` is a
  natural number below `2^32`.
* Strings are NUL-terminated C strings: the character NUL does not occur in them.
-/

set_option autoImplicit false

namespace Reporting

/-! ## Data model -/

/-- Undefined behaviour of the source, made explicit. -/
inductive Fault where
  /-- a member call or read through a null pointer -/
  | nullDereference
  /-- The use of `operator[]` of a `std::vector` at an index that is not below its size -/
  | indexOutOfRange
  deriving DecidableEq, Repr

deriving instance DecidableEq for Except

/-- The MRML node classes the logic tells apart with `IsA` and `SafeDownCast`. -/
inductive NodeClass where
  /-- any `vtkMRMLNode` of a class not listed below -/
  | vtkMRMLNode
  | vtkMRMLHierarchyNode
  | vtkMRMLDisplayableHierarchyNode
  | vtkMRMLAnnotationHierarchyNode
  | vtkMRMLVolumeNode
  | vtkMRMLScalarVolumeNode
  | vtkMRMLAnnotationNode
  | vtkMRMLAnnotationControlPointsNode
  | vtkMRMLAnnotationFiducialNode
  | vtkMRMLAnnotationRulerNode
  | vtkMRMLReportingReportNode
  | vtkMRMLReportingAnnotationRANONode
  | vtkMRMLScriptedModuleNode
  | vtkMRMLDisplayNode
  deriving DecidableEq, Repr

/-- The direct superclass of a node class in the MRML class hierarchy
(`none` for the root class `vtkMRMLNode`; intermediate classes the logic never
names are skipped). -/
def NodeClass.super : NodeClass → Option NodeClass
  | .vtkMRMLNode => none
  | .vtkMRMLHierarchyNode => some .vtkMRMLNode
  | .vtkMRMLDisplayableHierarchyNode => some .vtkMRMLHierarchyNode
  | .vtkMRMLAnnotationHierarchyNode => some .vtkMRMLDisplayableHierarchyNode
  | .vtkMRMLVolumeNode => some .vtkMRMLNode
  | .vtkMRMLScalarVolumeNode => some .vtkMRMLVolumeNode
  | .vtkMRMLAnnotationNode => some .vtkMRMLNode
  | .vtkMRMLAnnotationControlPointsNode => some .vtkMRMLAnnotationNode
  | .vtkMRMLAnnotationFiducialNode => some .vtkMRMLAnnotationControlPointsNode
  | .vtkMRMLAnnotationRulerNode => some .vtkMRMLAnnotationControlPointsNode
  | .vtkMRMLReportingReportNode => some .vtkMRMLNode
  | .vtkMRMLReportingAnnotationRANONode => some .vtkMRMLAnnotationNode
  | .vtkMRMLScriptedModuleNode => some .vtkMRMLNode
  | .vtkMRMLDisplayNode => some .vtkMRMLNode

/-- Walks at most `fuel` superclass links from `c` looking for `base`. -/
def NodeClass.derivesWithin : Nat → NodeClass → NodeClass → Bool
  | 0, c, base => c == base
  | fuel + 1, c, base =>
    c == base ||
      (match c.super with
       | none => false
       | some s => NodeClass.derivesWithin fuel s base)

/-- The test `node->IsA("base")`: the class of the node is `base` or derives
from it. No chain of superclasses is longer than four links. -/
def NodeClass.IsA (c base : NodeClass) : Bool :=
  NodeClass.derivesWithin 4 c base

/-- A homogeneous point or a matrix row: four `double`s. -/
abbrev Vec4 := ℚ × ℚ × ℚ × ℚ

/-- The class `vtkMatrix4x4`, by rows. -/
structure Matrix4x4 where
  row0 : Vec4
  row1 : Vec4
  row2 : Vec4
  row3 : Vec4
  deriving DecidableEq

/-- The identity matrix, the value of a new `vtkMatrix4x4`. -/
def Matrix4x4.Identity : Matrix4x4 :=
  { row0 := (1, 0, 0, 0), row1 := (0, 1, 0, 0), row2 := (0, 0, 1, 0), row3 := (0, 0, 0, 1) }

/-- Inner product of a matrix row with a homogeneous point. -/
def Vec4.dot (a b : Vec4) : ℚ :=
  a.1 * b.1 + a.2.1 * b.2.1 + a.2.2.1 * b.2.2.1 + a.2.2.2 * b.2.2.2

/-- The method `vtkMatrix4x4::MultiplyPoint(in, out)`: `out = M * in`. -/
def Matrix4x4.MultiplyPoint (m : Matrix4x4) (p : Vec4) : Vec4 :=
  (m.row0.dot p, m.row1.dot p, m.row2.dot p, m.row3.dot p)

/-- A MRML node. Only the fields of the node's own class are meaningful. -/
structure Node where
  /-- dynamic class -/
  cls : NodeClass
  /-- The value of `GetID()`; null until the node is added to a scene -/
  ID : Option String := none
  /-- The value of `GetName()` -/
  Name : Option String := none
  /-- The value of `GetDescription()` -/
  Description : Option String := none
  /-- whether `GetScene()` is non-null -/
  InScene : Bool := false
  /-- the attribute map of `GetAttribute` -/
  Attributes : List (String × String) := []
  /-- The value of `GetHideFromEditors()` -/
  HideFromEditors : Bool := false
  /-- hierarchy nodes: `GetParentNodeID()` -/
  ParentNodeID : Option String := none
  /-- hierarchy nodes: the identifier of the associated (displayable) content node -/
  AssociatedNodeID : Option String := none
  /-- scalar volumes: `GetLabelMap()` -/
  LabelMap : Bool := false
  /-- volumes: the matrix filled by `GetRASToIJKMatrix` -/
  RASToIJKMatrix : Matrix4x4 := Matrix4x4.Identity
  /-- control-point annotations: the control points in world (RAS) coordinates,
  as `GetControlPointWorldCoordinates` reports them -/
  ControlPoints : List (ℚ × ℚ × ℚ) := []
  /-- scripted module nodes: the parameter map of `GetParameter` -/
  Parameters : List (String × String) := []
  /-- annotation nodes: the flag written by `SetVisible` -/
  Visible : Int := 1
  /-- display nodes: the flag written by `SetVisibility` -/
  Visibility : Int := 1
  /-- displayable nodes: the identifiers of the display nodes, in order -/
  DisplayNodeIDs : List String := []
  deriving DecidableEq

/-- The call `node->GetAttribute(name)`: null when the attribute is not set. -/
def Node.GetAttribute (n : Node) (name : String) : Option String :=
  n.Attributes.lookup name

/-- The call `Class::SafeDownCast(node)` on a non-null node: the node itself
when it is of class `base`, null otherwise. -/
def SafeDownCast (base : NodeClass) (n : Node) : Option Node :=
  if n.cls.IsA base then some n else none

/-- The MRML scene: its nodes, in the order of the scene collection. -/
structure Scene where
  nodes : List Node := []
  deriving DecidableEq

/-- Modelled from the spec: the scene service `NodeByID(id) -> Node|null`, MRML
library code outside this repository; a null identifier names no node. -/
def Scene.GetNodeByID (s : Scene) (id : Option String) : Option Node :=
  match id with
  | none => none
  | some i => s.nodes.find? (fun n => n.ID == some i)

/-- Modelled from the spec: the DICOM header-lookup service, `LoadInstanceHeader(uid)`
(stateful, called before `HeaderValue`) and `HeaderValue(tag) -> string`, the class
`ctkDICOMDatabase` of the CTK library outside this repository. The database holds a
header, a list of tag and value, for every instance it knows. -/
structure DICOMDatabase where
  /-- the headers of the instances of the database, by instance UID -/
  headers : List (String × List (String × String)) := []
  /-- the header loaded by the last call of `loadInstanceHeader` -/
  LoadedHeader : List (String × String) := []
  deriving DecidableEq

/-- Modelled from the spec: `LoadInstanceHeader(uid)`. The header of the instance
becomes the loaded header; for an instance that is not found the loaded header is
empty. -/
def DICOMDatabase.loadInstanceHeader (db : DICOMDatabase) (sopInstanceUID : String) :
    DICOMDatabase :=
  { db with LoadedHeader := (db.headers.lookup sopInstanceUID).getD [] }

/-- Modelled from the spec: `HeaderValue(tag) -> string`, the value of the tag in the
loaded header, the empty string for a tag that the header does not have. -/
def DICOMDatabase.headerValue (db : DICOMDatabase) (key : String) : String :=
  (db.LoadedHeader.lookup key).getD ""

/-- The state of a `vtkSlicerReportingModuleLogic` object: the scene it observes
and its registers. -/
structure Logic where
  /-- The value of `GetMRMLScene()` -/
  MRMLScene : Option Scene := none
  ActiveParameterNodeID : Option String := none
  ActiveMarkupHierarchyID : Option String := none
  GUIHidden : Bool := false
  /-- The member `DICOMDatabase`, null until `InitializeDICOMDatabase` is called -/
  DICOMDatabase : Option DICOMDatabase := none
  deriving DecidableEq

/-! ## Slice identity: `GetSliceUIDFromMarkUp` -/

/-- The C library function `round`: nearest integer, halfway cases away from zero. -/
def round (x : ℚ) : Int :=
  if 0 ≤ x then ⌊x + 1 / 2⌋ else ⌈x - 1 / 2⌉

/-- The conversion `static_cast<unsigned int>` of an integral `double`: the value
when it fits 32 bits. For a negative or larger value C++ leaves the conversion
undefined; the model takes the residue modulo `2^32`, the result of the truncating
conversion through a 64-bit register on the usual targets. -/
def toUnsignedInt (z : Int) : Nat :=
  (z % 4294967296).toNat

/-- The integral values of a `double` that `static_cast<unsigned int>` converts: those
that an `unsigned int` of 32 bits represents. For every other value C++ leaves the
conversion undefined. -/
def representableAsUnsignedInt (z : Int) : Bool :=
  decide (0 ≤ z ∧ z < 4294967296)

/-- One call of `strtok` with the one-character delimiter set `delim` on the unread
part `buf` of the buffer: leading delimiters are skipped; at the end of the buffer
the result is null; otherwise the token runs up to the next delimiter, which is
overwritten and stepped over. Returns the token and the new unread part. -/
def strtok (delim : Char) (buf : List Char) : Option (List Char × List Char) :=
  match buf.dropWhile (fun c => c == delim) with
  | [] => none
  | c :: cs =>
    some ((c :: cs).takeWhile (fun d => d != delim),
          ((c :: cs).dropWhile (fun d => d != delim)).drop 1)

/-- The loop `ptr = strtok(uids, " "); while (ptr != NULL) { uidVector.push_back(ptr);
ptr = strtok(NULL, " "); }`, with at most `fuel` calls of `strtok`. -/
def strtokLoop : Nat → List Char → List String → List String
  | 0, _, uidVector => uidVector
  | fuel + 1, buf, uidVector =>
    match strtok ' ' buf with
    | none => uidVector
    | some (ptr, rest) => strtokLoop fuel rest (uidVector ++ [String.mk ptr])

/-- The vector `uidVector` built from the attribute string. Every call of `strtok`
but the last consumes a character, so `size + 1` calls always reach the end. -/
def parseUIDs (uidsString : String) : List String :=
  strtokLoop (uidsString.data.length + 1) uidsString.data []

/-- The value `ijk[2]` of a control point: the world point `ras = (x, y, z, 1)` is
multiplied by the RAS-to-IJK matrix and the third coordinate is read. -/
def ijkSlice (ras2ijk : Matrix4x4) (p : ℚ × ℚ × ℚ) : ℚ :=
  let ras : Vec4 := (p.1, p.2.1, p.2.2, 1)
  let ijk := ras2ijk.MultiplyPoint ras
  ijk.2.2.1

/-- The index `k` of a control point: `ijk[2]`, rounded and converted to
`unsigned int`. -/
def sliceIndex (ras2ijk : Matrix4x4) (p : ℚ × ℚ × ℚ) : Nat :=
  toUnsignedInt (round (ijkSlice ras2ijk p))

/-- The expression `uidVector[k]`: undefined outside the bounds of the vector. -/
def vectorAt (uidVector : List String) (k : Nat) : Except Fault String :=
  match uidVector[k]? with
  | some s => .ok s
  | none => .error .indexOutOfRange

/-- The value `UIDi` of one control point: `uidVector[k]` when `uidVector.size() > k`,
`uidVector[0]` otherwise. -/
def pointUID (uidVector : List String) (ras2ijk : Matrix4x4) (p : ℚ × ℚ × ℚ) :
    Except Fault String :=
  let k := sliceIndex ras2ijk p
  if uidVector.length > k then vectorAt uidVector k else vectorAt uidVector 0

/-- The loop over the control points, entered at index `i` with running value `UID`
and the control points from `i` on still to visit. -/
def pointLoop (uidVector : List String) (ras2ijk : Matrix4x4) :
    List (ℚ × ℚ × ℚ) → Nat → String → Except Fault String
  | [], _, UID => .ok UID
  | p :: rest, i, UID =>
    match pointUID uidVector ras2ijk p with
    | .error e => .error e
    | .ok UIDi =>
      if i = 0 then pointLoop uidVector ras2ijk rest (i + 1) UIDi
      else if UIDi ≠ UID then .ok "NONE"
      else pointLoop uidVector ras2ijk rest (i + 1) UID

/-- The method `GetSliceUIDFromMarkUp(node)`. -/
def GetSliceUIDFromMarkUp (self : Logic) (node : Option Node) : Except Fault String :=
  let UID := "NONE"
  match node with
  | none => .ok UID
  | some node =>
    match self.MRMLScene with
    | none => .ok UID
    | some scene =>
      -- the guard after the downcast tests `node`, which is not null here, not `cpNode`
      match SafeDownCast .vtkMRMLAnnotationControlPointsNode node with
      | none => .error .nullDereference
      | some cpNode =>
        match cpNode.GetAttribute "AssociatedNodeID" with
        | none => .ok UID
        | some associatedNodeID =>
          match scene.GetNodeByID (some associatedNodeID) with
          | none => .ok UID
          | some mrmlNode =>
            match SafeDownCast .vtkMRMLScalarVolumeNode mrmlNode with
            | none => .ok UID
            | some volumeNode =>
              match volumeNode.GetAttribute "DICOM.instanceUIDs" with
              | none => .ok UID
              | some uidsString =>
                pointLoop (parseUIDs uidsString) volumeNode.RASToIJKMatrix
                  cpNode.ControlPoints 0 UID

/-! ## Predicates and spec-level definitions of the claims -/

/-- The annotation `node` resolves to the stored UID list `uidsString` of the
volume `volumeNode`: it is a control-points node whose "AssociatedNodeID" attribute
names the scalar volume `volumeNode` in the scene of the logic, and that volume has
the attribute "DICOM.instanceUIDs" with value `uidsString`. -/
def Resolvable (self : Logic) (node volumeNode : Node) (uidsString : String) : Prop :=
  node.cls.IsA .vtkMRMLAnnotationControlPointsNode = true ∧
  (∃ scene associatedNodeID, self.MRMLScene = some scene ∧
    node.GetAttribute "AssociatedNodeID" = some associatedNodeID ∧
    scene.GetNodeByID (some associatedNodeID) = some volumeNode) ∧
  volumeNode.cls.IsA .vtkMRMLScalarVolumeNode = true ∧
  volumeNode.GetAttribute "DICOM.instanceUIDs" = some uidsString

/-- The maximal runs of characters that are not separators, in order: the list is
split at every separator and the empty pieces are dropped. -/
def runs (isSeparator : Char → Bool) (l : List Char) : List (List Char) :=
  (l.splitOnP isSeparator).filter (fun t => t ≠ [])

/-- Spec-level tokenizer, after the words "splitting on whitespace into an ordered
sequence; empty tokens are dropped", for a given class of separator characters. -/
def splitDropEmpty (isSeparator : Char → Bool) (s : String) : List String :=
  (runs isSeparator s.data).map String.mk

/-! ## Scene and hierarchy services -/

/-- Modelled from the spec: the parts of the scene service that the spec leaves
open, MRML library code outside this repository. `GetUniqueIDByClass` is the ID
allocation of `AddNode`, `GetUniqueNameByString` is `UniqueNameByString(base) -> name`,
and `GetNodeTagName` is the tag from which a node added without a name is named.
They are parameters of the embedding, and so is what the build leaves behind a
destroyed string. -/
structure SceneServices where
  GetUniqueIDByClass : Scene → NodeClass → String
  GetUniqueNameByString : Scene → String → String
  GetNodeTagName : NodeClass → String
  /-- The characters read through the pointer that `c_str()` gave for a temporary
  `std::string` with the given value, once the temporary is destroyed. C++ leaves the
  read undefined. A build whose strings own their characters finds what the release of
  the buffer left there; a build whose strings share the characters with the stored
  value still finds the value. -/
  ReadDestroyedString : String → String

/-- Modelled from the spec: the scene service `FirstNodeByName(name) -> Node|null`,
MRML library code outside this repository: the first node, in scene order, with
that name. -/
def Scene.GetFirstNodeByName (s : Scene) (name : String) : Option Node :=
  s.nodes.find? (fun n => n.Name == some name)

/-- The first node that passes the test `p`, with its position in the list. A
position in the scene collection stands for a pointer to a node of the scene. -/
def findPtr (p : Node → Bool) : List Node → Option (Nat × Node)
  | [] => none
  | n :: ns => if p n then some (0, n) else (findPtr p ns).map (fun r => (r.1 + 1, r.2))

/-- The node `GetNodeByID` returns, with the pointer to it. -/
def Scene.GetNodeByIDPtr (s : Scene) (id : Option String) : Option (Nat × Node) :=
  match id with
  | none => none
  | some i => findPtr (fun n => n.ID == some i) s.nodes

/-- Applies `f` to the element at position `ptr` of a list. -/
def modifyAt (f : Node → Node) : Nat → List Node → List Node
  | _, [] => []
  | 0, n :: ns => f n :: ns
  | ptr + 1, n :: ns => n :: modifyAt f ptr ns

/-- A write through a pointer to a node of the scene. -/
def Scene.modify (s : Scene) (ptr : Nat) (f : Node → Node) : Scene :=
  { nodes := modifyAt f ptr s.nodes }

/-- Modelled from the spec: the scene service `AddNode(node)`, MRML library code
outside this repository. The node receives a newly allocated ID unless it has one
that no node of the scene uses, becomes a node of the scene, receives a name when
it has none, and is appended to the scene collection. Returns the new scene, the
pointer to the added node and the added node. The node-added notification of the
new node reaches `OnMRMLSceneNodeAdded`, which returns at once for the hierarchy
and RANO nodes this logic adds; it is not modelled. -/
def Scene.AddNode (svc : SceneServices) (s : Scene) (n : Node) : Scene × Nat × Node :=
  let n1 : Node :=
    if n.ID = none ∨ n.ID = some "" ∨ (s.GetNodeByID n.ID).isSome then
      { n with ID := some (svc.GetUniqueIDByClass s n.cls) }
    else n
  let n2 : Node := { n1 with InScene := true }
  let n3 : Node :=
    if n2.Name = none ∨ n2.Name = some "" then
      { n2 with Name := some (svc.GetUniqueNameByString s (svc.GetNodeTagName n2.cls)) }
    else n2
  ({ nodes := s.nodes ++ [n3] }, s.nodes.length, n3)

/-- The test a hierarchy node passes when it is associated with the content node `id`. -/
def isAssociatedHierarchyNode (id : String) (n : Node) : Bool :=
  n.cls.IsA .vtkMRMLHierarchyNode && n.AssociatedNodeID == some id

/-- Modelled from the spec: the hierarchy lookup service
`AssociatedHierarchyNode(scene, contentID) -> HierarchyNode|null`, the reverse index
from a content node to its hierarchy node, MRML library code outside this
repository (the static method `vtkMRMLHierarchyNode::GetAssociatedHierarchyNode`).
The result is null for a null scene and for a null identifier. -/
def GetAssociatedHierarchyNode (scene : Option Scene) (associatedNodeID : Option String) :
    Option Node :=
  match scene, associatedNodeID with
  | some s, some i => s.nodes.find? (isAssociatedHierarchyNode i)
  | _, _ => none

/-- The node `GetAssociatedHierarchyNode` returns, with the pointer to it. -/
def GetAssociatedHierarchyNodePtr (scene : Option Scene) (associatedNodeID : Option String) :
    Option (Nat × Node) :=
  match scene, associatedNodeID with
  | some s, some i => findPtr (isAssociatedHierarchyNode i) s.nodes
  | _, _ => none

/-- Modelled from the spec: the hierarchy lookup service
`ChildrenNodes(hierarchyNode) -> ordered sequence`, MRML library code outside this
repository: the hierarchy nodes whose parent identifier is the identifier of the
node, in scene order. -/
def Scene.GetChildrenNodes (s : Scene) (id : Option String) : List Node :=
  match id with
  | none => []
  | some i => s.nodes.filter (fun n => n.cls.IsA .vtkMRMLHierarchyNode && n.ParentNodeID == some i)

/-- Modelled from the spec: the hierarchy lookup service
`AllChildrenNodes(hierarchyNode) -> ordered sequence (full subtree, depth-first)`,
MRML library code outside this repository: every child is followed by its own
subtree, down to `depth` levels. -/
def Scene.GetAllChildrenNodesWithin (s : Scene) : Nat → Option String → List Node
  | 0, _ => []
  | depth + 1, id =>
    (s.GetChildrenNodes id).flatMap
      (fun child => child :: Scene.GetAllChildrenNodesWithin s depth child.ID)

/-- The call `hierarchyNode->GetAllChildrenNodes(allChildren)`. A hierarchy without
cycles has fewer levels than the scene has nodes. -/
def Scene.GetAllChildrenNodes (s : Scene) (id : Option String) : List Node :=
  s.GetAllChildrenNodesWithin s.nodes.length id

/-- The call `hierarchyNode->GetAssociatedNode()`: the node of the scene of the
hierarchy node that has the associated identifier. -/
def Scene.GetAssociatedNode (s : Scene) (hierarchyNode : Node) : Option Node :=
  if hierarchyNode.InScene then s.GetNodeByID hierarchyNode.AssociatedNodeID else none

/-- The call `node->GetScene()` for a node argument: the logic observes one scene,
which is the scene of every node that is in a scene. -/
def Logic.sceneOf (self : Logic) (node : Node) : Option Scene :=
  if node.InScene then self.MRMLScene else none

/-- The call `parameterNode->GetParameter(name)`: the empty string when the
parameter is not set. -/
def Node.GetParameter (n : Node) (name : String) : String :=
  (n.Parameters.lookup name).getD ""

/-! ## Hierarchy builder -/

/-- The method `GetActiveReportHierarchyID()`. -/
def GetActiveReportHierarchyID (svc : SceneServices) (self : Logic) :
    Except Fault (Option String) :=
  match self.ActiveParameterNodeID with
  | none => .ok none
  | some activeParameterNodeID =>
    match self.MRMLScene with
    | none => .error .nullDereference
    | some scene =>
      match scene.GetNodeByID (some activeParameterNodeID) with
      | none => .ok none
      | some mrmlNode =>
        match SafeDownCast .vtkMRMLScriptedModuleNode mrmlNode with
        | none => .ok none
        | some parameterNode =>
          -- `reportID` is the `c_str()` of the temporary string that `GetParameter`
          -- returns, never null; the temporary is destroyed at the end of the statement
          -- of line 1385, and line 1393 reads the characters through the pointer
          let reportID := svc.ReadDestroyedString (parameterNode.GetParameter "reportID")
          match GetAssociatedHierarchyNode (self.sceneOf parameterNode) (some reportID) with
          | some hnode => .ok hnode.ID
          | none => .ok none

/-- The body of `GetTopLevelHierarchyNodeID()` past the test of the scene pointer:
the scene after the call and the identifier returned. -/
def Scene.GetTopLevelHierarchyNodeID (svc : SceneServices) (scene : Scene) :
    Except Fault (Scene × Option String) :=
  let topLevelName := "Reporting Hierarchy"
  let scene1 : Scene :=
    match scene.GetFirstNodeByName topLevelName with
    | none =>
      (scene.AddNode svc
        { cls := .vtkMRMLDisplayableHierarchyNode, HideFromEditors := false,
          Name := some topLevelName }).1
    | some _ => scene
  match scene1.GetFirstNodeByName topLevelName with
  | none => .error .nullDereference
  | some topLevelNode => .ok (scene1, topLevelNode.ID)

/-- The method `GetTopLevelHierarchyNodeID()`. -/
def GetTopLevelHierarchyNodeID (svc : SceneServices) (self : Logic) :
    Except Fault (Logic × Option String) :=
  match self.MRMLScene with
  | none => .ok (self, none)
  | some scene =>
    match scene.GetTopLevelHierarchyNodeID svc with
    | .error e => .error e
    | .ok (scene1, toplevelNodeID) => .ok ({ self with MRMLScene := some scene1 }, toplevelNodeID)

/-- The state after `calls` consecutive calls of `GetTopLevelHierarchyNodeID()`, with
the identifier the last call returned (null before the first call). -/
def GetTopLevelHierarchyNodeID_repeated (svc : SceneServices) :
    Nat → Logic → Except Fault (Logic × Option String)
  | 0, self => .ok (self, none)
  | calls + 1, self =>
    match GetTopLevelHierarchyNodeID_repeated svc calls self with
    | .error e => .error e
    | .ok (self1, _) => GetTopLevelHierarchyNodeID svc self1

/-- The method `InitializeHierarchyForReport(node)`. -/
def InitializeHierarchyForReport (svc : SceneServices) (self : Logic) (node : Option Node) :
    Except Fault Logic :=
  match node with
  | none => .ok self
  | some node =>
    match self.sceneOf node, node.ID with
    | none, _ => .ok self
    | some _, none => .ok self
    | some scene, some nodeID =>
      match GetAssociatedHierarchyNode (self.sceneOf node) node.ID with
      | some _ => .ok self
      | none =>
        match node.Name with
        | none => .error .nullDereference
        | some name =>
          let hnodeName := name ++ " Hierarchy"
          let (scene1, reportHierarchyNode, reportHierarchyAdded) :=
            scene.AddNode svc
              { cls := .vtkMRMLDisplayableHierarchyNode, HideFromEditors := true,
                Name := some (svc.GetUniqueNameByString scene hnodeName) }
          match scene1.GetTopLevelHierarchyNodeID svc with
          | .error e => .error e
          | .ok (scene2, topLevelID) =>
            let scene3 := scene2.modify reportHierarchyNode
              (fun h => { h with ParentNodeID := topLevelID })
            let scene4 := scene3.modify reportHierarchyNode
              (fun h => { h with AssociatedNodeID := some nodeID })
            let ranohnodeName := name ++ " RANO Hierarchy"
            let (scene5, ranoHierarchyNode, _) :=
              scene4.AddNode svc
                { cls := .vtkMRMLHierarchyNode, HideFromEditors := true,
                  Name := some (svc.GetUniqueNameByString scene4 ranohnodeName) }
            let scene6 := scene5.modify ranoHierarchyNode
              (fun h => { h with ParentNodeID := reportHierarchyAdded.ID })
            let (scene7, _, ranoNode) :=
              scene6.AddNode svc { cls := .vtkMRMLReportingAnnotationRANONode }
            let scene8 := scene7.modify ranoHierarchyNode
              (fun h => { h with AssociatedNodeID := ranoNode.ID })
            .ok { self with MRMLScene := some scene8 }

/-- The method `InitializeHierarchyForVolume(node)`. -/
def InitializeHierarchyForVolume (svc : SceneServices) (self : Logic) (node : Option Node) :
    Except Fault Logic :=
  match node with
  | none => .ok self
  | some node =>
    match self.sceneOf node, node.ID with
    | none, _ => .ok self
    | some _, none => .ok self
    | some scene, some nodeID =>
      -- first part: the hierarchy node of the volume, found or created
      let first : Except Fault (Scene × Option String) :=
        match GetAssociatedHierarchyNodePtr (self.sceneOf node) node.ID with
        | some (hnodePtr, hnode) =>
          match GetActiveReportHierarchyID svc self with
          | .error e => .error e
          | .ok activeReportID =>
            .ok (scene.modify hnodePtr (fun h => { h with ParentNodeID := activeReportID }),
                 hnode.ID)
        | none =>
          match node.Name with
          | none => .error .nullDereference
          | some name =>
            let hnodeName := name ++ " Hierarchy "
            let (scene1, volumeHierarchyNode, volumeHierarchyAdded) :=
              scene.AddNode svc
                { cls := .vtkMRMLDisplayableHierarchyNode, HideFromEditors := true,
                  Name := some (svc.GetUniqueNameByString scene hnodeName) }
            match GetActiveReportHierarchyID svc { self with MRMLScene := some scene1 } with
            | .error e => .error e
            | .ok activeReportID =>
              let scene2 := scene1.modify volumeHierarchyNode
                (fun h => { h with ParentNodeID := activeReportID })
              let scene3 := scene2.modify volumeHierarchyNode
                (fun h => { h with AssociatedNodeID := some nodeID })
              .ok (scene3, volumeHierarchyAdded.ID)
      match first with
      | .error e => .error e
      | .ok (scene4, volumeHierarchyNodeID) =>
        -- second part: the markup annotation hierarchy, found or created
        match node.Name with
        | none => .error .nullDereference
        | some name =>
          let ahnodeName := "Markup " ++ name
          match scene4.GetFirstNodeByName ahnodeName with
          | none =>
            let (scene5, ahnode, ahnodeAdded) :=
              scene4.AddNode svc
                { cls := .vtkMRMLAnnotationHierarchyNode, HideFromEditors := false,
                  Name := some ahnodeName }
            let scene6 := scene5.modify ahnode
              (fun h => { h with ParentNodeID := volumeHierarchyNodeID })
            .ok { self with MRMLScene := some scene6, ActiveMarkupHierarchyID := ahnodeAdded.ID }
          | some mrmlNode =>
            .ok { self with MRMLScene := some scene4, ActiveMarkupHierarchyID := mrmlNode.ID }

/-- The loop of `GetVolumeIDForReportNode` over `allChildren`: the identifier of the
first associated node that is a volume. -/
def GetVolumeIDForReportNode.loop (scene : Scene) : List Node → Option String
  | [] => none
  | child :: rest =>
    match scene.GetAssociatedNode child with
    | none => GetVolumeIDForReportNode.loop scene rest
    | some mrmlNode =>
      if mrmlNode.cls.IsA .vtkMRMLVolumeNode then mrmlNode.ID
      else GetVolumeIDForReportNode.loop scene rest

/-- The method `GetVolumeIDForReportNode(node)`. -/
def GetVolumeIDForReportNode (self : Logic) (node : Option Node) : Option String :=
  match node with
  | none => none
  | some node =>
    match GetAssociatedHierarchyNode (self.sceneOf node) node.ID with
    | none => none
    | some hnode =>
      match self.sceneOf hnode with
      | none => none
      | some scene =>
        GetVolumeIDForReportNode.loop scene (scene.GetAllChildrenNodes hnode.ID)

/-- The test `strncmp(name, "Markup", strlen("Markup")) == 0`: the name starts with
"Markup". -/
def startsWithMarkup (name : String) : Bool :=
  name.data.take "Markup".length == "Markup".data

/-- The loop of `SetActiveMarkupHierarchyIDFromNode` over the first level children of
the hierarchy node: the first child that is an annotation hierarchy node with a name
that starts with "Markup". -/
def SetActiveMarkupHierarchyIDFromNode.loop : List Node → Except Fault (Option Node)
  | [] => .ok none
  | child :: rest =>
    if child.cls.IsA .vtkMRMLAnnotationHierarchyNode then
      match child.Name with
      | none => .error .nullDereference
      | some name =>
        if startsWithMarkup name then .ok (some child)
        else SetActiveMarkupHierarchyIDFromNode.loop rest
    else SetActiveMarkupHierarchyIDFromNode.loop rest

/-- The call `hierarchyNode->GetChildrenNodes()` for a hierarchy node handed out by
the scene of the logic. -/
def Logic.childrenOf (self : Logic) (hierarchyNode : Node) : List Node :=
  match self.sceneOf hierarchyNode with
  | none => []
  | some scene => scene.GetChildrenNodes hierarchyNode.ID

/-- The method `SetActiveMarkupHierarchyIDFromNode(node)`. -/
def SetActiveMarkupHierarchyIDFromNode (self : Logic) (node : Option Node) :
    Except Fault Logic :=
  match node with
  | none =>
    -- the warning message reads `node->GetName()` of the null node
    .error .nullDereference
  | some node =>
    match node.Name with
    | none => .ok { self with ActiveMarkupHierarchyID := none }
    | some name =>
      let ahnodeName := "Markup " ++ name
      match self.MRMLScene with
      | none => .error .nullDereference
      | some scene =>
        match scene.GetFirstNodeByName ahnodeName with
        | some mrmlNode => .ok { self with ActiveMarkupHierarchyID := mrmlNode.ID }
        | none =>
          match GetAssociatedHierarchyNode (self.sceneOf node) node.ID with
          | none => .ok { self with ActiveMarkupHierarchyID := none }
          | some hnode =>
            match SetActiveMarkupHierarchyIDFromNode.loop (self.childrenOf hnode) with
            | .error e => .error e
            | .ok (some child) => .ok { self with ActiveMarkupHierarchyID := child.ID }
            | .ok none => .ok { self with ActiveMarkupHierarchyID := none }

/-- The call `annotationNode->GetNthDisplayNode(n)` for the `n`-th display node
identifier `displayNodeID`: the node of the scene with that identifier when it is a
display node, with the pointer to it. -/
def Scene.GetDisplayNodePtr (s : Scene) (displayNodeID : String) : Option (Nat × Node) :=
  match s.GetNodeByIDPtr (some displayNodeID) with
  | none => none
  | some (ptr, found) => if found.cls.IsA .vtkMRMLDisplayNode then some (ptr, found) else none

/-- The loop of `HideAnnotationsForOtherReports` over the display nodes of one
annotation, given by the display node identifiers still to visit. -/
def HideAnnotationsForOtherReports.displayLoop (visibFlag : Int) : List String → Scene → Scene
  | [], scene => scene
  | displayNodeID :: rest, scene =>
    match scene.GetDisplayNodePtr displayNodeID with
    | some (displayNode, _) =>
      HideAnnotationsForOtherReports.displayLoop visibFlag rest
        (scene.modify displayNode (fun d => { d with Visibility := visibFlag }))
    | none => HideAnnotationsForOtherReports.displayLoop visibFlag rest scene

/-- The associated node of a hierarchy node, with the pointer to it. -/
def Scene.GetAssociatedNodePtr (s : Scene) (hierarchyNode : Node) : Option (Nat × Node) :=
  if hierarchyNode.InScene then s.GetNodeByIDPtr hierarchyNode.AssociatedNodeID else none

/-- The loop of `HideAnnotationsForOtherReports` over `allChildren`, the hierarchy nodes
under one child of the top level node. -/
def HideAnnotationsForOtherReports.allChildrenLoop (visibFlag : Int) :
    List Node → Scene → Scene
  | [], scene => scene
  | hierarchyNode :: rest, scene =>
    match scene.GetAssociatedNodePtr hierarchyNode with
    | none => HideAnnotationsForOtherReports.allChildrenLoop visibFlag rest scene
    | some (annotationNode, mrmlNode) =>
      if mrmlNode.ID.isSome && mrmlNode.cls.IsA .vtkMRMLAnnotationNode then
        let scene1 := scene.modify annotationNode (fun a => { a with Visible := visibFlag })
        -- the display nodes are reached through the scene of the annotation node
        let displayNodeIDs := if mrmlNode.InScene then mrmlNode.DisplayNodeIDs else []
        let scene2 := HideAnnotationsForOtherReports.displayLoop visibFlag displayNodeIDs scene1
        HideAnnotationsForOtherReports.allChildrenLoop visibFlag rest scene2
      else HideAnnotationsForOtherReports.allChildrenLoop visibFlag rest scene

/-- The call `child->GetAllChildrenNodes(allChildren)` for a child handed out by the
scene: empty when the child is in no scene. -/
def Scene.allChildrenOf (s : Scene) (child : Node) : List Node :=
  if child.InScene then s.GetAllChildrenNodes child.ID else []

/-- The loop of `HideAnnotationsForOtherReports` over `children`, the direct children
of the top level node. -/
def HideAnnotationsForOtherReports.loop (thisReportHierarchyNode : Node) :
    List Node → Scene → Except Fault Scene
  | [], scene => .ok scene
  | child :: rest, scene =>
    -- `strcmp` reads both identifiers
    match thisReportHierarchyNode.ID, child.ID with
    | some thisID, some childID =>
      let visibFlag : Int := if thisID = childID then 1 else 0
      HideAnnotationsForOtherReports.loop thisReportHierarchyNode rest
        (HideAnnotationsForOtherReports.allChildrenLoop visibFlag (scene.allChildrenOf child) scene)
    | _, _ => .error .nullDereference

/-- The method `HideAnnotationsForOtherReports(node)`. -/
def HideAnnotationsForOtherReports (svc : SceneServices) (self : Logic) (node : Option Node) :
    Except Fault Logic :=
  match node with
  | none => .ok self
  | some node =>
    match GetTopLevelHierarchyNodeID svc self with
    | .error e => .error e
    | .ok (self1, none) => .ok self1
    | .ok (self1, some topNodeID) =>
      match self1.MRMLScene with
      | none => .error .nullDereference
      | some scene =>
        match scene.GetNodeByID (some topNodeID) with
        | none => .ok self1
        | some topNode =>
          match SafeDownCast .vtkMRMLHierarchyNode topNode with
          | none => .ok self1
          | some topHierarchyNode =>
            match GetAssociatedHierarchyNode (self1.sceneOf node) node.ID with
            | none => .ok self1
            | some thisReportHierarchyNode =>
              match HideAnnotationsForOtherReports.loop thisReportHierarchyNode
                  (self1.childrenOf topHierarchyNode) scene with
              | .error e => .error e
              | .ok scene1 => .ok { self1 with MRMLScene := some scene1 }

/-! ## Scene event router -/

/-- Modelled from the spec: "create a 1:1 hierarchy node for the label map", the
method `vtkMRMLDisplayableHierarchyLogic::AddDisplayableHierarchyNodeForNode`, MRML
library code outside this repository. For a node that is in a scene it adds a new
hide-from-editors displayable hierarchy node, named after the node and associated
with it, and returns the identifier of the new node. For a node that is in no scene
it returns null; that case is decided by the caller here, and `scene` is the scene
of the node. -/
def AddDisplayableHierarchyNodeForNode (svc : SceneServices) (scene : Scene)
    (node : Node) : Except Fault (Scene × Option String) :=
  match node.Name with
  | none => .error .nullDereference
  | some name =>
    let hnodeName := name ++ " Hierarchy"
    let (scene1, hierarchyNode, hierarchyAdded) :=
      scene.AddNode svc
        { cls := .vtkMRMLDisplayableHierarchyNode, HideFromEditors := true,
          Name := some (svc.GetUniqueNameByString scene hnodeName) }
    let scene2 := scene1.modify hierarchyNode
      (fun h => { h with AssociatedNodeID := node.ID })
    .ok (scene2, hierarchyAdded.ID)

/-- The branch of `OnMRMLSceneNodeAdded` for a scalar volume node. -/
def OnMRMLSceneNodeAdded.scalarVolume (svc : SceneServices) (self : Logic) (node : Node) :
    Except Fault Logic :=
  if !node.LabelMap then .ok self else
  match node.GetAttribute "AssociatedNodeID" with
  | none => .ok self
  | some associatedNodeID =>
    match GetActiveReportHierarchyID svc self with
    | .error e => .error e
    | .ok activeReportID =>
      -- `activeHierarchyNode`, null unless `activeReportID` names a displayable hierarchy node
      let activeHierarchyNode : Except Fault (Option Node) :=
        match activeReportID with
        | none => .ok none
        | some id =>
          match self.MRMLScene with
          | none => .error .nullDereference
          | some scene => .ok ((scene.GetNodeByID (some id)).bind
              (SafeDownCast .vtkMRMLDisplayableHierarchyNode))
      match activeHierarchyNode with
      | .error e => .error e
      | .ok none => .ok self
      | .ok (some activeHierarchyNode) =>
        let reportNode : Option Node :=
          (self.MRMLScene.bind (fun scene => scene.GetAssociatedNode activeHierarchyNode)).bind
            (SafeDownCast .vtkMRMLReportingReportNode)
        match GetVolumeIDForReportNode self reportNode with
        | none => .ok self
        | some volumeID =>
          if volumeID ≠ associatedNodeID then .ok self else
          match self.ActiveMarkupHierarchyID with
          | none => .ok self
          | some activeMarkupHierarchyID =>
            match self.sceneOf node with
            | none => .ok self
            | some scene =>
              match AddDisplayableHierarchyNodeForNode svc scene node with
              | .error e => .error e
              | .ok (scene1, none) => .ok { self with MRMLScene := some scene1 }
              | .ok (scene1, some newHierarchyID) =>
                match scene1.GetNodeByIDPtr (some newHierarchyID) with
                | none => .error .nullDereference
                | some (newHierarchyNode, found) =>
                  match SafeDownCast .vtkMRMLDisplayableHierarchyNode found with
                  | none => .error .nullDereference
                  | some _ =>
                    .ok { self with
                      MRMLScene := some (scene1.modify newHierarchyNode
                        (fun h => { h with ParentNodeID := some activeMarkupHierarchyID })) }

/-- The part of `OnMRMLSceneNodeAdded` for a fiducial or ruler annotation node. -/
def OnMRMLSceneNodeAdded.markupNode (svc : SceneServices) (self : Logic) (node : Node)
    (annotationType : String) : Except Fault Logic :=
  if self.GUIHidden then .ok self else
  match self.MRMLScene with
  | none => .error .nullDereference
  | some scene =>
    -- the parameter node is read for a log message only
    match GetSliceUIDFromMarkUp self (SafeDownCast .vtkMRMLAnnotationNode node) with
    | .error e => .error e
    | .ok UID =>
      if UID = "NONE" then .ok self else
      let scene1 : Scene :=
        match GetAssociatedHierarchyNodePtr (self.sceneOf node) node.ID with
        | some (hnode, _) =>
          scene.modify hnode (fun h => { h with ParentNodeID := self.ActiveMarkupHierarchyID })
        | none => scene
      match GetActiveReportHierarchyID svc { self with MRMLScene := some scene1 } with
      | .error e => .error e
      | .ok activeReportID =>
        let reportNode : Option Node :=
          ((scene1.GetNodeByID activeReportID).bind
            (SafeDownCast .vtkMRMLDisplayableHierarchyNode)).bind
            (fun reportHierarchyNode => scene1.GetAssociatedNode reportHierarchyNode)
        match SafeDownCast .vtkMRMLAnnotationNode node, reportNode with
        | some annotationNode, some reportNode =>
          let annotationName : String :=
            match reportNode.Description with
            | some desc => desc ++ "_" ++ annotationType
            | none => "Report_" ++ annotationType
          match self.sceneOf annotationNode with
          | none => .error .nullDereference
          | some _ =>
            let newName := svc.GetUniqueNameByString scene1 annotationName
            -- the write to the argument node reaches the node of the scene with its ID
            let scene2 : Scene :=
              match scene1.GetNodeByIDPtr annotationNode.ID with
              | some (written, _) => scene1.modify written
                  (fun a => { a with Name := some newName })
              | none => scene1
            .ok { self with MRMLScene := some scene2 }
        | _, _ => .ok { self with MRMLScene := some scene1 }

/-- The method `OnMRMLSceneNodeAdded(node)`. -/
def OnMRMLSceneNodeAdded (svc : SceneServices) (self : Logic) (node : Option Node) :
    Except Fault Logic :=
  match node with
  | none => .ok self
  | some node =>
    if node.cls.IsA .vtkMRMLAnnotationFiducialNode then
      OnMRMLSceneNodeAdded.markupNode svc self node "Fiducial"
    else if node.cls.IsA .vtkMRMLAnnotationRulerNode then
      OnMRMLSceneNodeAdded.markupNode svc self node "Ruler"
    else if node.cls.IsA .vtkMRMLScalarVolumeNode then
      OnMRMLSceneNodeAdded.scalarVolume svc self node
    else .ok self

/-! ## The hierarchy invariant -/

/-- The hierarchy nodes of the scene associated with the content node `id`. -/
def Scene.associatedHierarchyNodes (s : Scene) (id : Option String) : List Node :=
  match id with
  | none => []
  | some i => s.nodes.filter (isAssociatedHierarchyNode i)

/-- Every content node of the scene has at most one associated hierarchy node. -/
def Scene.AtMostOneHierarchyNode (s : Scene) : Prop :=
  ∀ content ∈ s.nodes, (s.associatedHierarchyNodes content.ID).length ≤ 1

instance (s : Scene) : Decidable s.AtMostOneHierarchyNode := by
  unfold Scene.AtMostOneHierarchyNode
  infer_instance

/-- The nodes of the scene with the given name. -/
def Scene.nodesNamed (s : Scene) (name : String) : List Node :=
  s.nodes.filter (fun n => n.Name == some name)

/-! ## Test services and scenes -/

/-- The name of a node class, as `GetClassName()` reports it. -/
def NodeClass.GetClassName : NodeClass → String
  | .vtkMRMLNode => "vtkMRMLNode"
  | .vtkMRMLHierarchyNode => "vtkMRMLHierarchyNode"
  | .vtkMRMLDisplayableHierarchyNode => "vtkMRMLDisplayableHierarchyNode"
  | .vtkMRMLAnnotationHierarchyNode => "vtkMRMLAnnotationHierarchyNode"
  | .vtkMRMLVolumeNode => "vtkMRMLVolumeNode"
  | .vtkMRMLScalarVolumeNode => "vtkMRMLScalarVolumeNode"
  | .vtkMRMLAnnotationNode => "vtkMRMLAnnotationNode"
  | .vtkMRMLAnnotationControlPointsNode => "vtkMRMLAnnotationControlPointsNode"
  | .vtkMRMLAnnotationFiducialNode => "vtkMRMLAnnotationFiducialNode"
  | .vtkMRMLAnnotationRulerNode => "vtkMRMLAnnotationRulerNode"
  | .vtkMRMLReportingReportNode => "vtkMRMLReportingReportNode"
  | .vtkMRMLReportingAnnotationRANONode => "vtkMRMLReportingAnnotationRANONode"
  | .vtkMRMLScriptedModuleNode => "vtkMRMLScriptedModuleNode"
  | .vtkMRMLDisplayNode => "vtkMRMLDisplayNode"

/-- A scene service for the test scenes: the identifier of the k-th node added to the
scene is the class name followed by k, and a base name is taken as it is. The build is
one whose strings own their characters: behind a destroyed string nothing of its value
is left. -/
def testServices : SceneServices :=
  { GetUniqueIDByClass := fun s c => c.GetClassName ++ toString (s.nodes.length + 1)
    GetUniqueNameByString := fun _ base => base
    GetNodeTagName := fun c => c.GetClassName
    ReadDestroyedString := fun _ => "" }

/-- The scene service of the test scenes in a build whose strings share their characters
with the value stored in the parameter node: the characters of a destroyed temporary
are still those of the value. -/
def sharedBufferServices : SceneServices :=
  { testServices with ReadDestroyedString := fun value => value }

/-- A scalar volume "vol1" with identity RAS-to-IJK matrix and the given UID list. -/
def testVolume (uids : String) : Node :=
  { cls := .vtkMRMLScalarVolumeNode, ID := some "vol1", Name := some "CT", InScene := true,
    Attributes := [("DICOM.instanceUIDs", uids)] }

/-- An annotation of class `cls` drawn on "vol1" with the given control points. -/
def testMarkupNode (cls : NodeClass) (points : List (ℚ × ℚ × ℚ)) : Node :=
  { cls := cls, ID := some "ann1", Name := some "A", InScene := true,
    Attributes := [("AssociatedNodeID", "vol1")], ControlPoints := points }

/-- A logic whose scene holds exactly the volume `testVolume uids`. -/
def testLogic (uids : String) : Logic :=
  { MRMLScene := some { nodes := [testVolume uids] } }

/-- The characters of a UID list with `n` tokens "a" followed by one token "b". -/
def longUIDChars : Nat → List Char
  | 0 => ['b']
  | n + 1 => 'a' :: ' ' :: longUIDChars n

/-- A UID list attribute with `n` tokens "a" followed by one token "b". -/
def longUIDs (n : Nat) : String := String.mk (longUIDChars n)


/-- The parameter node of the test scene; its parameter "reportID" names the report. -/
def reportingParameterNode : Node :=
  { cls := .vtkMRMLScriptedModuleNode, ID := some "vtkMRMLScriptedModuleNode1",
    Name := some "Reporting", InScene := true,
    Parameters := [("reportID", "vtkMRMLReportingReportNode2")] }

/-- The report of the test scene. -/
def reportingReport : Node :=
  { cls := .vtkMRMLReportingReportNode, ID := some "vtkMRMLReportingReportNode2",
    Name := some "Report", InScene := true }

/-- The volume of the test scene. -/
def reportingVolume : Node :=
  { cls := .vtkMRMLScalarVolumeNode, ID := some "vtkMRMLScalarVolumeNode3",
    Name := some "CT", InScene := true }

/-- A label map made from the volume of the test scene. -/
def reportingLabelMap : Node :=
  { cls := .vtkMRMLScalarVolumeNode, ID := some "vtkMRMLScalarVolumeNode4",
    Name := some "CT-label", InScene := true, LabelMap := true,
    Attributes := [("AssociatedNodeID", "vtkMRMLScalarVolumeNode3")] }

/-- The logic on the test scene before any hierarchy is set up. -/
def reportingLogic : Logic :=
  { MRMLScene := some
      { nodes := [reportingParameterNode, reportingReport, reportingVolume, reportingLabelMap] }
    ActiveParameterNodeID := some "vtkMRMLScriptedModuleNode1" }

/-- A hierarchy node of the test scene. -/
def hierarchyNode (cls : NodeClass) (id name : String) (hide : Bool)
    (parent associated : Option String) : Node :=
  { cls := cls, ID := some id, Name := some name, InScene := true, HideFromEditors := hide,
    ParentNodeID := parent, AssociatedNodeID := associated }

/-- The test scene after the hierarchies of the report and of the volume were set up
and the label map was added once: the label map has one hierarchy node. -/
def labelMapScene : Scene :=
  { nodes :=
      [reportingParameterNode, reportingReport, reportingVolume, reportingLabelMap,
       hierarchyNode .vtkMRMLDisplayableHierarchyNode "vtkMRMLDisplayableHierarchyNode5"
         "Report Hierarchy" true (some "vtkMRMLDisplayableHierarchyNode6")
         (some "vtkMRMLReportingReportNode2"),
       hierarchyNode .vtkMRMLDisplayableHierarchyNode "vtkMRMLDisplayableHierarchyNode6"
         "Reporting Hierarchy" false none none,
       hierarchyNode .vtkMRMLHierarchyNode "vtkMRMLHierarchyNode7"
         "Report RANO Hierarchy" true (some "vtkMRMLDisplayableHierarchyNode5")
         (some "vtkMRMLReportingAnnotationRANONode8"),
       { cls := .vtkMRMLReportingAnnotationRANONode,
         ID := some "vtkMRMLReportingAnnotationRANONode8",
         Name := some "vtkMRMLReportingAnnotationRANONode", InScene := true },
       hierarchyNode .vtkMRMLDisplayableHierarchyNode "vtkMRMLDisplayableHierarchyNode9"
         "CT Hierarchy " true (some "vtkMRMLDisplayableHierarchyNode5")
         (some "vtkMRMLScalarVolumeNode3"),
       hierarchyNode .vtkMRMLAnnotationHierarchyNode "vtkMRMLAnnotationHierarchyNode10"
         "Markup CT" false (some "vtkMRMLDisplayableHierarchyNode9") none,
       hierarchyNode .vtkMRMLDisplayableHierarchyNode "vtkMRMLDisplayableHierarchyNode11"
         "CT-label Hierarchy" true (some "vtkMRMLAnnotationHierarchyNode10")
         (some "vtkMRMLScalarVolumeNode4")] }

/-- The logic on `labelMapScene`, with the markup set of the volume active. -/
def labelMapLogic : Logic :=
  { MRMLScene := some labelMapScene
    ActiveParameterNodeID := some "vtkMRMLScriptedModuleNode1"
    ActiveMarkupHierarchyID := some "vtkMRMLAnnotationHierarchyNode10" }

/-- The scene `labelMapScene` with a second hierarchy node for the label map. -/
def labelMapSceneAfter : Scene :=
  { nodes := labelMapScene.nodes ++
      [hierarchyNode .vtkMRMLDisplayableHierarchyNode "vtkMRMLDisplayableHierarchyNode12"
         "CT-label Hierarchy" true (some "vtkMRMLAnnotationHierarchyNode10")
         (some "vtkMRMLScalarVolumeNode4")] }

/-- A scene that holds two nodes named "Reporting Hierarchy". -/
def twoTopLevelScene : Scene :=
  { nodes :=
      [hierarchyNode .vtkMRMLDisplayableHierarchyNode "vtkMRMLDisplayableHierarchyNode1"
         "Reporting Hierarchy" false none none,
       hierarchyNode .vtkMRMLDisplayableHierarchyNode "vtkMRMLDisplayableHierarchyNode2"
         "Reporting Hierarchy" false none none] }

/-! ## Definitions used in the statements about the hierarchy -/

/-- The node that `AddNode` puts into the scene for the node `n`. -/
def Scene.added (svc : SceneServices) (s : Scene) (n : Node) : Node :=
  (s.AddNode svc n).2.2

/-- Modelled from the spec: `UniqueNameByString(base) -> name` as a "scene-enforced
uniqueness transform", MRML library code outside this repository. A base name that no
node of the scene has is taken as it is, a base name in use receives the suffix "_1".
Identifiers and tag names are those of `testServices`. -/
def uniqueNameServices : SceneServices :=
  { testServices with
    GetUniqueNameByString := fun s base =>
      if (s.GetFirstNodeByName base).isSome then base ++ "_1" else base }

/-- A second report with the name of the report of the test scene. -/
def secondReport : Node :=
  { cls := .vtkMRMLReportingReportNode, ID := some "vtkMRMLReportingReportNode12",
    Name := some "Report", InScene := true }

/-- The logic on `labelMapScene` after the second report was added to the scene. -/
def secondReportLogic : Logic :=
  { labelMapLogic with MRMLScene := some { nodes := labelMapScene.nodes ++ [secondReport] } }

/-- The volumes under a hierarchy node, in the order of `GetAllChildrenNodes`: the
associated nodes of the hierarchy nodes of its subtree that are volumes. -/
def Scene.volumesUnder (s : Scene) (hnode : Node) : List Node :=
  (s.GetAllChildrenNodes hnode.ID).filterMap
    (fun child => (s.GetAssociatedNode child).filter (fun m => m.cls.IsA .vtkMRMLVolumeNode))

/-- The first direct child of a hierarchy node that is an annotation hierarchy node
with a name that starts with "Markup". -/
def Logic.firstMarkupChild (self : Logic) (hnode : Node) : Option Node :=
  (self.childrenOf hnode).find?
    (fun child => child.cls.IsA .vtkMRMLAnnotationHierarchyNode &&
      (child.Name.map startsWithMarkup).getD false)

/-- The hierarchy node of the report in `labelMapScene`. -/
def reportHierarchyNode : Node :=
  hierarchyNode .vtkMRMLDisplayableHierarchyNode "vtkMRMLDisplayableHierarchyNode5"
    "Report Hierarchy" true (some "vtkMRMLDisplayableHierarchyNode6")
    (some "vtkMRMLReportingReportNode2")

/-- A second volume with the name of the volume of the test scene. -/
def secondVolume : Node :=
  { cls := .vtkMRMLScalarVolumeNode, ID := some "vtkMRMLScalarVolumeNode12",
    Name := some "CT", InScene := true }

/-- The logic on `labelMapScene` after the second volume was added to the scene. -/
def secondVolumeLogic : Logic :=
  { labelMapLogic with MRMLScene := some { nodes := labelMapScene.nodes ++ [secondVolume] } }

/-- A report with a description. -/
def describedReport : Node :=
  { reportingReport with Description := some "Lesion" }

/-- A scene with a report, the volume "vol1" with three slices, a fiducial drawn on the
second slice, the hierarchy node of the report, a markup node and the hierarchy node
of the fiducial. -/
def markupScene : Scene :=
  { nodes :=
      [reportingParameterNode, describedReport, testVolume "UID0 UID1 UID2",
       testMarkupNode .vtkMRMLAnnotationFiducialNode [(0, 0, 1)],
       hierarchyNode .vtkMRMLDisplayableHierarchyNode "vtkMRMLDisplayableHierarchyNode5"
         "Report Hierarchy" true none (some "vtkMRMLReportingReportNode2"),
       hierarchyNode .vtkMRMLAnnotationHierarchyNode "vtkMRMLAnnotationHierarchyNode6"
         "Markup CT" false none none,
       hierarchyNode .vtkMRMLAnnotationHierarchyNode "vtkMRMLAnnotationHierarchyNode7"
         "A Hierarchy" true none (some "ann1")] }

/-- The logic on `markupScene`, with the markup node active and the GUI visible. -/
def markupLogic : Logic :=
  { MRMLScene := some markupScene
    ActiveParameterNodeID := some "vtkMRMLScriptedModuleNode1"
    ActiveMarkupHierarchyID := some "vtkMRMLAnnotationHierarchyNode6" }

/-! ## Definitions used in the statements and proofs about visibility -/

/-- The annotations under a hierarchy node `child`: the annotation nodes of the scene
associated with the hierarchy nodes of its subtree, in the order of
`GetAllChildrenNodes`. -/
def Scene.annotationsUnder (s : Scene) (child : Node) : List Node :=
  (s.allChildrenOf child).filterMap
    (fun h => (s.GetAssociatedNode h).filter (fun a => a.cls.IsA .vtkMRMLAnnotationNode))

/-- The display nodes of an annotation node of the scene: the nodes of the scene named
by its display node identifiers that are display nodes. -/
def Scene.displayNodesOf (s : Scene) (a : Node) : List Node :=
  (if a.InScene then a.DisplayNodeIDs else []).filterMap
    (fun id => (s.GetNodeByID (some id)).filter (fun d => d.cls.IsA .vtkMRMLDisplayNode))

/-- A node after writes of visibility flags: `m` is `n` but for the two flags, and is
`n` itself when `n` is a hierarchy node. -/
def SameButVisibility (n m : Node) : Prop :=
  m = { n with Visible := m.Visible, Visibility := m.Visibility } ∧
    (n.cls.IsA .vtkMRMLHierarchyNode = true → m = n)

/-- One write of `HideAnnotationsForOtherReports`: `SetVisible` through a pointer to an
annotation node, or `SetVisibility` through a pointer to a display node. -/
inductive VisibilityWrite where
  | SetVisible (annotationNode : Nat) (visibFlag : Int)
  | SetVisibility (displayNode : Nat) (visibFlag : Int)
  deriving DecidableEq

/-- The scene after a write. -/
def VisibilityWrite.apply : VisibilityWrite → Scene → Scene
  | .SetVisible annotationNode visibFlag, s =>
    s.modify annotationNode (fun a => { a with Visible := visibFlag })
  | .SetVisibility displayNode visibFlag, s =>
    s.modify displayNode (fun d => { d with Visibility := visibFlag })

/-- The scene after a sequence of writes. -/
def applyWrites (ws : List VisibilityWrite) (s : Scene) : Scene :=
  ws.foldl (fun acc w => w.apply acc) s

/-- The flag of a node that a write of the given kind sets: `Visible` for
`visible = true`, `Visibility` otherwise. -/
def Node.flagOf (visible : Bool) (n : Node) : Int :=
  if visible then n.Visible else n.Visibility

/-- The flag a write stores in the flag of the given kind of the node at `ptr`, if it
writes there. -/
def VisibilityWrite.valueAt (ptr : Nat) (visible : Bool) : VisibilityWrite → Option Int
  | .SetVisible annotationNode visibFlag =>
    if annotationNode = ptr ∧ visible = true then some visibFlag else none
  | .SetVisibility displayNode visibFlag =>
    if displayNode = ptr ∧ visible = false then some visibFlag else none

/-- The writes of the loop over the display nodes of one annotation, with the pointers
of the scene `s`. -/
def displayWrites (s : Scene) (visibFlag : Int) (displayNodeIDs : List String) :
    List VisibilityWrite :=
  displayNodeIDs.filterMap
    (fun id => (s.GetDisplayNodePtr id).map (fun r => .SetVisibility r.1 visibFlag))

/-- The writes for one hierarchy node of `allChildren`, with the pointers of the scene `s`. -/
def hierarchyNodeWrites (s : Scene) (visibFlag : Int) (hierarchyNode : Node) :
    List VisibilityWrite :=
  match s.GetAssociatedNodePtr hierarchyNode with
  | none => []
  | some (annotationNode, mrmlNode) =>
    if mrmlNode.ID.isSome && mrmlNode.cls.IsA .vtkMRMLAnnotationNode then
      .SetVisible annotationNode visibFlag ::
        displayWrites s visibFlag (if mrmlNode.InScene then mrmlNode.DisplayNodeIDs else [])
    else []

/-- The writes of the loop over `allChildren`, with the pointers of the scene `s`. -/
def allChildrenWrites (s : Scene) (visibFlag : Int) (allChildren : List Node) :
    List VisibilityWrite :=
  allChildren.flatMap (hierarchyNodeWrites s visibFlag)

/-- The flag for the annotations under a child of the top level node. -/
def visibFlagOf (thisReportHierarchyNode child : Node) : Int :=
  if thisReportHierarchyNode.ID = child.ID then 1 else 0

/-- The writes of the loop over the children of the top level node, with the pointers
of the scene `s`. -/
def childrenWrites (s : Scene) (thisReportHierarchyNode : Node) (children : List Node) :
    List VisibilityWrite :=
  children.flatMap
    (fun child =>
      allChildrenWrites s (visibFlagOf thisReportHierarchyNode child) (s.allChildrenOf child))

/-- The report "A" of the scene with two reports. -/
def reportA : Node :=
  { cls := .vtkMRMLReportingReportNode, ID := some "vtkMRMLReportingReportNode1",
    Name := some "A", InScene := true }

/-- The report "B" of the scene with two reports. -/
def reportB : Node :=
  { cls := .vtkMRMLReportingReportNode, ID := some "vtkMRMLReportingReportNode2",
    Name := some "B", InScene := true }

/-- The top level node of the scene with two reports. -/
def topLevelNode : Node :=
  hierarchyNode .vtkMRMLDisplayableHierarchyNode "vtkMRMLDisplayableHierarchyNode3"
    "Reporting Hierarchy" false none none

/-- The hierarchy node of report "A". -/
def hierarchyNodeA : Node :=
  hierarchyNode .vtkMRMLDisplayableHierarchyNode "vtkMRMLDisplayableHierarchyNode4"
    "A Hierarchy" true (some "vtkMRMLDisplayableHierarchyNode3")
    (some "vtkMRMLReportingReportNode1")

/-- A visible fiducial with the given identifier and one display node. -/
def visibleFiducial (id displayNodeID : String) : Node :=
  { cls := .vtkMRMLAnnotationFiducialNode, ID := some id, Name := some "F", InScene := true,
    Visible := 1, DisplayNodeIDs := [displayNodeID] }

/-- A display node that shows its annotation. -/
def visibleDisplayNode (id : String) : Node :=
  { cls := .vtkMRMLDisplayNode, ID := some id, Name := some "Display", InScene := true,
    Visibility := 1 }

/-- A scene with the reports "A" and "B", each with a hierarchy node under the top level
node and one visible fiducial with one display node under it. -/
def visibilityScene : Scene :=
  { nodes :=
      [reportA, reportB, topLevelNode, hierarchyNodeA,
       hierarchyNode .vtkMRMLDisplayableHierarchyNode "vtkMRMLDisplayableHierarchyNode5"
         "B Hierarchy" true (some "vtkMRMLDisplayableHierarchyNode3")
         (some "vtkMRMLReportingReportNode2"),
       visibleFiducial "vtkMRMLAnnotationFiducialNode6" "vtkMRMLDisplayNode7",
       visibleDisplayNode "vtkMRMLDisplayNode7",
       hierarchyNode .vtkMRMLAnnotationHierarchyNode "vtkMRMLAnnotationHierarchyNode8"
         "F Hierarchy" true (some "vtkMRMLDisplayableHierarchyNode4")
         (some "vtkMRMLAnnotationFiducialNode6"),
       visibleFiducial "vtkMRMLAnnotationFiducialNode9" "vtkMRMLDisplayNode10",
       visibleDisplayNode "vtkMRMLDisplayNode10",
       hierarchyNode .vtkMRMLAnnotationHierarchyNode "vtkMRMLAnnotationHierarchyNode11"
         "F Hierarchy" true (some "vtkMRMLDisplayableHierarchyNode5")
         (some "vtkMRMLAnnotationFiducialNode9")] }

/-- The logic on `visibilityScene`. -/
def visibilityLogic : Logic :=
  { MRMLScene := some visibilityScene }

/-! ## AIM exporter: `SaveReportToAIM` -/

/-- The value `EXIT_SUCCESS` of the C library. -/
def EXIT_SUCCESS : Int := 0

/-- The value `EXIT_FAILURE` of the C library. -/
def EXIT_FAILURE : Int := 1

/-- The element `SpatialCoordinate` of the document. The attributes `x` and `y` are the
numbers printed into the coordinate strings; the text that `operator<<` makes of a
`double` is not modelled. -/
structure SpatialCoordinate where
  imageReferenceUID : String
  x : ℚ
  y : ℚ
  deriving DecidableEq

/-- The element `GeometricShape` of the document, with the child elements of its
`spatialCoordinateCollection`. An attribute that was not set is null. -/
structure GeometricShape where
  /-- the attribute "xsi:type" -/
  xsiType : Option String := none
  shapeIdentifier : Option Int := none
  spatialCoordinateCollection : List SpatialCoordinate := []
  deriving DecidableEq

/-- The element `ImageReference` of the document: the `instanceUID` of its `ImageStudy`,
the `instanceUID` of its `ImageSeries`, and the `sopInstanceUID` of every `Image` of
its `imageCollection`. -/
structure ImageReference where
  studyInstanceUID : String
  seriesInstanceUID : String
  imageCollection : List String
  deriving DecidableEq

/-- The document `doc` built by `SaveReportToAIM`: the attribute "name" of the root
element and the two collections. The other attributes and the elements `user`,
`equipment` and `person` are constants of the schema, the time or the environment;
they are left out. -/
structure AIMDocument where
  name : Option String
  geometricShapeCollection : List GeometricShape
  imageReferenceCollection : List ImageReference
  deriving DecidableEq

/-- Modelled from the spec: the "AIM document output", "a single XML-like file at a
caller-given path", written through `std::ofstream` of the C++ library. The content
of a file is the document; its serialisation by `QDomDocument::toString` is not
modelled. -/
structure FileSystem where
  /-- the paths at which no file can be opened for writing -/
  unwritable : List String := []
  /-- the files, by path -/
  files : List (String × AIMDocument) := []
  deriving DecidableEq

/-- The statements `std::ofstream outputFile(filename); outputFile << xml;`: the file
is created or truncated and receives the document; when the file cannot be opened
the stream is in a failed state and the insertion writes nothing. -/
def FileSystem.ofstream (fs : FileSystem) (filename : String) (doc : AIMDocument) :
    FileSystem :=
  if filename ∈ fs.unwritable then fs
  else { fs with files := (filename, doc) :: fs.files.filter (fun f => f.1 ≠ filename) }

/-- What a call of `SaveReportToAIM` leaves behind. -/
structure ExportResult where
  /-- the value returned -/
  code : Int
  /-- the logic after the call -/
  logic : Logic
  /-- the files after the call -/
  files : FileSystem
  /-- the instance UIDs passed to `loadInstanceHeader`, in the order of the calls -/
  loaded : List String
  /-- the document serialised at line 1226, null when the method returned before -/
  doc : Option AIMDocument
  deriving DecidableEq

/-- The method `GetMarkupVolumeNode(node)`. -/
def GetMarkupVolumeNode (self : Logic) (node : Option Node) : Except Fault (Option Node) :=
  match node with
  | none => .ok none
  | some node =>
    match self.MRMLScene with
    | none => .ok none
    | some scene =>
      -- the guard after the downcast tests `node`, which is not null here, not `cpNode`
      match SafeDownCast .vtkMRMLAnnotationControlPointsNode node with
      | none => .error .nullDereference
      | some cpNode =>
        match cpNode.GetAttribute "AssociatedNodeID" with
        | none => .ok none
        | some associatedNodeID =>
          match scene.GetNodeByID (some associatedNodeID) with
          | none => .ok none
          | some mrmlNode => .ok (SafeDownCast .vtkMRMLScalarVolumeNode mrmlNode)

/-- The method `GetMarkupPointCoordinatesStr(ann)`: for every control point the values
`ijk[0]` and `ijk[1]`, in order. -/
def GetMarkupPointCoordinatesStr (self : Logic) (ann : Option Node) : Except Fault (List ℚ) :=
  match ann.bind (SafeDownCast .vtkMRMLAnnotationControlPointsNode) with
  | none => .ok []
  | some cpNode =>
    match GetMarkupVolumeNode self ann with
    | .error e => .error e
    | .ok none => .ok []
    | .ok (some vol) =>
      .ok (cpNode.ControlPoints.flatMap (fun p =>
        let ras : Vec4 := (p.1, p.2.1, p.2.2, 1)
        let ijk := vol.RASToIJKMatrix.MultiplyPoint ras
        [ijk.1, ijk.2.1]))

/-- The loop of `AddSpatialCoordinateCollectionElement` over `coordList`, two
coordinates at a time. -/
def AddSpatialCoordinateCollectionElement.loop (sliceUIDList : List String) :
    List ℚ → Except Fault (List SpatialCoordinate)
  | [] => .ok []
  | x :: coordList =>
    match sliceUIDList[0]? with
    | none => .error .indexOutOfRange
    | some sliceUID =>
      match coordList with
      | [] => .error .indexOutOfRange
      | y :: rest =>
        match AddSpatialCoordinateCollectionElement.loop sliceUIDList rest with
        | .error e => .error e
        | .ok scs => .ok ({ imageReferenceUID := sliceUID, x := x, y := y } :: scs)

/-- The method `AddSpatialCoordinateCollectionElement(doc, parent, coordList,
sliceUIDList)`: the element `parent` with the new collection. -/
def AddSpatialCoordinateCollectionElement (parent : GeometricShape) (coordList : List ℚ)
    (sliceUIDList : List String) : Except Fault GeometricShape :=
  match AddSpatialCoordinateCollectionElement.loop sliceUIDList coordList with
  | .error e => .error e
  | .ok scs => .ok { parent with spatialCoordinateCollection := scs }

/-- The loop of `SaveReportToAIM` over `allChildren` (lines 1011-1086), entered with the
value of `shapeId`, the children of `gsc` and `allInstanceUIDs`. The result is null
when the method returns `EXIT_FAILURE` from inside the loop. -/
def SaveReportToAIM.shapeLoop (self : Logic) (scene : Scene) :
    List Node → Int → List GeometricShape → List String →
      Except Fault (Option (List GeometricShape × List String))
  | [], _, gsc, allInstanceUIDs => .ok (some (gsc, allInstanceUIDs))
  | child :: rest, shapeId, gsc, allInstanceUIDs =>
    match scene.GetAssociatedNode child with
    | none => SaveReportToAIM.shapeLoop self scene rest shapeId gsc allInstanceUIDs
    | some mrmlAssociatedNode =>
      let annNode := SafeDownCast .vtkMRMLAnnotationNode mrmlAssociatedNode
      let fidNode := SafeDownCast .vtkMRMLAnnotationFiducialNode mrmlAssociatedNode
      let rulerNode := SafeDownCast .vtkMRMLAnnotationRulerNode mrmlAssociatedNode
      if fidNode.isSome || rulerNode.isSome then
        match GetSliceUIDFromMarkUp self annNode with
        | .error e => .error e
        | .ok sliceUID =>
          if sliceUID = "NONE" then .ok none
          else
            match GetMarkupPointCoordinatesStr self annNode with
            | .error e => .error e
            | .ok coordStr =>
              -- Fiducial = AIM Point
              let afterFid : Option (GeometricShape × Int) :=
                if fidNode.isSome then
                  if coordStr.length ≠ 2 then none
                  else some ({ xsiType := some "Point", shapeIdentifier := some shapeId },
                    shapeId + 1)
                else some ({}, shapeId)
              match afterFid with
              | none => .ok none
              | some (gs1, shapeId1) =>
                -- Ruler = AIM MultiPoint
                let afterRuler : Option (GeometricShape × Int) :=
                  if rulerNode.isSome then
                    if coordStr.length ≠ 4 then none
                    else some ({ gs1 with xsiType := some "MultiPoint",
                                          shapeIdentifier := some shapeId1 }, shapeId1 + 1)
                  else some (gs1, shapeId1)
                match afterRuler with
                | none => .ok none
                | some (gs2, shapeId2) =>
                  match AddSpatialCoordinateCollectionElement gs2 coordStr [sliceUID] with
                  | .error e => .error e
                  | .ok gs =>
                    SaveReportToAIM.shapeLoop self scene rest shapeId2 (gsc ++ [gs])
                      (allInstanceUIDs ++ [sliceUID])
      else SaveReportToAIM.shapeLoop self scene rest shapeId gsc allInstanceUIDs

/-- The expression `value.split("]")[0].split("[")[1]`: the text between the first "["
and the next "[" of the part of `value` before its first "]". Without a "[" in that
part the second list has one element and the index 1 is outside it. -/
def bracketValue (value : String) : Except Fault String :=
  let beforeClose := value.data.takeWhile (fun c => c != ']')
  match beforeClose.dropWhile (fun c => c != '[') with
  | [] => .error .indexOutOfRange
  | _ :: rest => .ok (String.mk (rest.takeWhile (fun c => c != '[')))

/-- A `std::map<QString, QStringList>`: its entries, in the order of the keys. -/
abbrev StringListMap := List (String × List String)

/-- The value found by `m.find(key)`, null for `m.end()`. -/
def StringListMap.find (m : StringListMap) (key : String) : Option (List String) :=
  List.lookup key m

/-- The assignment `m[key] = value`: the entry of `key` receives the value; a new entry
takes its place in the order of the keys. -/
def StringListMap.assign : StringListMap → String → List String → StringListMap
  | [], key, value => [(key, value)]
  | (k, v) :: rest, key, value =>
    if key = k then (k, value) :: rest
    else if key < k then (key, value) :: (k, v) :: rest
    else (k, v) :: StringListMap.assign rest key value

/-- The map after the evaluation of `m[key]`: a key that is not in the map is inserted
with an empty list. -/
def StringListMap.subscript (m : StringListMap) (key : String) : StringListMap :=
  match StringListMap.find m key with
  | some _ => m
  | none => StringListMap.assign m key []

/-- Lines 1140-1150 of `SaveReportToAIM`: the map `seriesToImageList` after the image
is recorded for its series. -/
def SaveReportToAIM.recordImage (seriesToImageList : StringListMap)
    (seriesUID imageUID : String) : StringListMap :=
  match StringListMap.find seriesToImageList seriesUID with
  | none => StringListMap.assign seriesToImageList seriesUID [imageUID]
  | some images =>
    if images.contains imageUID then seriesToImageList
    else StringListMap.assign seriesToImageList seriesUID (images ++ [imageUID])

/-- Lines 1151-1161 of `SaveReportToAIM`: the map `studyToSeriesList` after the series
is recorded for its study. -/
def SaveReportToAIM.recordSeries (studyToSeriesList : StringListMap)
    (studyUID seriesUID : String) : StringListMap :=
  -- line 1151 compares the iterator `studyToSeriesList.find(studyUID)` with
  -- `seriesToImageList.end()`, the end of the other map, which no iterator of
  -- `studyToSeriesList` equals: the branch of line 1157 is taken, where
  -- `studyToSeriesList[studyUID]` inserts an empty list for a new study
  let studyToSeriesList1 := StringListMap.subscript studyToSeriesList studyUID
  let series := (StringListMap.find studyToSeriesList1 studyUID).getD []
  if series.contains seriesUID then studyToSeriesList1
  else StringListMap.assign studyToSeriesList1 studyUID (series ++ [seriesUID])

/-- Lines 1140-1161 of `SaveReportToAIM`: the two maps after the identifiers of one
instance are recorded. -/
def SaveReportToAIM.record (seriesToImageList studyToSeriesList : StringListMap)
    (imageUID studyUID seriesUID : String) : StringListMap × StringListMap :=
  (SaveReportToAIM.recordImage seriesToImageList seriesUID imageUID,
   SaveReportToAIM.recordSeries studyToSeriesList studyUID seriesUID)

/-- The loop of `SaveReportToAIM` over `allInstanceUIDs` (lines 1103-1162), entered with
the database, the instance UIDs loaded so far and the two maps. The maps of the
result are null when the method returns `EXIT_FAILURE` from inside the loop. -/
def SaveReportToAIM.headerLoop :
    List String → DICOMDatabase → List String → StringListMap → StringListMap →
      Except Fault (DICOMDatabase × List String × Option (StringListMap × StringListMap))
  | [], db, loaded, seriesToImageList, studyToSeriesList =>
    .ok (db, loaded, some (seriesToImageList, studyToSeriesList))
  | instanceUID :: rest, db, loaded, seriesToImageList, studyToSeriesList =>
    let db1 := db.loadInstanceHeader instanceUID
    let loaded1 := loaded ++ [instanceUID]
    let imageUID := db1.headerValue "0008,0018"
    let studyUID := db1.headerValue "0020,000d"
    let seriesUID := db1.headerValue "0020,000e"
    if imageUID = "" then .ok (db1, loaded1, none)
    else
      match bracketValue imageUID with
      | .error e => .error e
      | .ok imageUID =>
        if studyUID = "" then .ok (db1, loaded1, none)
        else
          match bracketValue studyUID with
          | .error e => .error e
          | .ok studyUID =>
            if seriesUID = "" then .ok (db1, loaded1, none)
            else
              match bracketValue seriesUID with
              | .error e => .error e
              | .ok seriesUID =>
                let maps := SaveReportToAIM.record seriesToImageList studyToSeriesList
                  imageUID studyUID seriesUID
                SaveReportToAIM.headerLoop rest db1 loaded1 maps.1 maps.2

/-- Lines 1164-1221 of `SaveReportToAIM`: the children of `imageReferenceCollection`,
one `ImageReference` for every series of every study, in the order of the study map. -/
def SaveReportToAIM.imageReferences (seriesToImageList studyToSeriesList : StringListMap) :
    List ImageReference :=
  studyToSeriesList.flatMap (fun entry =>
    entry.2.map (fun seriesUID =>
      { studyInstanceUID := entry.1, seriesInstanceUID := seriesUID,
        imageCollection := (StringListMap.find seriesToImageList seriesUID).getD [] }))

/-- Lines 1003-1087 of `SaveReportToAIM`: the children of `gsc` and `allInstanceUIDs`
after the loop over the subtree of `markupHierarchyNode`; nothing is done for a null
node. The result is null when the method returns `EXIT_FAILURE` from inside the loop. -/
def SaveReportToAIM.shapes (self : Logic) (markupHierarchyNode : Option Node) :
    Except Fault (Option (List GeometricShape × List String)) :=
  match markupHierarchyNode with
  | none => .ok (some ([], []))
  | some markupHierarchyNode =>
    match self.sceneOf markupHierarchyNode with
    | none => .ok (some ([], []))
    | some scene =>
      SaveReportToAIM.shapeLoop self scene (scene.GetAllChildrenNodes markupHierarchyNode.ID)
        0 [] []

/-- The part of `SaveReportToAIM` from line 902 on, for the value of
`markupHierarchyNode` found before. -/
def SaveReportToAIM.document (self : Logic) (fs : FileSystem) (db : DICOMDatabase)
    (reportNode : Node) (filename : String) (markupHierarchyNode : Option Node) :
    Except Fault ExportResult :=
  match SaveReportToAIM.shapes self markupHierarchyNode with
  | .error e => .error e
  | .ok none =>
    .ok { code := EXIT_FAILURE, logic := self, files := fs, loaded := [], doc := none }
  | .ok (some (gsc, allInstanceUIDs)) =>
    match SaveReportToAIM.headerLoop allInstanceUIDs db [] [] [] with
    | .error e => .error e
    | .ok (db1, loaded, none) =>
      .ok { code := EXIT_FAILURE, logic := { self with DICOMDatabase := some db1 }, files := fs,
            loaded := loaded, doc := none }
    | .ok (db1, loaded, some (seriesToImageList, studyToSeriesList)) =>
      let doc : AIMDocument :=
        { name := reportNode.Description, geometricShapeCollection := gsc,
          imageReferenceCollection :=
            SaveReportToAIM.imageReferences seriesToImageList studyToSeriesList }
      -- the state of the stream is not tested
      .ok { code := EXIT_SUCCESS, logic := { self with DICOMDatabase := some db1 },
            files := fs.ofstream filename doc, loaded := loaded, doc := some doc }

/-- Lines 866-900 of `SaveReportToAIM`: the logic after the active markup is set from the
volume of the report, and the value of `markupHierarchyNode`. The value is null when
the method returns `EXIT_FAILURE` at line 897. -/
def SaveReportToAIM.markupHierarchyNode (self : Logic) (reportNode : Node) :
    Except Fault (Logic × Option (Option Node)) :=
  match GetVolumeIDForReportNode self (some reportNode) with
  | none => .ok (self, some none)
  | some volumeID =>
    match self.MRMLScene with
    | none => .error .nullDereference
    | some scene =>
      match (scene.GetNodeByID (some volumeID)).bind
          (SafeDownCast .vtkMRMLScalarVolumeNode) with
      | none => .ok (self, some none)
      | some volumeNode =>
        match SetActiveMarkupHierarchyIDFromNode self (some volumeNode) with
        | .error e => .error e
        | .ok self1 =>
          match scene.GetNodeByID self1.ActiveMarkupHierarchyID with
          | none => .ok (self1, some none)
          | some mrmlMarkupNode =>
            match SafeDownCast .vtkMRMLAnnotationHierarchyNode mrmlMarkupNode with
            | none => .ok (self1, none)
            | some markupHierarchyNode => .ok (self1, some (some markupHierarchyNode))

/-- The method `SaveReportToAIM(reportNode, filename)`, with the files before the call. -/
def SaveReportToAIM (self : Logic) (fs : FileSystem) (reportNode : Option Node)
    (filename : Option String) : Except Fault ExportResult :=
  let failure : ExportResult :=
    { code := EXIT_FAILURE, logic := self, files := fs, loaded := [], doc := none }
  match self.DICOMDatabase with
  | none => .ok failure
  | some db =>
    match reportNode with
    | none => .ok failure
    | some reportNode =>
      match filename with
      | none => .ok failure
      | some filename =>
        match SaveReportToAIM.markupHierarchyNode self reportNode with
        | .error e => .error e
        | .ok (self1, none) =>
          .ok { code := EXIT_FAILURE, logic := self1, files := fs, loaded := [], doc := none }
        | .ok (self1, some markupHierarchyNode) =>
          SaveReportToAIM.document self1 fs db reportNode filename markupHierarchyNode

/-! ## Definitions used in the statements about the exporter, and test scenes -/

/-- The fiducials and rulers under a markup hierarchy node: the associated nodes of the
hierarchy nodes of its subtree that are fiducials or rulers, in the order of
`GetAllChildrenNodes`. -/
def Scene.markupNodesUnder (s : Scene) (markupHierarchyNode : Node) : List Node :=
  (s.allChildrenOf markupHierarchyNode).filterMap
    (fun h => (s.GetAssociatedNode h).filter
      (fun a => a.cls.IsA .vtkMRMLAnnotationFiducialNode || a.cls.IsA .vtkMRMLAnnotationRulerNode))

/-- The image, study and series identifiers that the header lookups of
`SaveReportToAIM` read for an instance, without their brackets; null when one of the
three has no bracket to strip. -/
def DICOMDatabase.instanceTriple (db : DICOMDatabase) (instanceUID : String) :
    Option (String × String × String) :=
  let db1 := db.loadInstanceHeader instanceUID
  match bracketValue (db1.headerValue "0008,0018"), bracketValue (db1.headerValue "0020,000d"),
      bracketValue (db1.headerValue "0020,000e") with
  | .ok imageUID, .ok studyUID, .ok seriesUID => some (imageUID, studyUID, seriesUID)
  | _, _, _ => none

/-- The header of an instance with the given image, study and series identifiers. -/
def testHeader (imageUID studyUID seriesUID : String) : List (String × String) :=
  [("0008,0018", "[" ++ imageUID ++ "]"), ("0020,000d", "[" ++ studyUID ++ "]"),
   ("0020,000e", "[" ++ seriesUID ++ "]")]

/-- A database with the instance "A" of series "SE1" and the instance "B" of series
"SE2", both of study "ST1". -/
def exportDatabase : DICOMDatabase :=
  { headers := [("A", testHeader "IMG1" "ST1" "SE1"), ("B", testHeader "IMG2" "ST1" "SE2")] }

/-- The report of the export scenes, with the description "TestReport". -/
def testReport : Node :=
  { reportingReport with Description := some "TestReport" }

/-- A fiducial or ruler with the given identifier, drawn on the volume `volumeID`. -/
def exportMarkupNode (cls : NodeClass) (id volumeID : String) (points : List (ℚ × ℚ × ℚ)) :
    Node :=
  { cls := cls, ID := some id, Name := some "F", InScene := true,
    Attributes := [("AssociatedNodeID", volumeID)], ControlPoints := points }

/-- The nodes that every export scene holds: the report, the volume "vol1" with the one
slice "A", the hierarchy nodes of the report and of the volume and the markup node
"Markup CT". -/
def exportBaseNodes : List Node :=
  [testReport, testVolume "A",
   hierarchyNode .vtkMRMLDisplayableHierarchyNode "vtkMRMLDisplayableHierarchyNode5"
     "Report Hierarchy" true none (some "vtkMRMLReportingReportNode2"),
   hierarchyNode .vtkMRMLDisplayableHierarchyNode "vtkMRMLDisplayableHierarchyNode6"
     "CT Hierarchy " true (some "vtkMRMLDisplayableHierarchyNode5") (some "vol1"),
   hierarchyNode .vtkMRMLAnnotationHierarchyNode "vtkMRMLAnnotationHierarchyNode7"
     "Markup CT" false (some "vtkMRMLDisplayableHierarchyNode6") none]

/-- The markup node of the export scenes. -/
def exportMarkupHierarchyNode : Node :=
  hierarchyNode .vtkMRMLAnnotationHierarchyNode "vtkMRMLAnnotationHierarchyNode7"
    "Markup CT" false (some "vtkMRMLDisplayableHierarchyNode6") none

/-- The hierarchy node of a fiducial or ruler under the markup node of the export
scenes. -/
def exportMarkupChild (id associated : String) : Node :=
  hierarchyNode .vtkMRMLAnnotationHierarchyNode id "F Hierarchy" true
    (some "vtkMRMLAnnotationHierarchyNode7") (some associated)

/-- An export scene with one fiducial "ann1" on the slice "A" of the volume. -/
def exportScene : Scene :=
  { nodes := exportBaseNodes ++
      [exportMarkupNode .vtkMRMLAnnotationFiducialNode "ann1" "vol1" [(3, 4, 0)],
       exportMarkupChild "vtkMRMLAnnotationHierarchyNode9" "ann1"] }

/-- The logic on `exportScene`, with the database initialised. -/
def exportLogic : Logic :=
  { MRMLScene := some exportScene, DICOMDatabase := some exportDatabase }

/-- The document of the export of `exportScene`. -/
def exportDocument : AIMDocument :=
  { name := some "TestReport"
    geometricShapeCollection :=
      [{ xsiType := some "Point", shapeIdentifier := some 0,
         spatialCoordinateCollection := [{ imageReferenceUID := "A", x := 3, y := 4 }] }]
    imageReferenceCollection :=
      [{ studyInstanceUID := "ST1", seriesInstanceUID := "SE1", imageCollection := ["IMG1"] }] }

/-- An export scene with a second volume "vol2" with the one slice "B", and two
fiducials under the markup node: "ann1" on the slice "A" of the first volume and
"ann2" on the slice "B" of the second. -/
def twoSeriesScene : Scene :=
  { nodes := exportBaseNodes ++
      [{ cls := .vtkMRMLScalarVolumeNode, ID := some "vol2", Name := some "MR", InScene := true,
         Attributes := [("DICOM.instanceUIDs", "B")] },
       exportMarkupNode .vtkMRMLAnnotationFiducialNode "ann1" "vol1" [(3, 4, 0)],
       exportMarkupChild "vtkMRMLAnnotationHierarchyNode9" "ann1",
       exportMarkupNode .vtkMRMLAnnotationFiducialNode "ann2" "vol2" [(5, 6, 0)],
       exportMarkupChild "vtkMRMLAnnotationHierarchyNode11" "ann2"] }

/-- The logic on `twoSeriesScene`, with the database initialised. -/
def twoSeriesLogic : Logic :=
  { MRMLScene := some twoSeriesScene, DICOMDatabase := some exportDatabase }

/-- An export scene with two fiducials under the markup node: "ann1" on the slice "A",
and after it "ann2" without control points, which resolves to "NONE". -/
def unresolvedScene : Scene :=
  { nodes := exportBaseNodes ++
      [exportMarkupNode .vtkMRMLAnnotationFiducialNode "ann1" "vol1" [(3, 4, 0)],
       exportMarkupChild "vtkMRMLAnnotationHierarchyNode9" "ann1",
       exportMarkupNode .vtkMRMLAnnotationFiducialNode "ann2" "vol1" [],
       exportMarkupChild "vtkMRMLAnnotationHierarchyNode11" "ann2"] }

/-- The logic on `unresolvedScene`, with the database initialised. -/
def unresolvedLogic : Logic :=
  { MRMLScene := some unresolvedScene, DICOMDatabase := some exportDatabase }

/-- An export scene where the report has a hierarchy node and no volume under it. -/
def noVolumeLogic : Logic :=
  { MRMLScene := some { nodes :=
      [testReport,
       hierarchyNode .vtkMRMLDisplayableHierarchyNode "vtkMRMLDisplayableHierarchyNode5"
         "Report Hierarchy" true none (some "vtkMRMLReportingReportNode2")] }
    DICOMDatabase := some exportDatabase }

/-- The shape record `gs` is the record of the fiducial or ruler `a`: the annotation
resolves to a slice UID other than "NONE"; for a fiducial the record is a "Point" with
one coordinate, for a ruler a "MultiPoint" with two, and every coordinate refers to
that slice UID. -/
def IsShapeRecordOf (self : Logic) (a : Node) (gs : GeometricShape) : Prop :=
  ∃ uid, GetSliceUIDFromMarkUp self (some a) = .ok uid ∧ uid ≠ "NONE" ∧
    (a.cls.IsA .vtkMRMLAnnotationFiducialNode = true →
      gs.xsiType = some "Point" ∧
      gs.spatialCoordinateCollection.map (fun c => c.imageReferenceUID) = [uid]) ∧
    (a.cls.IsA .vtkMRMLAnnotationRulerNode = true →
      gs.xsiType = some "MultiPoint" ∧
      gs.spatialCoordinateCollection.map (fun c => c.imageReferenceUID) = [uid, uid])

/-- The map groups the pairs of key and value: its keys are in increasing order, a key
without an entry is the key of no pair, and the list of a key holds the values paired
with the key, each of them once. -/
def StringListMap.Groups (m : StringListMap) (pairs : List (String × String)) : Prop :=
  (m.map Prod.fst).Pairwise (fun a b => a < b) ∧
  (∀ k, StringListMap.find m k = none → ∀ p ∈ pairs, p.1 ≠ k) ∧
  (∀ k vs, StringListMap.find m k = some vs → vs.Nodup ∧ ∀ v, v ∈ vs ↔ (k, v) ∈ pairs)

/-- The document of the export of `twoSeriesScene`: two image references for the two
series of the one study. -/
def twoSeriesDocument : AIMDocument :=
  { name := some "TestReport"
    geometricShapeCollection :=
      [{ xsiType := some "Point", shapeIdentifier := some 0,
         spatialCoordinateCollection := [{ imageReferenceUID := "A", x := 3, y := 4 }] },
       { xsiType := some "Point", shapeIdentifier := some 1,
         spatialCoordinateCollection := [{ imageReferenceUID := "B", x := 5, y := 6 }] }]
    imageReferenceCollection :=
      [{ studyInstanceUID := "ST1", seriesInstanceUID := "SE1", imageCollection := ["IMG1"] },
       { studyInstanceUID := "ST1", seriesInstanceUID := "SE2", imageCollection := ["IMG2"] }] }

/-! ## Test scene of the node-added handler without an active markup node -/

/-- The scene `markupScene` with the hierarchy node of the fiducial under the markup
node. -/
def attachedScene : Scene :=
  { nodes :=
      [reportingParameterNode, describedReport, testVolume "UID0 UID1 UID2",
       testMarkupNode .vtkMRMLAnnotationFiducialNode [(0, 0, 1)],
       hierarchyNode .vtkMRMLDisplayableHierarchyNode "vtkMRMLDisplayableHierarchyNode5"
         "Report Hierarchy" true none (some "vtkMRMLReportingReportNode2"),
       hierarchyNode .vtkMRMLAnnotationHierarchyNode "vtkMRMLAnnotationHierarchyNode6"
         "Markup CT" false none none,
       hierarchyNode .vtkMRMLAnnotationHierarchyNode "vtkMRMLAnnotationHierarchyNode7"
         "A Hierarchy" true (some "vtkMRMLAnnotationHierarchyNode6") (some "ann1")] }

/-- The logic on `attachedScene`, with the GUI visible and no active markup node. -/
def attachedLogic : Logic :=
  { MRMLScene := some attachedScene
    ActiveParameterNodeID := some "vtkMRMLScriptedModuleNode1" }

/-! ## Test scenes of the active report lookup -/

/-- The test scene after the hierarchies of the report and of the volume were set up:
`labelMapScene` without the hierarchy node of the label map. -/
def volumeScene : Scene :=
  { nodes := labelMapScene.nodes.dropLast }

/-- The logic on `volumeScene`, with the markup set of the volume active. -/
def volumeLogic : Logic :=
  { labelMapLogic with MRMLScene := some volumeScene }

/-- A report with the name "Reporting". -/
def namesakeReport : Node :=
  { cls := .vtkMRMLReportingReportNode, ID := some "vtkMRMLReportingReportNode1",
    Name := some "Reporting", InScene := true }

/-- The logic on a scene that holds the report `namesakeReport` and nothing else. -/
def namesakeLogic : Logic :=
  { MRMLScene := some { nodes := [namesakeReport] } }

/-! ## Theorems: slice identity -/

theorem GetSliceUIDFromMarkUp_of_resolvable {self : Logic} {node volumeNode : Node}
    {uidsString : String} (h : Resolvable self node volumeNode uidsString) :
    GetSliceUIDFromMarkUp self (some node) =
      pointLoop (parseUIDs uidsString) volumeNode.RASToIJKMatrix node.ControlPoints 0 "NONE" := by
  obtain ⟨hcp, ⟨scene, id, hs, ha, hv⟩, hsv, hu⟩ := h
  simp [GetSliceUIDFromMarkUp, SafeDownCast, hs, hcp, ha, hv, hsv, hu]

theorem toUnsignedInt_natCast {k : Nat} (h : k < 4294967296) : toUnsignedInt (k : Int) = k := by
  unfold toUnsignedInt
  omega

theorem pointUID_of_lt {uidVector : List String} {m : Matrix4x4} {p : ℚ × ℚ × ℚ}
    (h : sliceIndex m p < uidVector.length) :
    pointUID uidVector m p = .ok (uidVector[sliceIndex m p]) := by
  simp [pointUID, vectorAt, h]

theorem pointUID_of_ge {uidVector : List String} {m : Matrix4x4} {p : ℚ × ℚ × ℚ}
    (h : uidVector.length ≤ sliceIndex m p) (hne : 0 < uidVector.length) :
    pointUID uidVector m p = .ok (uidVector[0]) := by
  have : ¬ (sliceIndex m p < uidVector.length) := by omega
  simp [pointUID, vectorAt, this, hne]

theorem pointUID_ok_of_ne_nil {uidVector : List String} (m : Matrix4x4) (p : ℚ × ℚ × ℚ)
    (hne : 0 < uidVector.length) : ∃ u, pointUID uidVector m p = .ok u := by
  by_cases h : sliceIndex m p < uidVector.length
  · exact ⟨_, pointUID_of_lt h⟩
  · exact ⟨_, pointUID_of_ge (by omega) hne⟩

theorem length_pos_of_pointUID_ok {uidVector : List String} {m : Matrix4x4} {p : ℚ × ℚ × ℚ}
    {u : String} (h : pointUID uidVector m p = .ok u) : 0 < uidVector.length := by
  rcases Nat.eq_zero_or_pos uidVector.length with h0 | h0
  · have hnil : uidVector = [] := List.length_eq_zero.mp h0
    subst hnil
    simp [pointUID, vectorAt] at h
  · exact h0

/-- Past the first point, a run of points that all carry the running UID keeps it. -/
theorem pointLoop_all_same {uidVector : List String} {m : Matrix4x4} {u : String} :
    ∀ (pts : List (ℚ × ℚ × ℚ)) (i : Nat), 0 < i →
      (∀ p ∈ pts, pointUID uidVector m p = .ok u) →
      pointLoop uidVector m pts i u = .ok u
  | [], _, _, _ => by simp [pointLoop]
  | p :: rest, i, hi, h => by
    have hp := h p (List.mem_cons_self _ _)
    have hi0 : i ≠ 0 := by omega
    simp only [pointLoop, hp, hi0, if_false, ne_eq, not_true_eq_false]
    exact pointLoop_all_same rest (i + 1) (by omega) (fun q hq => h q (List.mem_cons_of_mem _ hq))

/-- Past the first point, a point whose UID differs from the running UID ends the loop
with the sentinel. -/
theorem pointLoop_mismatch {uidVector : List String} {m : Matrix4x4} {u : String}
    (hne : 0 < uidVector.length) :
    ∀ (pts : List (ℚ × ℚ × ℚ)) (i : Nat), 0 < i →
      (∃ p ∈ pts, pointUID uidVector m p ≠ .ok u) →
      pointLoop uidVector m pts i u = .ok "NONE"
  | [], _, _, h => by simp at h
  | p :: rest, i, hi, h => by
    have hi0 : i ≠ 0 := by omega
    obtain ⟨v, hv⟩ := pointUID_ok_of_ne_nil m p hne
    by_cases hvu : v = u
    · subst hvu
      have h' : ∃ q ∈ rest, pointUID uidVector m q ≠ .ok v := by
        obtain ⟨q, hq, hqu⟩ := h
        rcases List.mem_cons.mp hq with rfl | hq
        · exact absurd hv hqu
        · exact ⟨q, hq, hqu⟩
      simp only [pointLoop, hv, hi0, if_false, ne_eq, not_true_eq_false]
      exact pointLoop_mismatch hne rest (i + 1) (by omega) h'
    · simp [pointLoop, hv, hi0, hvu]


theorem testLogic_resolvable (uids : String) (cls : NodeClass)
    (hcls : cls.IsA .vtkMRMLAnnotationControlPointsNode = true) (points : List (ℚ × ℚ × ℚ)) :
    Resolvable (testLogic uids) (testMarkupNode cls points) (testVolume uids) uids := by
  refine ⟨hcls, ⟨_, "vol1", rfl, ?_, ?_⟩, rfl, ?_⟩
  · simp [testMarkupNode, Node.GetAttribute, List.lookup]
  · simp [Scene.GetNodeByID, testVolume]
  · simp [testVolume, Node.GetAttribute, List.lookup]

/-- C1 (amended): when every control point of a resolvable annotation with at least one
control point has an IJK z coordinate that rounds to the same integer `k`, with
`0 ≤ k < N` for the number `N` of tokens of the UID list and `k` below `2^32`, the
result is exactly the `k`-th token. -/
theorem GetSliceUIDFromMarkUp_common_slice (self : Logic) (node volumeNode : Node)
    (uidsString : String) (k : Nat)
    (hres : Resolvable self node volumeNode uidsString)
    (hpts : node.ControlPoints ≠ [])
    (hround : ∀ p ∈ node.ControlPoints,
      round (ijkSlice volumeNode.RASToIJKMatrix p) = (k : Int))
    (hk : k < (parseUIDs uidsString).length)
    (h32 : k < 4294967296) :
    GetSliceUIDFromMarkUp self (some node) = .ok ((parseUIDs uidsString)[k]) := by
  rw [GetSliceUIDFromMarkUp_of_resolvable hres]
  have hidx : ∀ p ∈ node.ControlPoints, sliceIndex volumeNode.RASToIJKMatrix p = k := by
    intro p hp
    simp [sliceIndex, hround p hp, toUnsignedInt_natCast h32]
  have huid : ∀ p ∈ node.ControlPoints,
      pointUID (parseUIDs uidsString) volumeNode.RASToIJKMatrix p
        = .ok ((parseUIDs uidsString)[k]) := by
    intro p hp
    have h := @pointUID_of_lt (parseUIDs uidsString)
      volumeNode.RASToIJKMatrix p (by rw [hidx p hp]; exact hk)
    simpa [hidx p hp] using h
  cases hcp : node.ControlPoints with
  | nil => exact absurd hcp hpts
  | cons p rest =>
    rw [hcp] at huid
    simp only [pointLoop, huid p (List.mem_cons_self _ _), if_true]
    exact pointLoop_all_same rest 1 (by omega) (fun q hq => huid q (List.mem_cons_of_mem _ hq))

/-- Witness of C1: UID list "UID0 UID1 UID2", identity matrix, one point with
z = 1.4 resolves to "UID1". -/
theorem GetSliceUIDFromMarkUp_common_slice_witness :
    GetSliceUIDFromMarkUp (testLogic "UID0 UID1 UID2")
      (some (testMarkupNode .vtkMRMLAnnotationFiducialNode [(0, 0, 7 / 5)])) = .ok "UID1" :=
  GetSliceUIDFromMarkUp_common_slice (testLogic "UID0 UID1 UID2")
    (testMarkupNode .vtkMRMLAnnotationFiducialNode [(0, 0, 7 / 5)])
    (testVolume "UID0 UID1 UID2") "UID0 UID1 UID2" 1
    (testLogic_resolvable _ _ (by decide) _)
    (by simp [testMarkupNode])
    (by decide!)
    (by decide)
    (by decide)

/-- C2: in an annotation with two or more control points, if some control point after
the first maps to a UID different from the UID of the first point, the result is
the sentinel "NONE", whatever the remaining points map to. -/
theorem GetSliceUIDFromMarkUp_mismatch (self : Logic) (node volumeNode : Node)
    (uidsString : String) (p0 : ℚ × ℚ × ℚ) (rest : List (ℚ × ℚ × ℚ)) (u0 : String)
    (hres : Resolvable self node volumeNode uidsString)
    (hpts : node.ControlPoints = p0 :: rest)
    (hfirst : pointUID (parseUIDs uidsString) volumeNode.RASToIJKMatrix p0 = .ok u0)
    (hother : ∃ p ∈ rest,
      pointUID (parseUIDs uidsString) volumeNode.RASToIJKMatrix p ≠ .ok u0) :
    GetSliceUIDFromMarkUp self (some node) = .ok "NONE" := by
  rw [GetSliceUIDFromMarkUp_of_resolvable hres, hpts]
  simp only [pointLoop, hfirst, if_true]
  exact pointLoop_mismatch (length_pos_of_pointUID_ok hfirst) rest 1 (by omega) hother

/-- Witness of C2: a ruler whose two points fall on the z indices 0 and 2 of the
list "UID0 UID1 UID2" of distinct UIDs. -/
theorem GetSliceUIDFromMarkUp_mismatch_witness :
    pointUID (parseUIDs "UID0 UID1 UID2") Matrix4x4.Identity (0, 0, 0) = .ok "UID0" ∧
    pointUID (parseUIDs "UID0 UID1 UID2") Matrix4x4.Identity (5, 5, 2) = .ok "UID2" ∧
    GetSliceUIDFromMarkUp (testLogic "UID0 UID1 UID2")
      (some (testMarkupNode .vtkMRMLAnnotationRulerNode [(0, 0, 0), (5, 5, 2)])) = .ok "NONE" :=
  ⟨by decide!, by decide!,
   GetSliceUIDFromMarkUp_mismatch (testLogic "UID0 UID1 UID2")
    (testMarkupNode .vtkMRMLAnnotationRulerNode [(0, 0, 0), (5, 5, 2)])
    (testVolume "UID0 UID1 UID2") "UID0 UID1 UID2" (0, 0, 0) [(5, 5, 2)] "UID0"
    (testLogic_resolvable _ _ (by decide) _) rfl (by decide!)
    ⟨(5, 5, 2), List.mem_singleton.mpr rfl, by decide!⟩⟩

/-- C3 (failing input): for a fiducial at z = -1 on the volume with the UID list
"UID0 UID1 UID2" the rounded index `k` is -1, a negative index, and for a fiducial at
z = 4294967297 it is 4294967297, an index beyond the three tokens of the list. Neither
value is one that `unsigned int` represents: the conversion of line 431, which comes
before the test of the bounds at line 433, is undefined for both. -/
theorem GetSliceUIDFromMarkUp_conversion_undefined :
    Resolvable (testLogic "UID0 UID1 UID2")
      (testMarkupNode .vtkMRMLAnnotationFiducialNode [(0, 0, -1)])
      (testVolume "UID0 UID1 UID2") "UID0 UID1 UID2" ∧
    (parseUIDs "UID0 UID1 UID2").length = 3 ∧
    round (ijkSlice (testVolume "UID0 UID1 UID2").RASToIJKMatrix (0, 0, -1)) = -1 ∧
    representableAsUnsignedInt (-1) = false ∧
    round (ijkSlice (testVolume "UID0 UID1 UID2").RASToIJKMatrix (0, 0, 4294967297)) =
      4294967297 ∧
    representableAsUnsignedInt 4294967297 = false :=
  ⟨testLogic_resolvable _ _ (by decide) _, by decide, by decide!, by decide, by decide!,
    by decide⟩

/-- Where the conversion of line 431 is defined the fallback of lines 438-443 is taken as
its comment says: on a non-empty UID list of `N` tokens, a control point whose rounded
IJK z index `k` is at least `N` and below `2^32` has the first token as its UID, and an
annotation whose single control point it is resolves to the first token. -/
theorem GetSliceUIDFromMarkUp_beyond_list (self : Logic) (node volumeNode : Node)
    (uidsString : String) (p : ℚ × ℚ × ℚ) (k : Nat)
    (hres : Resolvable self node volumeNode uidsString)
    (hne : 0 < (parseUIDs uidsString).length)
    (hround : round (ijkSlice volumeNode.RASToIJKMatrix p) = (k : Int))
    (hout : (parseUIDs uidsString).length ≤ k)
    (h32 : k < 4294967296) :
    pointUID (parseUIDs uidsString) volumeNode.RASToIJKMatrix p
        = .ok ((parseUIDs uidsString)[0]) ∧
      (node.ControlPoints = [p] →
        GetSliceUIDFromMarkUp self (some node) = .ok ((parseUIDs uidsString)[0])) := by
  have hge : (parseUIDs uidsString).length ≤ sliceIndex volumeNode.RASToIJKMatrix p := by
    simp only [sliceIndex, hround, toUnsignedInt_natCast h32]
    exact hout
  have hp := pointUID_of_ge hge hne
  refine ⟨hp, ?_⟩
  intro hpts
  rw [GetSliceUIDFromMarkUp_of_resolvable hres, hpts]
  simp [pointLoop, hp]

/-- An instance of the fallback: with the list "UID0 UID1 UID2", a fiducial at z = 7
resolves to "UID0". -/
theorem GetSliceUIDFromMarkUp_beyond_list_witness :
    pointUID (parseUIDs "UID0 UID1 UID2") Matrix4x4.Identity (0, 0, 7) = .ok "UID0" ∧
    GetSliceUIDFromMarkUp (testLogic "UID0 UID1 UID2")
      (some (testMarkupNode .vtkMRMLAnnotationFiducialNode [(0, 0, 7)])) = .ok "UID0" :=
  have h := GetSliceUIDFromMarkUp_beyond_list (testLogic "UID0 UID1 UID2")
    (testMarkupNode .vtkMRMLAnnotationFiducialNode [(0, 0, 7)])
    (testVolume "UID0 UID1 UID2") "UID0 UID1 UID2" (0, 0, 7) 7
    (testLogic_resolvable _ _ (by decide) _) (by decide) (by decide!) (by decide) (by decide)
  ⟨h.1, h.2 rfl⟩

/-- C4 (failing input): for an annotation node that is not a control-points node the
method does not return "NONE": the failed downcast is dereferenced. -/
theorem GetSliceUIDFromMarkUp_not_control_points :
    SafeDownCast .vtkMRMLAnnotationControlPointsNode
        (testMarkupNode .vtkMRMLAnnotationNode []) = none ∧
    GetSliceUIDFromMarkUp (testLogic "UID0 UID1 UID2")
      (some (testMarkupNode .vtkMRMLAnnotationNode [])) = .error .nullDereference := by
  refine ⟨by decide, by decide⟩

/-- C5: the result is "NONE" whenever the annotation is absent, or is a control-points
annotation (with any control points) that has no "AssociatedNodeID" attribute, or whose
attribute names no node of the scene, or names a node that is not a scalar volume, or
names a scalar volume without a "DICOM.instanceUIDs" attribute. -/
theorem GetSliceUIDFromMarkUp_rejects (self : Logic) (node : Option Node)
    (h : node = none ∨
      ∃ n, node = some n ∧ n.cls.IsA .vtkMRMLAnnotationControlPointsNode = true ∧
        (n.GetAttribute "AssociatedNodeID" = none ∨
         ∃ scene id, self.MRMLScene = some scene ∧
           n.GetAttribute "AssociatedNodeID" = some id ∧
           (scene.GetNodeByID (some id) = none ∨
            ∃ v, scene.GetNodeByID (some id) = some v ∧
              (v.cls.IsA .vtkMRMLScalarVolumeNode = false ∨
               v.GetAttribute "DICOM.instanceUIDs" = none)))) :
    GetSliceUIDFromMarkUp self node = .ok "NONE" := by
  rcases h with rfl | ⟨n, rfl, hcp, h⟩
  · rfl
  · cases hs : self.MRMLScene with
    | none => simp [GetSliceUIDFromMarkUp, hs]
    | some scene =>
      rcases h with ha | ⟨scene', id, hs', ha, h⟩
      · simp [GetSliceUIDFromMarkUp, hs, SafeDownCast, hcp, ha]
      · rw [hs] at hs'
        cases hs'
        rcases h with hv | ⟨v, hv, hsv | hu⟩
        · simp [GetSliceUIDFromMarkUp, hs, SafeDownCast, hcp, ha, hv]
        · simp [GetSliceUIDFromMarkUp, hs, SafeDownCast, hcp, ha, hv, hsv]
        · by_cases hsv : v.cls.IsA .vtkMRMLScalarVolumeNode = true
          · simp [GetSliceUIDFromMarkUp, hs, SafeDownCast, hcp, ha, hv, hsv, hu]
          · simp [GetSliceUIDFromMarkUp, hs, SafeDownCast, hcp, ha, hv, hsv]

/-- Witness of C5: a ruler with two control points drawn on "vol1", in a scene whose
node "vol1" is a scalar volume without a UID list. -/
theorem GetSliceUIDFromMarkUp_rejects_witness :
    GetSliceUIDFromMarkUp
      { MRMLScene := some { nodes := [{ cls := .vtkMRMLScalarVolumeNode, ID := some "vol1" }] } }
      (some (testMarkupNode .vtkMRMLAnnotationRulerNode [(0, 0, 1), (3, 4, 1)]))
      = .ok "NONE" :=
  GetSliceUIDFromMarkUp_rejects _ _
    (Or.inr ⟨_, rfl, by decide,
      Or.inr ⟨_, "vol1", rfl, by decide,
        Or.inr ⟨{ cls := .vtkMRMLScalarVolumeNode, ID := some "vol1" }, by decide!,
          Or.inr (by decide)⟩⟩⟩)

/-- C7: an annotation with zero control points resolves to "NONE", whatever its
associated volume and UID list are. -/
theorem GetSliceUIDFromMarkUp_no_points (self : Logic) (node : Node)
    (hcp : node.cls.IsA .vtkMRMLAnnotationControlPointsNode = true)
    (hpts : node.ControlPoints = []) :
    GetSliceUIDFromMarkUp self (some node) = .ok "NONE" := by
  simp only [GetSliceUIDFromMarkUp, SafeDownCast, hcp, if_true, hpts, pointLoop]
  repeat' split
  all_goals rfl

/-- Witness of C7: a fiducial without control points on a volume with a valid,
non-empty UID list. -/
theorem GetSliceUIDFromMarkUp_no_points_witness :
    Resolvable (testLogic "UID0 UID1 UID2") (testMarkupNode .vtkMRMLAnnotationFiducialNode [])
      (testVolume "UID0 UID1 UID2") "UID0 UID1 UID2" ∧
    parseUIDs "UID0 UID1 UID2" = ["UID0", "UID1", "UID2"] ∧
    GetSliceUIDFromMarkUp (testLogic "UID0 UID1 UID2")
      (some (testMarkupNode .vtkMRMLAnnotationFiducialNode [])) = .ok "NONE" :=
  ⟨testLogic_resolvable _ _ (by decide) _, by decide,
   GetSliceUIDFromMarkUp_no_points _ _ (by decide) rfl⟩

/-- C8 (failing input): with a UID list attribute that holds only a separator, so that
it parses to zero tokens, a fiducial with one control point makes the method read
`uidVector[0]` of an empty vector. -/
theorem GetSliceUIDFromMarkUp_empty_list :
    parseUIDs " " = [] ∧
    GetSliceUIDFromMarkUp (testLogic " ")
      (some (testMarkupNode .vtkMRMLAnnotationFiducialNode [(0, 0, 1)]))
      = .error .indexOutOfRange ∧
    GetSliceUIDFromMarkUp (testLogic "")
      (some (testMarkupNode .vtkMRMLAnnotationFiducialNode [(0, 0, 1)]))
      = .error .indexOutOfRange := by
  refine ⟨by decide, by decide!, by decide!⟩

/-! ## Theorems: the UID list parser -/

/-- A list splits, at its first separator, into the run before it and the split of
what follows the separator. -/
theorem splitOnP_eq_run_cons (p : Char → Bool) :
    ∀ l : List Char, l.splitOnP p =
      l.takeWhile (fun c => !p c) ::
        (match l.dropWhile (fun c => !p c) with
         | [] => []
         | _ :: r => r.splitOnP p)
  | [] => by simp [List.splitOnP_nil]
  | x :: xs => by
    rw [List.splitOnP_cons]
    by_cases hx : p x = true
    · simp [hx]
    · have hx' : p x = false := by simpa using hx
      rw [splitOnP_eq_run_cons p xs]
      simp [hx']

theorem runs_nil (p : Char → Bool) : runs p [] = [] := by
  simp [runs, List.splitOnP_nil]

theorem runs_dropWhile (p : Char → Bool) :
    ∀ l : List Char, runs p (l.dropWhile p) = runs p l
  | [] => by simp
  | x :: xs => by
    by_cases hx : p x = true
    · rw [List.dropWhile_cons_of_pos hx, runs_dropWhile p xs]
      simp [runs, List.splitOnP_cons, hx]
    · rw [List.dropWhile_cons_of_neg hx]

theorem runs_cons_of_not_sep (p : Char → Bool) (c : Char) (cs : List Char)
    (hc : p c = false) :
    runs p (c :: cs) =
      (c :: cs).takeWhile (fun d => !p d) ::
        runs p (((c :: cs).dropWhile (fun d => !p d)).drop 1) := by
  unfold runs
  rw [splitOnP_eq_run_cons p (c :: cs)]
  have hne : (c :: cs).takeWhile (fun d => !p d) ≠ [] := by simp [List.takeWhile, hc]
  rw [List.filter_cons_of_pos (by simpa using hne)]
  congr 1
  cases (c :: cs).dropWhile (fun d => !p d) with
  | nil => simp [List.splitOnP_nil]
  | cons y r => simp

theorem strtok_rest_length {delim : Char} {buf tok rest : List Char}
    (h : strtok delim buf = some (tok, rest)) : rest.length < buf.length := by
  unfold strtok at h
  split at h
  · exact absurd h (by simp)
  · rename_i c cs hd
    simp only [Option.some.injEq, Prod.mk.injEq] at h
    obtain ⟨-, hrest⟩ := h
    have h1 : (c :: cs).length ≤ buf.length := by
      rw [← hd]; exact (List.dropWhile_sublist _).length_le
    have h2 : ((c :: cs).dropWhile (fun d => d != delim)).length ≤ (c :: cs).length :=
      (List.dropWhile_sublist _).length_le
    have hc : (c == delim) = false := by
      have := List.head_dropWhile_not (fun c => c == delim) buf (by rw [hd]; simp)
      simpa [hd] using this
    have h3 : (c :: cs).dropWhile (fun d => d != delim) = cs.dropWhile (fun d => d != delim) := by
      rw [List.dropWhile_cons_of_pos]
      simpa using hc
    have h4 : (cs.dropWhile (fun d => d != delim)).length ≤ cs.length :=
      (List.dropWhile_sublist _).length_le
    rw [← hrest, h3, List.length_drop]
    simp only [List.length_cons] at h1
    omega

theorem strtok_none {delim : Char} {buf : List Char} (h : strtok delim buf = none) :
    runs (fun c => c == delim) buf = [] := by
  unfold strtok at h
  split at h
  · rename_i hd
    rw [← runs_dropWhile, hd, runs_nil]
  · exact absurd h (by simp)

theorem strtok_some {delim : Char} {buf tok rest : List Char}
    (h : strtok delim buf = some (tok, rest)) :
    runs (fun c => c == delim) buf = tok :: runs (fun c => c == delim) rest := by
  unfold strtok at h
  split at h
  · exact absurd h (by simp)
  · rename_i c cs hd
    simp only [Option.some.injEq, Prod.mk.injEq] at h
    obtain ⟨htok, hrest⟩ := h
    have hc : (c == delim) = false := by
      have := List.head_dropWhile_not (fun c => c == delim) buf (by rw [hd]; simp)
      simpa [hd] using this
    rw [← runs_dropWhile, hd, runs_cons_of_not_sep _ c cs hc, ← htok, ← hrest]
    rfl

/-- With enough calls allowed, the loop appends the runs of non-space characters. -/
theorem strtokLoop_eq_runs :
    ∀ (fuel : Nat) (buf : List Char) (uidVector : List String), buf.length < fuel →
      strtokLoop fuel buf uidVector =
        uidVector ++ (runs (fun c => c == ' ') buf).map String.mk
  | 0, _, _, h => absurd h (Nat.not_lt_zero _)
  | fuel + 1, buf, uidVector, h => by
    unfold strtokLoop
    cases ht : strtok ' ' buf with
    | none => simp [strtok_none ht]
    | some tr =>
      obtain ⟨tok, rest⟩ := tr
      have hlen := strtok_rest_length ht
      simp only
      rw [strtokLoop_eq_runs fuel rest _ (by omega), strtok_some ht]
      simp

/-- C6 (counterexample): a tab is whitespace but does not separate tokens: "A\tB"
parses to the single token "A\tB", while its maximal runs of non-whitespace characters
are "A" and "B". -/
theorem parseUIDs_tab :
    parseUIDs "A\tB" = ["A\tB"] ∧
    splitDropEmpty Char.isWhitespace "A\tB" = ["A", "B"] ∧
    parseUIDs "A\tB" ≠ splitDropEmpty Char.isWhitespace "A\tB" := by
  refine ⟨by decide, by decide, by decide⟩

/-- C6 (amended): for every attribute string the parsed UID list is the ordered sequence
of its maximal runs of characters other than the space character: splitting is on
the space character only, order is preserved and no token is empty. -/
theorem parseUIDs_eq_splitDropEmpty (uidsString : String) :
    parseUIDs uidsString = splitDropEmpty (fun c => c == ' ') uidsString ∧
    ∀ t ∈ parseUIDs uidsString, t ≠ "" := by
  have h : parseUIDs uidsString = splitDropEmpty (fun c => c == ' ') uidsString := by
    unfold parseUIDs splitDropEmpty
    rw [strtokLoop_eq_runs _ _ _ (Nat.lt_succ_self _)]
    simp
  refine ⟨h, ?_⟩
  intro t ht
  rw [h] at ht
  simp only [splitDropEmpty, runs, List.mem_map, List.mem_filter] at ht
  obtain ⟨l, ⟨-, hl⟩, rfl⟩ := ht
  intro hcontra
  apply (by simpa using hl : l ≠ [])
  have := congrArg String.data hcontra
  simpa using this

theorem longUIDChars_length : ∀ n, (longUIDChars n).length = 2 * n + 1
  | 0 => rfl
  | n + 1 => by simp [longUIDChars, longUIDChars_length n]; omega

theorem strtokLoop_longUIDChars :
    ∀ (n fuel : Nat) (uidVector : List String), n + 1 < fuel →
      strtokLoop fuel (longUIDChars n) uidVector = uidVector ++ (List.replicate n "a" ++ ["b"])
  | 0, fuel, uidVector, h => by
    obtain ⟨f, rfl⟩ : ∃ f, fuel = f + 2 := ⟨fuel - 2, by omega⟩
    simp [strtokLoop, longUIDChars, strtok]
  | n + 1, fuel, uidVector, h => by
    obtain ⟨f, rfl⟩ : ∃ f, fuel = f + 1 := ⟨fuel - 1, by omega⟩
    have hs : strtok ' ' (longUIDChars (n + 1)) = some (['a'], longUIDChars n) := by
      simp [strtok, longUIDChars]
    unfold strtokLoop
    rw [hs]
    simp only
    rw [strtokLoop_longUIDChars n f _ (by omega)]
    simp [List.replicate_succ]

theorem parseUIDs_longUIDs (n : Nat) : parseUIDs (longUIDs n) = List.replicate n "a" ++ ["b"] := by
  unfold parseUIDs longUIDs
  rw [strtokLoop_longUIDChars n _ _ (by rw [longUIDChars_length]; omega)]
  simp

theorem longUIDs_wrapped (n : Nat) (hn : 2 ≤ n) (z : ℚ)
    (hz : round (ijkSlice Matrix4x4.Identity (0, 0, z)) = (n : Int))
    (hwrap : sliceIndex Matrix4x4.Identity (0, 0, z) = 1) :
    (parseUIDs (longUIDs n))[n]? = some "b" ∧
    GetSliceUIDFromMarkUp (testLogic (longUIDs n))
      (some (testMarkupNode .vtkMRMLAnnotationFiducialNode [(0, 0, z)])) = .ok "a" := by
  constructor
  · rw [parseUIDs_longUIDs]
    simp [List.getElem?_append_right]
  · rw [GetSliceUIDFromMarkUp_of_resolvable
      (testLogic_resolvable (longUIDs n) _ (by decide) [(0, 0, z)])]
    have hlen : sliceIndex (testVolume (longUIDs n)).RASToIJKMatrix (0, 0, z)
        < (parseUIDs (longUIDs n)).length := by
      rw [parseUIDs_longUIDs]
      show sliceIndex Matrix4x4.Identity (0, 0, z) < _
      rw [hwrap]
      simp
      omega
    have hp := pointUID_of_lt hlen
    have h1 : (parseUIDs (longUIDs n))[sliceIndex (testVolume (longUIDs n)).RASToIJKMatrix (0, 0, z)]
        = "a" := by
      have hw : sliceIndex (testVolume (longUIDs n)).RASToIJKMatrix (0, 0, z) = 1 := hwrap
      simp only [hw, parseUIDs_longUIDs]
      rw [List.getElem_append_left (by simp; omega)]
      simp
    rw [h1] at hp
    simp [testMarkupNode, pointLoop, hp]

/-- C1 (counterexample): for a UID list of 4294967298 tokens, 4294967297 tokens "a"
followed by one token "b", and a fiducial whose z coordinate rounds to
k = 4294967297, the k-th token is "b" but the result is "a": the index
of type `unsigned int` wraps to 1. -/
theorem GetSliceUIDFromMarkUp_index_beyond_unsigned :
    Resolvable (testLogic (longUIDs 4294967297))
      (testMarkupNode .vtkMRMLAnnotationFiducialNode [(0, 0, 4294967297)])
      (testVolume (longUIDs 4294967297)) (longUIDs 4294967297) ∧
    round (ijkSlice (testVolume (longUIDs 4294967297)).RASToIJKMatrix (0, 0, 4294967297))
      = ((4294967297 : Nat) : Int) ∧
    (parseUIDs (longUIDs 4294967297))[4294967297]? = some "b" ∧
    GetSliceUIDFromMarkUp (testLogic (longUIDs 4294967297))
      (some (testMarkupNode .vtkMRMLAnnotationFiducialNode [(0, 0, 4294967297)])) = .ok "a" :=
  ⟨testLogic_resolvable _ _ (by decide) _,
   (by decide! : round (ijkSlice Matrix4x4.Identity (0, 0, 4294967297))
      = ((4294967297 : Nat) : Int)),
   longUIDs_wrapped 4294967297 (by decide) 4294967297 (by decide!) (by decide!)⟩

/-! ## Theorems: hierarchy builder and scene event router -/

/-- C9 (failing input): in `labelMapScene` every content node has at most one hierarchy
node, and the label map has one. In a build where the read of line 1393 behind the
string destroyed at line 1385 still finds the report identifier, that scene is what
`InitializeHierarchyForReport`, `InitializeHierarchyForVolume` and the handler make of
the test scene, the active report hierarchy identifier is found, and a second call of
`OnMRMLSceneNodeAdded` for the same label map adds a second hierarchy node associated
with it. In a build where the read finds nothing of the identifier the method returns
null and the handler leaves the scene as it is. -/
theorem OnMRMLSceneNodeAdded_second_hierarchy_node :
    ((InitializeHierarchyForReport sharedBufferServices reportingLogic
        (some reportingReport)).bind
      (fun s1 => (InitializeHierarchyForVolume sharedBufferServices s1
          (some reportingVolume)).bind
        (fun s2 => OnMRMLSceneNodeAdded sharedBufferServices s2 (some reportingLabelMap))))
      = .ok labelMapLogic ∧
    labelMapScene.AtMostOneHierarchyNode ∧
    (labelMapScene.associatedHierarchyNodes reportingLabelMap.ID).length = 1 ∧
    GetActiveReportHierarchyID sharedBufferServices labelMapLogic =
      .ok (some "vtkMRMLDisplayableHierarchyNode5") ∧
    OnMRMLSceneNodeAdded sharedBufferServices labelMapLogic (some reportingLabelMap)
      = .ok { labelMapLogic with MRMLScene := some labelMapSceneAfter } ∧
    (labelMapSceneAfter.associatedHierarchyNodes reportingLabelMap.ID).length = 2 ∧
    ¬ labelMapSceneAfter.AtMostOneHierarchyNode ∧
    GetActiveReportHierarchyID testServices labelMapLogic = .ok none ∧
    OnMRMLSceneNodeAdded testServices labelMapLogic (some reportingLabelMap)
      = .ok labelMapLogic := by
  refine ⟨by decide!, by decide!, by decide!, by decide!, by decide!, by decide!, by decide!,
    by decide!, by decide!⟩

theorem nodesNamed_eq_nil_of_find {s : Scene} {name : String}
    (h : s.GetFirstNodeByName name = none) : s.nodesNamed name = [] := by
  unfold Scene.GetFirstNodeByName at h
  unfold Scene.nodesNamed
  rw [List.filter_eq_nil_iff]
  intro n hn
  exact List.find?_eq_none.mp h n hn

theorem nodesNamed_length_pos_of_find {s : Scene} {name : String} {n : Node}
    (h : s.GetFirstNodeByName name = some n) : 1 ≤ (s.nodesNamed name).length := by
  unfold Scene.GetFirstNodeByName at h
  unfold Scene.nodesNamed
  have hp : (n.Name == some name) = true :=
    List.find?_some (p := fun n : Node => n.Name == some name) h
  have hmem : n ∈ s.nodes.filter (fun n => n.Name == some name) :=
    List.mem_filter.mpr ⟨List.mem_of_find?_eq_some h, hp⟩
  exact List.length_pos_of_mem hmem

/-- The scene after `AddNode`: the old nodes followed by the added node, which keeps
a name that is neither null nor empty. -/
theorem Scene.AddNode_nodes (svc : SceneServices) (s : Scene) (n : Node) (name : String)
    (hname : n.Name = some name) (hne : name ≠ "") :
    ∃ m : Node, m.Name = some name ∧ (s.AddNode svc n).1 = { nodes := s.nodes ++ [m] } := by
  simp only [Scene.AddNode]
  refine ⟨_, ?_, rfl⟩
  split <;> simp [hname, hne]

/-- Once a node named "Reporting Hierarchy" is in the scene, the call changes nothing
and returns the identifier of the first such node. -/
theorem Scene.GetTopLevelHierarchyNodeID_of_found (svc : SceneServices) {s : Scene} {n : Node}
    (h : s.GetFirstNodeByName "Reporting Hierarchy" = some n) :
    s.GetTopLevelHierarchyNodeID svc = .ok (s, n.ID) := by
  simp [Scene.GetTopLevelHierarchyNodeID, h]

/-- The first call: it ends without a fault, leaves a scene whose first node named
"Reporting Hierarchy" carries the identifier returned, and leaves as many nodes of
that name as before, or one when there was none. -/
theorem Scene.GetTopLevelHierarchyNodeID_first (svc : SceneServices) (s : Scene) :
    ∃ (s1 : Scene) (n : Node),
      s.GetTopLevelHierarchyNodeID svc = .ok (s1, n.ID) ∧
      s1.GetFirstNodeByName "Reporting Hierarchy" = some n ∧
      (s1.nodesNamed "Reporting Hierarchy").length
        = max 1 (s.nodesNamed "Reporting Hierarchy").length := by
  cases h : s.GetFirstNodeByName "Reporting Hierarchy" with
  | some n =>
    refine ⟨s, n, Scene.GetTopLevelHierarchyNodeID_of_found svc h, h, ?_⟩
    have := nodesNamed_length_pos_of_find h
    omega
  | none =>
    have hnil := nodesNamed_eq_nil_of_find h
    have hnone : ∀ m ∈ s.nodes, ¬ (m.Name == some "Reporting Hierarchy") = true := by
      unfold Scene.GetFirstNodeByName at h
      exact List.find?_eq_none.mp h
    have hfilter : s.nodes.filter (fun n => n.Name == some "Reporting Hierarchy") = [] := hnil
    obtain ⟨n, hname, hscene⟩ := Scene.AddNode_nodes svc s
      { cls := .vtkMRMLDisplayableHierarchyNode, HideFromEditors := false,
        Name := some "Reporting Hierarchy" } "Reporting Hierarchy" rfl (by decide)
    have hfind : ({ nodes := s.nodes ++ [n] } : Scene).GetFirstNodeByName "Reporting Hierarchy"
        = some n := by
      unfold Scene.GetFirstNodeByName at h ⊢
      simp only [List.find?_append, h, Option.none_or]
      simp [List.find?, hname]
    refine ⟨{ nodes := s.nodes ++ [n] }, n, ?_, hfind, ?_⟩
    · simp only [Scene.GetTopLevelHierarchyNodeID, h, hscene, hfind]
    · simp [Scene.nodesNamed, List.filter_append, hfilter, hname]

/-- C10 (counterexample): on a scene that already holds two nodes named
"Reporting Hierarchy", the scene still holds two nodes of that name after one call and
after two calls. -/
theorem GetTopLevelHierarchyNodeID_two_named :
    GetTopLevelHierarchyNodeID_repeated testServices 1 { MRMLScene := some twoTopLevelScene }
      = .ok ({ MRMLScene := some twoTopLevelScene }, some "vtkMRMLDisplayableHierarchyNode1") ∧
    GetTopLevelHierarchyNodeID_repeated testServices 2 { MRMLScene := some twoTopLevelScene }
      = .ok ({ MRMLScene := some twoTopLevelScene }, some "vtkMRMLDisplayableHierarchyNode1") ∧
    (twoTopLevelScene.nodesNamed "Reporting Hierarchy").length = 2 := by
  refine ⟨by decide, by decide, by decide⟩

/-- C10 (amended): on every scene the first call ends with some scene and identifier,
every number N ≥ 1 of consecutive calls ends with that same scene and returns that
same identifier, so the second and later calls add no node; the scene then holds
exactly one node named "Reporting Hierarchy" when it held at most one before the
first call, and as many as before otherwise. -/
theorem GetTopLevelHierarchyNodeID_idempotent (svc : SceneServices) (self : Logic)
    (scene : Scene) (hscene : self.MRMLScene = some scene) :
    ∃ (scene1 : Scene) (id : Option String),
      GetTopLevelHierarchyNodeID svc self = .ok ({ self with MRMLScene := some scene1 }, id) ∧
      (∀ calls, 1 ≤ calls →
        GetTopLevelHierarchyNodeID_repeated svc calls self
          = .ok ({ self with MRMLScene := some scene1 }, id)) ∧
      (scene1.nodesNamed "Reporting Hierarchy").length
        = max 1 (scene.nodesNamed "Reporting Hierarchy").length := by
  obtain ⟨scene1, n, hfirst, hfound, hcount⟩ := Scene.GetTopLevelHierarchyNodeID_first svc scene
  have hcall : GetTopLevelHierarchyNodeID svc self
      = .ok ({ self with MRMLScene := some scene1 }, n.ID) := by
    simp [GetTopLevelHierarchyNodeID, hscene, hfirst]
  have hagain : GetTopLevelHierarchyNodeID svc { self with MRMLScene := some scene1 }
      = .ok ({ self with MRMLScene := some scene1 }, n.ID) := by
    simp [GetTopLevelHierarchyNodeID, Scene.GetTopLevelHierarchyNodeID_of_found svc hfound]
  refine ⟨scene1, n.ID, hcall, ?_, hcount⟩
  intro calls hcalls
  induction calls with
  | zero => omega
  | succ k ih =>
    rcases Nat.eq_zero_or_pos k with hk | hk
    · subst hk
      simp [GetTopLevelHierarchyNodeID_repeated, hcall]
    · simp [GetTopLevelHierarchyNodeID_repeated, ih hk, hagain]

/-- Witness of C10 (amended): the empty scene. -/
theorem GetTopLevelHierarchyNodeID_idempotent_witness :
    ∃ (scene1 : Scene) (id : Option String),
      GetTopLevelHierarchyNodeID testServices { MRMLScene := some {} }
        = .ok ({ MRMLScene := some scene1 }, id) ∧
      (∀ calls, 1 ≤ calls →
        GetTopLevelHierarchyNodeID_repeated testServices calls { MRMLScene := some {} }
          = .ok ({ MRMLScene := some scene1 }, id)) ∧
      (scene1.nodesNamed "Reporting Hierarchy").length
        = max 1 (({} : Scene).nodesNamed "Reporting Hierarchy").length :=
  GetTopLevelHierarchyNodeID_idempotent testServices { MRMLScene := some {} } {} rfl


/-! ## Theorems: writes through pointers -/

theorem modifyAt_length_append (f : Node → Node) (l : List Node) (x : Node) (r : List Node) :
    modifyAt f l.length (l ++ x :: r) = l ++ f x :: r := by
  induction l with
  | nil => rfl
  | cons a l ih => simp [modifyAt, ih]

theorem modifyAt_length (f : Node → Node) : ∀ (ptr : Nat) (l : List Node),
    (modifyAt f ptr l).length = l.length
  | _, [] => by simp [modifyAt]
  | 0, _ :: _ => by simp [modifyAt]
  | ptr + 1, _ :: l => by simp [modifyAt, modifyAt_length f ptr l]

theorem modifyAt_getElem? (f : Node → Node) : ∀ (ptr : Nat) (l : List Node) (i : Nat),
    (modifyAt f ptr l)[i]? = if i = ptr then (l[i]?).map f else l[i]?
  | _, [], i => by simp [modifyAt]
  | 0, a :: l, i => by
    cases i with
    | zero => simp [modifyAt]
    | succ i => simp [modifyAt]
  | ptr + 1, a :: l, i => by
    cases i with
    | zero => simp [modifyAt]
    | succ i => simp [modifyAt, modifyAt_getElem? f ptr l i]

/-- The scene after `AddNode`, spelled out: the node is appended, and the pointer
returned is its position. -/
theorem Scene.AddNode_eq (svc : SceneServices) (s : Scene) (n : Node) :
    s.AddNode svc n =
      ({ nodes := s.nodes ++ [(s.AddNode svc n).2.2] }, s.nodes.length, (s.AddNode svc n).2.2) := by
  rfl

/-- The node `AddNode` adds for a new node, one without identifier, that has a name
which is not empty: it has the allocated identifier and is in the scene; its other
fields are those of the new node. -/
theorem Scene.AddNode_new (svc : SceneServices) (s : Scene) (n : Node) (name : String)
    (hid : n.ID = none) (hname : n.Name = some name) (hne : name ≠ "") :
    (s.AddNode svc n).2.2 =
      { n with ID := some (svc.GetUniqueIDByClass s n.cls), InScene := true } := by
  simp [Scene.AddNode, hid, hname, hne]

/-- The first call of `GetTopLevelHierarchyNodeID`, by nodes: the scene keeps its nodes
and gains at most one node at the end; the identifier returned is that of the first
node named "Reporting Hierarchy". -/
theorem Scene.GetTopLevelHierarchyNodeID_nodes (svc : SceneServices) (s : Scene) :
    ∃ (tops : List Node) (top : Node),
      s.GetTopLevelHierarchyNodeID svc = .ok ({ nodes := s.nodes ++ tops }, top.ID) ∧
      ({ nodes := s.nodes ++ tops } : Scene).GetFirstNodeByName "Reporting Hierarchy" = some top ∧
      tops.length ≤ 1 ∧
      (∀ t ∈ tops, t = top ∧ t.AssociatedNodeID = none ∧
        t.ID = some (svc.GetUniqueIDByClass s .vtkMRMLDisplayableHierarchyNode)) := by
  cases h : s.GetFirstNodeByName "Reporting Hierarchy" with
  | some n =>
    refine ⟨[], n, ?_, by simpa using h, by simp, by simp⟩
    simpa using Scene.GetTopLevelHierarchyNodeID_of_found svc h
  | none =>
    have hnew := Scene.AddNode_new svc s
      { cls := .vtkMRMLDisplayableHierarchyNode, HideFromEditors := false,
        Name := some "Reporting Hierarchy" } "Reporting Hierarchy" rfl rfl (by decide)
    have hfind : ({ nodes := s.nodes ++ [(s.AddNode svc
        { cls := .vtkMRMLDisplayableHierarchyNode, HideFromEditors := false,
          Name := some "Reporting Hierarchy" }).2.2] } : Scene).GetFirstNodeByName
          "Reporting Hierarchy" = some (s.AddNode svc
        { cls := .vtkMRMLDisplayableHierarchyNode, HideFromEditors := false,
          Name := some "Reporting Hierarchy" }).2.2 := by
      unfold Scene.GetFirstNodeByName at h ⊢
      simp only [List.find?_append, h, Option.none_or]
      simp [List.find?, hnew]
    refine ⟨[_], _, ?_, hfind, by simp, ?_⟩
    · simp only [Scene.GetTopLevelHierarchyNodeID, h]
      rw [Scene.AddNode_eq]
      simp only [hfind]
    · intro t ht
      rw [List.mem_singleton] at ht
      subst ht
      simp [hnew]

theorem Scene.AddNode_eq_added (svc : SceneServices) (s : Scene) (n : Node) :
    s.AddNode svc n = ({ nodes := s.nodes ++ [s.added svc n] }, s.nodes.length, s.added svc n) := by
  rfl

/-- The fields of the node `AddNode` adds. -/
theorem Scene.added_fields (svc : SceneServices) (s : Scene) (n : Node) :
    (s.added svc n).cls = n.cls ∧
    (s.added svc n).HideFromEditors = n.HideFromEditors ∧
    (s.added svc n).ParentNodeID = n.ParentNodeID ∧
    (s.added svc n).AssociatedNodeID = n.AssociatedNodeID ∧
    (s.added svc n).InScene = true ∧
    (n.ID = none → (s.added svc n).ID = some (svc.GetUniqueIDByClass s n.cls)) ∧
    (∀ name, n.Name = some name → name ≠ "" → (s.added svc n).Name = some name) := by
  simp only [Scene.added, Scene.AddNode]
  refine ⟨?_, ?_, ?_, ?_, ?_, ?_, ?_⟩
  · split <;> split <;> rfl
  · split <;> split <;> rfl
  · split <;> split <;> rfl
  · split <;> split <;> rfl
  · split <;> split <;> rfl
  · intro h
    simp [h]
    split <;> rfl
  · intro name h hne
    split <;> simp [h, hne]

theorem modifyAt_append_of_length (f : Node → Node) (ptr : Nat) (l : List Node) (x : Node)
    (r : List Node) (h : ptr = l.length) :
    modifyAt f ptr (l ++ x :: r) = l ++ f x :: r := by
  subst h
  exact modifyAt_length_append f l x r

theorem modifyAt_append_append (f : Node → Node) (l m : List Node) (x : Node) (r : List Node) :
    modifyAt f (l ++ m).length (l ++ (m ++ x :: r)) = l ++ (m ++ f x :: r) := by
  rw [← List.append_assoc, modifyAt_length_append, List.append_assoc]

/-! ## Theorems: the hierarchy of a report -/

/-- What `InitializeHierarchyForReport` does for a report without hierarchy node: it
appends a hierarchy node for the report, the top level node unless the scene has
one, a hierarchy node for the RANO annotation and the RANO annotation node. -/
theorem InitializeHierarchyForReport_creates (svc : SceneServices) (self : Logic) (node : Node)
    (scene : Scene) (nodeID name : String)
    (hscene : self.MRMLScene = some scene) (hin : node.InScene = true)
    (hid : node.ID = some nodeID) (hname : node.Name = some name)
    (hnone : GetAssociatedHierarchyNode (some scene) (some nodeID) = none) :
    ∃ (reportH : Node) (tops : List Node) (ranoH rano top : Node),
      InitializeHierarchyForReport svc self (some node) =
        .ok { self with
          MRMLScene := some { nodes := scene.nodes ++ (reportH :: tops ++ [ranoH, rano]) } } ∧
      tops.length ≤ 1 ∧
      (∀ t ∈ tops, t.AssociatedNodeID = none) ∧
      ({ nodes := scene.nodes ++ (reportH :: tops ++ [ranoH, rano]) } : Scene).GetFirstNodeByName
        "Reporting Hierarchy" = some top ∧
      reportH.cls = .vtkMRMLDisplayableHierarchyNode ∧
      reportH.HideFromEditors = true ∧
      reportH.ID = some (svc.GetUniqueIDByClass scene .vtkMRMLDisplayableHierarchyNode) ∧
      (svc.GetUniqueNameByString scene (name ++ " Hierarchy") ≠ "" →
        reportH.Name = some (svc.GetUniqueNameByString scene (name ++ " Hierarchy"))) ∧
      reportH.ParentNodeID = top.ID ∧
      reportH.AssociatedNodeID = some nodeID ∧
      ranoH.cls = .vtkMRMLHierarchyNode ∧
      ranoH.HideFromEditors = true ∧
      ranoH.ParentNodeID = reportH.ID ∧
      ranoH.AssociatedNodeID = rano.ID ∧
      rano.cls = .vtkMRMLReportingAnnotationRANONode ∧
      rano.InScene = true ∧
      rano.AssociatedNodeID = none ∧
      rano.ID ≠ none := by
  simp only [InitializeHierarchyForReport, Logic.sceneOf, hin, hscene, hid, if_true, hnone, hname,
    Scene.AddNode_eq_added, Scene.modify]
  generalize hA : Scene.added svc scene _ = a
  obtain ⟨tops, top, htop, hfind, hlen, htops⟩ :=
    Scene.GetTopLevelHierarchyNodeID_nodes svc ⟨scene.nodes ++ [a]⟩
  rw [htop]
  simp only [List.append_assoc, List.singleton_append, modifyAt_length_append,
    modifyAt_append_append]
  obtain ⟨ha1, ha2, -, -, -, ha6, ha7⟩ := hA ▸ Scene.added_fields svc scene _
  generalize hB : Scene.added svc _ _ = b
  obtain ⟨hb1, hb2, -, -, -, -, -⟩ := hB ▸ Scene.added_fields svc _ _
  generalize hC : Scene.added svc _ _ = c
  obtain ⟨hc1, -, -, hc4, hc5, hc6, -⟩ := hC ▸ Scene.added_fields svc _ _
  -- the first node named "Reporting Hierarchy" of the final scene carries the identifier found
  have hfinal : ∃ top', ({ nodes := scene.nodes ++
      ({ a with ParentNodeID := top.ID, AssociatedNodeID := some nodeID } :: tops ++
        [{ b with ParentNodeID := a.ID, AssociatedNodeID := c.ID }, c]) } :
        Scene).GetFirstNodeByName "Reporting Hierarchy" = some top' ∧ top'.ID = top.ID := by
    simp only [Scene.GetFirstNodeByName, List.find?_append, List.find?_cons, List.append_assoc,
      List.singleton_append, List.cons_append] at hfind ⊢
    cases h1 : List.find? (fun n => n.Name == some "Reporting Hierarchy") scene.nodes with
    | some t =>
      rw [h1] at hfind
      exact ⟨t, by simp, by simp at hfind; rw [hfind]⟩
    | none =>
      rw [h1] at hfind
      simp only [Option.none_or] at hfind ⊢
      by_cases h2 : (a.Name == some "Reporting Hierarchy") = true
      · simp only [h2] at hfind ⊢
        simp only [Option.some.injEq] at hfind
        exact ⟨_, rfl, by rw [← hfind]⟩
      · simp only [h2] at hfind ⊢
        cases h3 : List.find? (fun n => n.Name == some "Reporting Hierarchy") tops with
        | some t =>
          rw [h3] at hfind
          exact ⟨t, by simp, by simp at hfind; rw [hfind]⟩
        | none =>
          rw [h3] at hfind
          simp at hfind
  obtain ⟨top', hfinal1, hfinal2⟩ := hfinal
  refine ⟨_, tops, _, c, top', rfl, hlen, fun t ht => (htops t ht).2.1,
    hfinal1, ha1, ha2, ha6 rfl, ?_, hfinal2.symm, rfl, hb1, hb2, rfl, rfl, hc1, hc5, hc4, ?_⟩
  · intro hne
    exact ha7 _ rfl hne
  · rw [hc6 rfl]
    exact Option.some_ne_none _
/-- C11: for a report with a name, the first call of `InitializeHierarchyForReport`
ends in a state from which the second call on the same report ends in that same
state: the second call changes neither the scene nor its node count. -/
theorem InitializeHierarchyForReport_idempotent (svc : SceneServices) (self : Logic)
    (node : Node) (name : String) (hname : node.Name = some name) :
    ∃ self1 : Logic,
      InitializeHierarchyForReport svc self (some node) = .ok self1 ∧
      InitializeHierarchyForReport svc self1 (some node) = .ok self1 ∧
      ∀ self2, InitializeHierarchyForReport svc self1 (some node) = .ok self2 →
        self2.MRMLScene.map (fun s => s.nodes.length) =
          self1.MRMLScene.map (fun s => s.nodes.length) := by
  suffices h : ∃ self1 : Logic,
      InitializeHierarchyForReport svc self (some node) = .ok self1 ∧
      InitializeHierarchyForReport svc self1 (some node) = .ok self1 by
    obtain ⟨self1, h1, h2⟩ := h
    refine ⟨self1, h1, h2, ?_⟩
    intro self2 h3
    rw [h2] at h3
    cases h3
    rfl
  cases hin : node.InScene with
  | false => exact ⟨self, by simp [InitializeHierarchyForReport, Logic.sceneOf, hin],
      by simp [InitializeHierarchyForReport, Logic.sceneOf, hin]⟩
  | true =>
    cases hscene : self.MRMLScene with
    | none => exact ⟨self, by simp [InitializeHierarchyForReport, Logic.sceneOf, hin, hscene],
        by simp [InitializeHierarchyForReport, Logic.sceneOf, hin, hscene]⟩
    | some scene =>
      cases hid : node.ID with
      | none => exact ⟨self, by simp [InitializeHierarchyForReport, Logic.sceneOf, hin, hscene, hid],
          by simp [InitializeHierarchyForReport, Logic.sceneOf, hin, hscene, hid]⟩
      | some nodeID =>
        cases hfound : GetAssociatedHierarchyNode (some scene) (some nodeID) with
        | some h => exact ⟨self,
            by simp [InitializeHierarchyForReport, Logic.sceneOf, hin, hscene, hid, hfound],
            by simp [InitializeHierarchyForReport, Logic.sceneOf, hin, hscene, hid, hfound]⟩
        | none =>
          obtain ⟨reportH, tops, ranoH, rano, top, hres, -, -, -, hcls, -, -, -, -, hassoc, -⟩ :=
            InitializeHierarchyForReport_creates svc self node scene nodeID name hscene hin hid
              hname hfound
          refine ⟨_, hres, ?_⟩
          have hp : isAssociatedHierarchyNode nodeID reportH = true := by
            simp [isAssociatedHierarchyNode, hcls, hassoc]
            decide
          cases hfound1 : GetAssociatedHierarchyNode
              (some { nodes := scene.nodes ++ (reportH :: tops ++ [ranoH, rano]) })
              (some nodeID) with
          | none =>
            simp only [GetAssociatedHierarchyNode] at hfound1
            have := List.find?_eq_none.mp hfound1 reportH (by simp)
            simp [hp] at this
          | some h =>
            simp only [InitializeHierarchyForReport, Logic.sceneOf, hin, hid, if_true, hfound1]

/-- Witness of C11: the report of the test scene, before any hierarchy is set up. -/
theorem InitializeHierarchyForReport_idempotent_witness :
    reportingReport.Name = some "Report" ∧
    ∃ self1 : Logic,
      InitializeHierarchyForReport testServices reportingLogic (some reportingReport) = .ok self1 ∧
      InitializeHierarchyForReport testServices self1 (some reportingReport) = .ok self1 ∧
      ∀ self2, InitializeHierarchyForReport testServices self1 (some reportingReport) = .ok self2 →
        self2.MRMLScene.map (fun s => s.nodes.length) =
          self1.MRMLScene.map (fun s => s.nodes.length) :=
  ⟨rfl, InitializeHierarchyForReport_idempotent testServices reportingLogic reportingReport
    "Report" rfl⟩

/-- The call of `GetTopLevelHierarchyNodeID`, by cases: a scene with a node named
"Reporting Hierarchy" stays as it is and the identifier of the first such node is
returned; a scene without one gains a displayable hierarchy node of that name. -/
theorem Scene.GetTopLevelHierarchyNodeID_cases (svc : SceneServices) (s : Scene) :
    (∃ top, s.GetFirstNodeByName "Reporting Hierarchy" = some top ∧
      s.GetTopLevelHierarchyNodeID svc = .ok (s, top.ID)) ∨
    (s.GetFirstNodeByName "Reporting Hierarchy" = none ∧
      s.GetTopLevelHierarchyNodeID svc =
        .ok ({ nodes := s.nodes ++
            [{ cls := .vtkMRMLDisplayableHierarchyNode, HideFromEditors := false,
               Name := some "Reporting Hierarchy",
               ID := some (svc.GetUniqueIDByClass s .vtkMRMLDisplayableHierarchyNode),
               InScene := true }] },
          some (svc.GetUniqueIDByClass s .vtkMRMLDisplayableHierarchyNode))) := by
  cases h : s.GetFirstNodeByName "Reporting Hierarchy" with
  | some n => exact Or.inl ⟨n, rfl, Scene.GetTopLevelHierarchyNodeID_of_found svc h⟩
  | none =>
    refine Or.inr ⟨rfl, ?_⟩
    have hnew := Scene.AddNode_new svc s
      { cls := .vtkMRMLDisplayableHierarchyNode, HideFromEditors := false,
        Name := some "Reporting Hierarchy" } "Reporting Hierarchy" rfl rfl (by decide)
    simp only [Scene.GetTopLevelHierarchyNodeID, h]
    rw [Scene.AddNode_eq, hnew]
    unfold Scene.GetFirstNodeByName at h ⊢
    simp only [List.find?_append, h, Option.none_or]
    simp [List.find?]

/-- C12 (counterexample): with a scene service that keeps names unique, the hierarchy
node created for a second report named "Report" is named "Report Hierarchy_1", since
the hierarchy node of the first report has the name "Report Hierarchy". And for a
report named "Reporting" in a scene without top level node, the hierarchy node
created for the report is named "Reporting Hierarchy", it is the one node of that name
after the call, and its parent identifier is its own identifier. -/
theorem InitializeHierarchyForReport_second_report_name :
    GetAssociatedHierarchyNode secondReportLogic.MRMLScene secondReport.ID = none ∧
    (InitializeHierarchyForReport uniqueNameServices secondReportLogic (some secondReport)).map
      (fun self1 =>
        (GetAssociatedHierarchyNode self1.MRMLScene secondReport.ID).map (fun h => h.Name))
      = .ok (some (some "Report Hierarchy_1")) ∧
    GetAssociatedHierarchyNode namesakeLogic.MRMLScene namesakeReport.ID = none ∧
    (InitializeHierarchyForReport testServices namesakeLogic (some namesakeReport)).map
      (fun self1 =>
        ((GetAssociatedHierarchyNode self1.MRMLScene namesakeReport.ID).map
            (fun h => (h.ID, h.Name, h.ParentNodeID)),
          self1.MRMLScene.map (fun s => (s.nodesNamed "Reporting Hierarchy").length)))
      = .ok (some (some "vtkMRMLDisplayableHierarchyNode2", some "Reporting Hierarchy",
          some "vtkMRMLDisplayableHierarchyNode2"), some 1) := by
  refine ⟨by decide!, by decide!, by decide!, by decide!⟩

/-- C12 (amended): for a report of the scene with a name and without hierarchy node, the
call appends to the scene a hierarchy node for the report, a top level node when it
creates one, one further hierarchy node and a RANO annotation node. The report
hierarchy node is hidden from editors, has the name the scene service makes of
"<ReportName> Hierarchy" and the report as associated node. When that name is not
"Reporting Hierarchy", its parent is the top level node: the first node of the scene
named "Reporting Hierarchy", and no node is created for it, or, when the scene has no
node of that name, a displayable hierarchy node of that name without parent, which
the call creates. The further hierarchy node is hidden from editors, has the report
hierarchy node as parent and the new RANO annotation node as associated node. -/
theorem InitializeHierarchyForReport_builds (svc : SceneServices) (self : Logic) (node : Node)
    (scene : Scene) (nodeID name : String)
    (hscene : self.MRMLScene = some scene) (hin : node.InScene = true)
    (hid : node.ID = some nodeID) (hname : node.Name = some name)
    (hnone : GetAssociatedHierarchyNode (some scene) (some nodeID) = none)
    (hunique : svc.GetUniqueNameByString scene (name ++ " Hierarchy") ≠ "") :
    ∃ (reportH : Node) (tops : List Node) (ranoH rano : Node),
      InitializeHierarchyForReport svc self (some node) =
        .ok { self with
          MRMLScene := some { nodes := scene.nodes ++ (reportH :: tops ++ [ranoH, rano]) } } ∧
      reportH.cls.IsA .vtkMRMLHierarchyNode = true ∧
      reportH.HideFromEditors = true ∧
      reportH.Name = some (svc.GetUniqueNameByString scene (name ++ " Hierarchy")) ∧
      reportH.ID ≠ none ∧
      reportH.AssociatedNodeID = some nodeID ∧
      (svc.GetUniqueNameByString scene (name ++ " Hierarchy") ≠ "Reporting Hierarchy" →
        (∃ top, scene.GetFirstNodeByName "Reporting Hierarchy" = some top ∧ tops = [] ∧
          reportH.ParentNodeID = top.ID) ∨
        (scene.GetFirstNodeByName "Reporting Hierarchy" = none ∧
          ∃ top, tops = [top] ∧ top.cls = .vtkMRMLDisplayableHierarchyNode ∧
            top.Name = some "Reporting Hierarchy" ∧ top.ParentNodeID = none ∧
            top.AssociatedNodeID = none ∧ top.ID ≠ none ∧
            reportH.ParentNodeID = top.ID)) ∧
      ranoH.cls.IsA .vtkMRMLHierarchyNode = true ∧
      ranoH.HideFromEditors = true ∧
      ranoH.ParentNodeID = reportH.ID ∧
      ranoH.AssociatedNodeID = rano.ID ∧
      rano.cls = .vtkMRMLReportingAnnotationRANONode ∧
      rano.InScene = true ∧
      rano.ID ≠ none := by
  simp only [InitializeHierarchyForReport, Logic.sceneOf, hin, hscene, hid, if_true, hnone, hname,
    Scene.AddNode_eq_added, Scene.modify]
  generalize hA : Scene.added svc scene _ = a
  obtain ⟨ha1, ha2, -, -, -, ha6, ha7⟩ := hA ▸ Scene.added_fields svc scene _
  have haname : a.Name = some (svc.GetUniqueNameByString scene (name ++ " Hierarchy")) :=
    ha7 _ rfl hunique
  replace ha1 : a.cls = .vtkMRMLDisplayableHierarchyNode := ha1
  replace ha2 : a.HideFromEditors = true := ha2
  have hacls : a.cls.IsA .vtkMRMLHierarchyNode = true := by
    rw [ha1]
    decide
  have haid : a.ID ≠ none := by
    rw [ha6 rfl]
    exact Option.some_ne_none _
  have hcases : ∃ (tops : List Node) (top : Node),
      Scene.GetTopLevelHierarchyNodeID svc ⟨scene.nodes ++ [a]⟩ =
        .ok ({ nodes := (scene.nodes ++ [a]) ++ tops }, top.ID) ∧
      (svc.GetUniqueNameByString scene (name ++ " Hierarchy") ≠ "Reporting Hierarchy" →
        (scene.GetFirstNodeByName "Reporting Hierarchy" = some top ∧ tops = []) ∨
        (scene.GetFirstNodeByName "Reporting Hierarchy" = none ∧ tops = [top] ∧
          top.cls = .vtkMRMLDisplayableHierarchyNode ∧
          top.Name = some "Reporting Hierarchy" ∧ top.ParentNodeID = none ∧
          top.AssociatedNodeID = none ∧ top.ID ≠ none)) := by
    rcases Scene.GetTopLevelHierarchyNodeID_cases svc ⟨scene.nodes ++ [a]⟩ with
      ⟨top, hfind, htop⟩ | ⟨hfind, htop⟩
    · refine ⟨[], top, by simpa using htop, fun hne => Or.inl ⟨?_, rfl⟩⟩
      simp only [Scene.GetFirstNodeByName, List.find?_append, List.find?_cons, List.find?_nil,
        haname] at hfind ⊢
      have hna : (some (svc.GetUniqueNameByString scene (name ++ " Hierarchy")) ==
          some "Reporting Hierarchy") = false := by simpa using hne
      rw [hna] at hfind
      simpa using hfind
    · refine ⟨[_], _, htop, fun _ => Or.inr ⟨?_, rfl, rfl, rfl, rfl, rfl,
        Option.some_ne_none _⟩⟩
      simp only [Scene.GetFirstNodeByName, List.find?_append] at hfind ⊢
      cases hs : List.find? (fun n => n.Name == some "Reporting Hierarchy") scene.nodes with
      | none => rfl
      | some t => simp [hs] at hfind
  obtain ⟨tops, top, htop, htopcases⟩ := hcases
  rw [htop]
  simp only [List.append_assoc, List.singleton_append, modifyAt_length_append,
    modifyAt_append_append]
  generalize hB : Scene.added svc _ _ = b
  obtain ⟨hb1, hb2, -, -, -, -, -⟩ := hB ▸ Scene.added_fields svc _ _
  generalize hC : Scene.added svc _ _ = c
  obtain ⟨hc1, -, -, -, hc5, hc6, -⟩ := hC ▸ Scene.added_fields svc _ _
  replace hb1 : b.cls = .vtkMRMLHierarchyNode := hb1
  refine ⟨_, tops, _, c, rfl, hacls, ha2, haname, haid, rfl, ?_, ?_, hb2, rfl, rfl, hc1, hc5, ?_⟩
  · intro hne
    rcases htopcases hne with ⟨h1, h2⟩ | ⟨h1, h2, h3, h4, h5, h6, h7⟩
    · exact Or.inl ⟨top, h1, h2, rfl⟩
    · exact Or.inr ⟨h1, top, h2, h3, h4, h5, h6, h7, rfl⟩
  · show b.cls.IsA .vtkMRMLHierarchyNode = true
    rw [hb1]
    decide
  · rw [hc6 rfl]
    exact Option.some_ne_none _

/-- Witness of C12 (amended): the report "Report" of the test scene, before any hierarchy
is set up; the scene service of the test scenes takes the name "Report Hierarchy" as
it is, and the scene has no node named "Reporting Hierarchy". -/
theorem InitializeHierarchyForReport_builds_witness :
    reportingLogic.MRMLScene = some
      { nodes := [reportingParameterNode, reportingReport, reportingVolume, reportingLabelMap] } ∧
    GetAssociatedHierarchyNode reportingLogic.MRMLScene (some "vtkMRMLReportingReportNode2") =
      none ∧
    (InitializeHierarchyForReport testServices reportingLogic (some reportingReport)).map
      (fun self1 =>
        ((GetAssociatedHierarchyNode self1.MRMLScene reportingReport.ID).map
            (fun h => (h.ID, h.Name, h.ParentNodeID)),
          (self1.MRMLScene.bind (fun s => s.GetFirstNodeByName "Reporting Hierarchy")).map
            (fun top => (top.ID, top.ParentNodeID))))
      = .ok (some (some "vtkMRMLDisplayableHierarchyNode5", some "Report Hierarchy",
          some "vtkMRMLDisplayableHierarchyNode6"),
          some (some "vtkMRMLDisplayableHierarchyNode6", none)) ∧
    ∃ (reportH : Node) (tops : List Node) (ranoH rano : Node),
      InitializeHierarchyForReport testServices reportingLogic (some reportingReport) =
        .ok { reportingLogic with
          MRMLScene := some { nodes :=
            [reportingParameterNode, reportingReport, reportingVolume, reportingLabelMap] ++
              (reportH :: tops ++ [ranoH, rano]) } } ∧
      reportH.cls.IsA .vtkMRMLHierarchyNode = true ∧
      reportH.HideFromEditors = true ∧
      reportH.Name = some "Report Hierarchy" ∧
      reportH.ID ≠ none ∧
      reportH.AssociatedNodeID = some "vtkMRMLReportingReportNode2" ∧
      ("Report Hierarchy" ≠ "Reporting Hierarchy" →
        (∃ top, ({ nodes := [reportingParameterNode, reportingReport, reportingVolume,
            reportingLabelMap] } : Scene).GetFirstNodeByName "Reporting Hierarchy" = some top ∧
          tops = [] ∧ reportH.ParentNodeID = top.ID) ∨
        (({ nodes := [reportingParameterNode, reportingReport, reportingVolume,
            reportingLabelMap] } : Scene).GetFirstNodeByName "Reporting Hierarchy" = none ∧
          ∃ top, tops = [top] ∧ top.cls = .vtkMRMLDisplayableHierarchyNode ∧
            top.Name = some "Reporting Hierarchy" ∧ top.ParentNodeID = none ∧
            top.AssociatedNodeID = none ∧ top.ID ≠ none ∧
            reportH.ParentNodeID = top.ID)) ∧
      ranoH.cls.IsA .vtkMRMLHierarchyNode = true ∧
      ranoH.HideFromEditors = true ∧
      ranoH.ParentNodeID = reportH.ID ∧
      ranoH.AssociatedNodeID = rano.ID ∧
      rano.cls = .vtkMRMLReportingAnnotationRANONode ∧
      rano.InScene = true ∧
      rano.ID ≠ none :=
  ⟨rfl, by decide!, by decide!,
    InitializeHierarchyForReport_builds testServices reportingLogic reportingReport _
      "vtkMRMLReportingReportNode2" "Report" rfl rfl rfl rfl (by decide!) (by decide)⟩
/-! ## Theorems: lookups in the hierarchy -/

theorem GetVolumeIDForReportNode_loop_eq (scene : Scene) (l : List Node) :
    GetVolumeIDForReportNode.loop scene l =
      ((l.filterMap (fun child =>
        (scene.GetAssociatedNode child).filter (fun m => m.cls.IsA .vtkMRMLVolumeNode))).head?).bind
        (fun volume => volume.ID) := by
  induction l with
  | nil => rfl
  | cons child rest ih =>
    simp only [GetVolumeIDForReportNode.loop, List.filterMap_cons]
    cases h : scene.GetAssociatedNode child with
    | none => simpa using ih
    | some m =>
      by_cases hm : m.cls.IsA .vtkMRMLVolumeNode = true
      · simp [Option.filter, hm]
      · simp only [Option.filter, hm]
        simpa using ih

/-- C15: for a report with hierarchy node `hnode`, the result is the identifier of the
first volume under `hnode` in the order of the all-children sequence; so it is the
identifier of the volume when there is exactly one, and null when there is none. The
result is null as well for an absent report and for a report without hierarchy node. -/
theorem GetVolumeIDForReportNode_first_volume (self : Logic) (node hnode : Node) (scene : Scene)
    (hh : GetAssociatedHierarchyNode (self.sceneOf node) node.ID = some hnode)
    (hs : self.sceneOf hnode = some scene) :
    GetVolumeIDForReportNode self (some node) =
      ((scene.volumesUnder hnode).head?).bind (fun volume => volume.ID) ∧
    (∀ volume, scene.volumesUnder hnode = [volume] →
      GetVolumeIDForReportNode self (some node) = volume.ID) ∧
    (scene.volumesUnder hnode = [] → GetVolumeIDForReportNode self (some node) = none) ∧
    GetVolumeIDForReportNode self none = none ∧
    (∀ other, GetAssociatedHierarchyNode (self.sceneOf other) other.ID = none →
      GetVolumeIDForReportNode self (some other) = none) := by
  have h : GetVolumeIDForReportNode self (some node) =
      ((scene.volumesUnder hnode).head?).bind (fun volume => volume.ID) := by
    simp only [GetVolumeIDForReportNode, hh, hs, GetVolumeIDForReportNode_loop_eq,
      Scene.volumesUnder]
  refine ⟨h, ?_, ?_, rfl, ?_⟩
  · intro volume hv
    rw [h, hv]
    rfl
  · intro hv
    rw [h, hv]
    rfl
  · intro other ho
    simp only [GetVolumeIDForReportNode, ho]

/-- Witness of C15: the report of `labelMapScene`; the volume and its label map are under
the hierarchy node of the report, the volume first. -/
theorem GetVolumeIDForReportNode_first_volume_witness :
    GetAssociatedHierarchyNode (labelMapLogic.sceneOf reportingReport) reportingReport.ID =
      some reportHierarchyNode ∧
    labelMapLogic.sceneOf reportHierarchyNode = some labelMapScene ∧
    labelMapScene.volumesUnder reportHierarchyNode = [reportingVolume, reportingLabelMap] ∧
    GetVolumeIDForReportNode labelMapLogic (some reportingReport) =
      ((labelMapScene.volumesUnder reportHierarchyNode).head?).bind (fun volume => volume.ID) :=
  ⟨by decide!, by decide!, by decide!,
    (GetVolumeIDForReportNode_first_volume labelMapLogic reportingReport reportHierarchyNode
      labelMapScene (by decide!) (by decide!)).1⟩

theorem SetActiveMarkupHierarchyIDFromNode_loop_eq (l : List Node)
    (hnames : ∀ child ∈ l, child.Name ≠ none) :
    SetActiveMarkupHierarchyIDFromNode.loop l =
      .ok (l.find? (fun child => child.cls.IsA .vtkMRMLAnnotationHierarchyNode &&
        (child.Name.map startsWithMarkup).getD false)) := by
  induction l with
  | nil => rfl
  | cons child rest ih =>
    have ih1 := ih (fun c hc => hnames c (List.mem_cons_of_mem _ hc))
    have hchild := hnames child (List.mem_cons_self _ _)
    simp only [SetActiveMarkupHierarchyIDFromNode.loop, List.find?_cons]
    cases hname : child.Name with
    | none => exact absurd hname hchild
    | some name =>
      by_cases hcls : child.cls.IsA .vtkMRMLAnnotationHierarchyNode = true
      · by_cases hm : startsWithMarkup name = true
        · simp [hcls, hm]
        · simp [hcls, hm, ih1]
      · simp [hcls, ih1]

/-- C17: in a scene where every node has a name, for a node named `name` the active
markup becomes the identifier of the first node named "Markup <name>" when there is
one; otherwise that of the first direct child of the hierarchy node of the node that
is an annotation hierarchy node with a name that starts with "Markup" when there is
one; otherwise null. The rest of the state is left as it is. -/
theorem SetActiveMarkupHierarchyIDFromNode_resolution (self : Logic) (node : Node)
    (scene : Scene) (name : String)
    (hscene : self.MRMLScene = some scene) (hname : node.Name = some name)
    (hnames : ∀ n ∈ scene.nodes, n.Name ≠ none) :
    SetActiveMarkupHierarchyIDFromNode self (some node) =
      .ok { self with ActiveMarkupHierarchyID :=
        match scene.GetFirstNodeByName ("Markup " ++ name) with
        | some markup => markup.ID
        | none =>
          match GetAssociatedHierarchyNode (self.sceneOf node) node.ID with
          | some hnode => (self.firstMarkupChild hnode).bind (fun child => child.ID)
          | none => none } := by
  simp only [SetActiveMarkupHierarchyIDFromNode, hname, hscene]
  cases h1 : scene.GetFirstNodeByName ("Markup " ++ name) with
  | some markup => rfl
  | none =>
    cases h2 : GetAssociatedHierarchyNode (self.sceneOf node) node.ID with
    | none => rfl
    | some hnode =>
      have hchildren : ∀ child ∈ self.childrenOf hnode, child.Name ≠ none := by
        intro child hc
        simp only [Logic.childrenOf, Logic.sceneOf, hscene] at hc
        split at hc
        · simp at hc
        · rename_i s hs
          split at hs
          · cases hs
            simp only [Scene.GetChildrenNodes] at hc
            split at hc
            · simp at hc
            · exact hnames child (List.mem_of_mem_filter hc)
          · cases hs
      simp only [SetActiveMarkupHierarchyIDFromNode_loop_eq _ hchildren, Logic.firstMarkupChild]
      cases List.find? (fun child => child.cls.IsA .vtkMRMLAnnotationHierarchyNode &&
        (child.Name.map startsWithMarkup).getD false) (self.childrenOf hnode) <;> rfl

/-- Witness of C17: the volume "CT" in `labelMapScene`, where the node "Markup CT" is
found by name. -/
theorem SetActiveMarkupHierarchyIDFromNode_resolution_witness :
    labelMapLogic.MRMLScene = some labelMapScene ∧
    reportingVolume.Name = some "CT" ∧
    (∀ n ∈ labelMapScene.nodes, n.Name ≠ none) ∧
    SetActiveMarkupHierarchyIDFromNode { labelMapLogic with ActiveMarkupHierarchyID := none }
        (some reportingVolume) =
      .ok { labelMapLogic with
        ActiveMarkupHierarchyID := some "vtkMRMLAnnotationHierarchyNode10" } :=
  ⟨rfl, rfl, by decide!,
    SetActiveMarkupHierarchyIDFromNode_resolution
      { labelMapLogic with ActiveMarkupHierarchyID := none } reportingVolume labelMapScene "CT"
      rfl rfl (by decide!)⟩

/-! ## Theorems: the gate of the node-added handler -/

theorem OnMRMLSceneNodeAdded.markupNode_gated (svc : SceneServices) (self : Logic) (node : Node)
    (annotationType : String)
    (hgate : self.GUIHidden = true ∨
      (self.MRMLScene ≠ none ∧
        GetSliceUIDFromMarkUp self (SafeDownCast .vtkMRMLAnnotationNode node) = .ok "NONE")) :
    OnMRMLSceneNodeAdded.markupNode svc self node annotationType = .ok self := by
  unfold OnMRMLSceneNodeAdded.markupNode
  by_cases hgui : self.GUIHidden = true
  · simp [hgui]
  · rcases hgate with h | ⟨hscene, huid⟩
    · exact absurd h hgui
    · cases hs : self.MRMLScene with
      | none => exact absurd hs hscene
      | some scene => simp [hgui, huid]

/-- C19: for a fiducial or ruler annotation, when the GUI-hidden flag is set, or the
scene is set and the slice UID of the annotation resolves to "NONE", the handler ends
in the state it started from: the scene, with the parent of every hierarchy node and
the name of every node, and the active markup register are unchanged. -/
theorem OnMRMLSceneNodeAdded_gated (svc : SceneServices) (self : Logic) (node : Node)
    (hcls : node.cls.IsA .vtkMRMLAnnotationFiducialNode = true ∨
      node.cls.IsA .vtkMRMLAnnotationRulerNode = true)
    (hgate : self.GUIHidden = true ∨
      (self.MRMLScene ≠ none ∧
        GetSliceUIDFromMarkUp self (SafeDownCast .vtkMRMLAnnotationNode node) = .ok "NONE")) :
    OnMRMLSceneNodeAdded svc self (some node) = .ok self := by
  unfold OnMRMLSceneNodeAdded
  by_cases hf : node.cls.IsA .vtkMRMLAnnotationFiducialNode = true
  · simp only [hf, if_true]
    exact OnMRMLSceneNodeAdded.markupNode_gated svc self node _ hgate
  · rcases hcls with h | h
    · exact absurd h hf
    · simp only [hf, h, if_true]
      exact OnMRMLSceneNodeAdded.markupNode_gated svc self node _ hgate

/-- Witness of C19: a fiducial without control points, whose slice UID is "NONE", with
the GUI visible. -/
theorem OnMRMLSceneNodeAdded_gated_witness :
    ((testMarkupNode .vtkMRMLAnnotationFiducialNode []).cls.IsA .vtkMRMLAnnotationFiducialNode
        = true ∨
      (testMarkupNode .vtkMRMLAnnotationFiducialNode []).cls.IsA .vtkMRMLAnnotationRulerNode
        = true) ∧
    ((testLogic "UID0 UID1").GUIHidden = true ∨
      ((testLogic "UID0 UID1").MRMLScene ≠ none ∧
        GetSliceUIDFromMarkUp (testLogic "UID0 UID1")
          (SafeDownCast .vtkMRMLAnnotationNode
            (testMarkupNode .vtkMRMLAnnotationFiducialNode [])) = .ok "NONE")) ∧
    OnMRMLSceneNodeAdded testServices (testLogic "UID0 UID1")
      (some (testMarkupNode .vtkMRMLAnnotationFiducialNode [])) = .ok (testLogic "UID0 UID1") :=
  ⟨Or.inl (by decide), Or.inr ⟨by decide, by decide!⟩,
    OnMRMLSceneNodeAdded_gated testServices (testLogic "UID0 UID1")
      (testMarkupNode .vtkMRMLAnnotationFiducialNode []) (Or.inl (by decide))
      (Or.inr ⟨by decide, by decide!⟩)⟩

/-! ## Theorems: lookups and writes -/

theorem find?_eq_findPtr (p : Node → Bool) (l : List Node) :
    l.find? p = (findPtr p l).map (fun r => r.2) := by
  induction l with
  | nil => rfl
  | cons a l ih =>
    simp only [List.find?_cons, findPtr]
    cases h : p a
    · simp [ih, Option.map_map, Function.comp_def]
    · simp

/-- A pointer returned by a lookup splits the list: the nodes before it fail the test,
the node at it passes. -/
theorem findPtr_split (p : Node → Bool) : ∀ (l : List Node) (i : Nat) (n : Node),
    findPtr p l = some (i, n) →
    ∃ before after, l = before ++ n :: after ∧ before.length = i ∧ p n = true ∧
      ∀ m ∈ before, p m = false
  | [], _, _, h => by simp [findPtr] at h
  | a :: l, i, n, h => by
    simp only [findPtr] at h
    by_cases ha : p a = true
    · simp only [ha, if_true, Option.some.injEq, Prod.mk.injEq] at h
      obtain ⟨rfl, rfl⟩ := h
      exact ⟨[], l, rfl, rfl, ha, by simp⟩
    · simp only [ha, Bool.false_eq_true, if_false] at h
      cases hj : findPtr p l with
      | none => simp [hj] at h
      | some r =>
      obtain ⟨j, m⟩ := r
      simp only [hj, Option.map_some', Option.some.injEq, Prod.mk.injEq] at h
      obtain ⟨rfl, rfl⟩ := h
      obtain ⟨before, after, hl, hlen, hp, hbefore⟩ := findPtr_split p l j m hj
      refine ⟨a :: before, after, by simp [hl], by simp [hlen], hp, ?_⟩
      intro x hx
      rcases List.mem_cons.mp hx with rfl | hx
      · simpa using ha
      · exact hbefore x hx

theorem findPtr_eq_none (p : Node → Bool) : ∀ (l : List Node),
    findPtr p l = none → ∀ m ∈ l, p m = false
  | [], _, _, hm => by simp at hm
  | a :: l, h, m, hm => by
    simp only [findPtr] at h
    by_cases ha : p a = true
    · simp [ha] at h
    · simp only [ha, Bool.false_eq_true, if_false, Option.map_eq_none'] at h
      rcases List.mem_cons.mp hm with rfl | hm
      · simpa using ha
      · exact findPtr_eq_none p l h m hm

theorem findPtr_of_split (p : Node → Bool) (before : List Node) (n : Node) (after : List Node)
    (hn : p n = true) (hbefore : ∀ m ∈ before, p m = false) :
    findPtr p (before ++ n :: after) = some (before.length, n) := by
  induction before with
  | nil => simp [findPtr, hn]
  | cons a before ih =>
    have ha : p a = false := hbefore a (List.mem_cons_self _ _)
    have := ih (fun m hm => hbefore m (List.mem_cons_of_mem _ hm))
    simp [findPtr, ha, this]

theorem find?_of_split (p : Node → Bool) (before : List Node) (n : Node) (after : List Node)
    (hn : p n = true) (hbefore : ∀ m ∈ before, p m = false) :
    (before ++ n :: after).find? p = some n := by
  rw [find?_eq_findPtr, findPtr_of_split p before n after hn hbefore]
  rfl

theorem find?_append_of_none (p : Node → Bool) (l r : List Node)
    (h : ∀ m ∈ l, p m = false) : (l ++ r).find? p = r.find? p := by
  rw [List.find?_append, List.find?_eq_none.mpr (by simpa using h)]
  rfl

/-- A write that does not change the test of a lookup does not change the pointer
the lookup returns; the node returned is the written node when the pointers agree. -/
theorem findPtr_modifyAt (p : Node → Bool) (f : Node → Node) (hpf : ∀ x, p (f x) = p x) :
    ∀ (k : Nat) (l : List Node),
    findPtr p (modifyAt f k l) =
      (findPtr p l).map (fun r => (r.1, if r.1 = k then f r.2 else r.2))
  | _, [] => by simp [modifyAt, findPtr]
  | 0, a :: l => by
    simp only [modifyAt, findPtr, hpf]
    cases p a
    · simp only [Bool.false_eq_true, if_false, Option.map_map]
      congr 1
    · simp
  | k + 1, a :: l => by
    simp only [modifyAt, findPtr]
    cases p a
    · simp only [Bool.false_eq_true, if_false, findPtr_modifyAt p f hpf k l, Option.map_map]
      congr 1
      funext r
      simp [Function.comp]
    · simp

/-- A lookup after a write that does not change its test: the node found is the node
found before, written or not. -/
theorem find?_modifyAt (p : Node → Bool) (f : Node → Node) (hpf : ∀ x, p (f x) = p x)
    (k : Nat) (l : List Node) :
    ∃ g : Node → Node, (g = f ∨ g = id) ∧ (modifyAt f k l).find? p = (l.find? p).map g := by
  rw [find?_eq_findPtr, find?_eq_findPtr, findPtr_modifyAt p f hpf]
  cases h : findPtr p l with
  | none => exact ⟨id, Or.inr rfl, rfl⟩
  | some r =>
    by_cases hk : r.1 = k
    · exact ⟨f, Or.inl rfl, by simp [hk]⟩
    · exact ⟨id, Or.inr rfl, by simp [hk]⟩

/-! ## Theorems: the hierarchy of a volume -/

theorem GetActiveReportHierarchyID_ok (svc : SceneServices) (self : Logic) (scene : Scene)
    (hscene : self.MRMLScene = some scene) :
    ∃ activeReportID, GetActiveReportHierarchyID svc self = .ok activeReportID := by
  unfold GetActiveReportHierarchyID
  simp only [hscene]
  repeat' split
  all_goals exact ⟨_, rfl⟩

/-- Adding a node that is no parameter node and has no associated node does not change
the active report. -/
theorem GetActiveReportHierarchyID_append (svc : SceneServices) (self : Logic) (scene : Scene)
    (a : Node)
    (hscene : self.MRMLScene = some scene)
    (hcls : a.cls.IsA .vtkMRMLScriptedModuleNode = false) (hassoc : a.AssociatedNodeID = none) :
    GetActiveReportHierarchyID svc { self with MRMLScene := some { nodes := scene.nodes ++ [a] } } =
      GetActiveReportHierarchyID svc self := by
  unfold GetActiveReportHierarchyID
  cases hactive : self.ActiveParameterNodeID with
  | none => rfl
  | some activeParameterNodeID =>
    simp only [hscene, Scene.GetNodeByID, List.find?_append]
    cases hfind : List.find? (fun n => n.ID == some activeParameterNodeID) scene.nodes with
    | none =>
      simp only [Option.none_or, List.find?_cons, List.find?_nil]
      split
      · rfl
      · rename_i m hm
        split at hm
        · cases hm
          simp [SafeDownCast, hcls]
        · cases hm
    | some m =>
      simp only [Option.or]
      cases hcast : SafeDownCast .vtkMRMLScriptedModuleNode m with
      | none => rfl
      | some parameterNode =>
        simp only [Logic.sceneOf, hscene]
        cases parameterNode.InScene with
        | false => rfl
        | true =>
          simp only [if_true, GetAssociatedHierarchyNode, List.find?_append, List.find?_cons,
            List.find?_nil, isAssociatedHierarchyNode, hassoc]
          simp

/-- A write of a parent identifier does not change the active report. -/
theorem GetActiveReportHierarchyID_modify (svc : SceneServices) (self : Logic) (scene : Scene)
    (k : Nat)
    (parent : Option String) (hscene : self.MRMLScene = some scene) :
    GetActiveReportHierarchyID svc { self with
        MRMLScene := some (scene.modify k (fun h => { h with ParentNodeID := parent })) } =
      GetActiveReportHierarchyID svc self := by
  unfold GetActiveReportHierarchyID
  cases hactive : self.ActiveParameterNodeID with
  | none => rfl
  | some activeParameterNodeID =>
    simp only [hscene, Scene.GetNodeByID, Scene.modify]
    obtain ⟨g, hg, hfind⟩ := find?_modifyAt (fun n => n.ID == some activeParameterNodeID)
      (fun h => { h with ParentNodeID := parent }) (fun _ => rfl) k scene.nodes
    rw [hfind]
    cases List.find? (fun n => n.ID == some activeParameterNodeID) scene.nodes with
    | none => rfl
    | some m =>
      have hgm : SafeDownCast .vtkMRMLScriptedModuleNode (g m) =
          (SafeDownCast .vtkMRMLScriptedModuleNode m).map g := by
        rcases hg with rfl | rfl
        · simp only [SafeDownCast]
          split <;> rfl
        · simp
      simp only [Option.map_some', hgm]
      cases SafeDownCast .vtkMRMLScriptedModuleNode m with
      | none => rfl
      | some parameterNode =>
        have hparam : (g parameterNode).GetParameter "reportID" =
            parameterNode.GetParameter "reportID" ∧
            (g parameterNode).InScene = parameterNode.InScene := by
          rcases hg with rfl | rfl <;> exact ⟨rfl, rfl⟩
        simp only [Option.map_some', Logic.sceneOf, hscene, hparam.1, hparam.2]
        cases parameterNode.InScene with
        | false => rfl
        | true =>
          simp only [if_true, GetAssociatedHierarchyNode]
          obtain ⟨g1, hg1, hfind1⟩ := find?_modifyAt
            (isAssociatedHierarchyNode
              (svc.ReadDestroyedString (parameterNode.GetParameter "reportID")))
            (fun h => { h with ParentNodeID := parent }) (fun _ => rfl) k scene.nodes
          rw [hfind1]
          cases List.find? (isAssociatedHierarchyNode
            (svc.ReadDestroyedString (parameterNode.GetParameter "reportID"))) scene.nodes with
          | none => rfl
          | some hnode => rcases hg1 with rfl | rfl <;> rfl

theorem markup_name_ne_empty (name : String) : "Markup " ++ name ≠ "" := by
  intro h
  have := congrArg String.length h
  simp only [String.length_append] at this
  have h7 : "Markup ".length = 7 := by decide
  have h0 : "".length = 0 := by decide
  omega

/-- What `InitializeHierarchyForVolume` does for a volume of the scene with a name.
First part: the hierarchy node of the volume is re-parented, or created at the end of
the scene; `base` is the scene after it and `vh` the hierarchy node. Second part: the
first node named "Markup <name>" is taken, or a markup node is created. -/
theorem InitializeHierarchyForVolume_result (svc : SceneServices) (self : Logic) (node : Node)
    (scene : Scene) (nodeID name : String) (activeReportID : Option String)
    (hscene : self.MRMLScene = some scene) (hin : node.InScene = true)
    (hid : node.ID = some nodeID) (hname : node.Name = some name)
    (hactive : GetActiveReportHierarchyID svc self = .ok activeReportID) :
    ∃ (base : List Node) (vh : Node) (markups : List Node) (markup : Node),
      InitializeHierarchyForVolume svc self (some node) =
        .ok { self with
          MRMLScene := some { nodes := base ++ markups }
          ActiveMarkupHierarchyID := markup.ID } ∧
      ((∃ ptr hnode,
          GetAssociatedHierarchyNodePtr (some scene) (some nodeID) = some (ptr, hnode) ∧
          base = modifyAt (fun h => { h with ParentNodeID := activeReportID }) ptr scene.nodes ∧
          vh = { hnode with ParentNodeID := activeReportID }) ∨
        (GetAssociatedHierarchyNodePtr (some scene) (some nodeID) = none ∧
          base = scene.nodes ++ [vh] ∧
          vh.cls = .vtkMRMLDisplayableHierarchyNode ∧ vh.HideFromEditors = true)) ∧
      base.find? (isAssociatedHierarchyNode nodeID) = some vh ∧
      vh.ParentNodeID = activeReportID ∧
      ((base.find? (fun n => n.Name == some ("Markup " ++ name)) = some markup ∧ markups = []) ∨
        (base.find? (fun n => n.Name == some ("Markup " ++ name)) = none ∧
          markups = [markup] ∧
          markup.cls = .vtkMRMLAnnotationHierarchyNode ∧
          markup.Name = some ("Markup " ++ name) ∧
          markup.ParentNodeID = vh.ID ∧ markup.AssociatedNodeID = none)) := by
  simp only [InitializeHierarchyForVolume, Logic.sceneOf, hin, hscene, hid, hname, if_true,
    Scene.AddNode_eq_added, Scene.modify, GetAssociatedHierarchyNodePtr, Scene.GetFirstNodeByName]
  cases hptr : findPtr (isAssociatedHierarchyNode nodeID) scene.nodes with
  | some r =>
    obtain ⟨ptr, hnode⟩ := r
    simp only [hactive]
    have hbase : (modifyAt (fun h => { h with ParentNodeID := activeReportID }) ptr
        scene.nodes).find? (isAssociatedHierarchyNode nodeID) =
        some { hnode with ParentNodeID := activeReportID } := by
      rw [find?_eq_findPtr, findPtr_modifyAt (isAssociatedHierarchyNode nodeID)
        (fun h => { h with ParentNodeID := activeReportID }) (fun _ => rfl), hptr]
      simp
    cases hm : (modifyAt (fun h => { h with ParentNodeID := activeReportID }) ptr
        scene.nodes).find? (fun n : Node => n.Name == some ("Markup " ++ name)) with
    | some m =>
      refine ⟨_, _, [], m, ?_, Or.inl ⟨ptr, hnode, rfl, rfl, rfl⟩, hbase, rfl, Or.inl ⟨hm, rfl⟩⟩
      simp only [hm, List.append_nil]
    | none =>
      simp only []
      generalize hM : Scene.added svc _ _ = markup
      obtain ⟨hm1, -, -, hm4, -, -, hm7⟩ := hM ▸ Scene.added_fields svc _ _
      refine ⟨_, _, [_], { markup with ParentNodeID := hnode.ID }, ?_,
        Or.inl ⟨ptr, hnode, rfl, rfl, rfl⟩, hbase, rfl,
        Or.inr ⟨hm, rfl, hm1, hm7 _ rfl (markup_name_ne_empty name), rfl, hm4⟩⟩
      simp only [modifyAt_length_append]
  | none =>
    simp only []
    generalize hA : Scene.added svc scene _ = a
    obtain ⟨ha1, ha2, -, ha4, -, -, -⟩ := hA ▸ Scene.added_fields svc scene _
    replace ha1 : a.cls = .vtkMRMLDisplayableHierarchyNode := ha1
    replace ha2 : a.HideFromEditors = true := ha2
    replace ha4 : a.AssociatedNodeID = none := ha4
    rw [GetActiveReportHierarchyID_append svc self scene a hscene (by rw [ha1]; decide) ha4, hactive]
    simp only [modifyAt_length_append]
    have hnone := findPtr_eq_none _ _ hptr
    have hbase : (scene.nodes ++
        [{ a with ParentNodeID := activeReportID, AssociatedNodeID := some nodeID }]).find?
        (isAssociatedHierarchyNode nodeID) =
        some { a with ParentNodeID := activeReportID, AssociatedNodeID := some nodeID } := by
      apply find?_of_split _ _ _ _ _ hnone
      simp only [isAssociatedHierarchyNode, ha1, beq_self_eq_true, Bool.and_true]
      decide
    cases hm : (scene.nodes ++
        [{ a with ParentNodeID := activeReportID, AssociatedNodeID := some nodeID }]).find?
        (fun n : Node => n.Name == some ("Markup " ++ name)) with
    | some m =>
      refine ⟨_, { a with ParentNodeID := activeReportID, AssociatedNodeID := some nodeID }, [],
        m, ?_, Or.inr ⟨trivial, rfl, ha1, ha2⟩, hbase, rfl, Or.inl ⟨hm, rfl⟩⟩
      simp only [hm, List.append_nil]
    | none =>
      simp only []
      generalize hM : Scene.added svc _ _ = markup
      obtain ⟨hm1, -, -, hm4, -, -, hm7⟩ := hM ▸ Scene.added_fields svc _ _
      refine ⟨_, { a with ParentNodeID := activeReportID, AssociatedNodeID := some nodeID },
        [_], { markup with ParentNodeID := a.ID }, ?_,
        Or.inr ⟨trivial, rfl, ha1, ha2⟩, hbase, rfl,
        Or.inr ⟨hm, rfl, hm1, hm7 _ rfl (markup_name_ne_empty name), rfl, hm4⟩⟩
      simp only [modifyAt_length_append]

theorem mem_modifyAt (f : Node → Node) : ∀ (k : Nat) (l : List Node) (m : Node),
    m ∈ modifyAt f k l → ∃ n ∈ l, m = n ∨ m = f n
  | _, [], m, h => by simp [modifyAt] at h
  | 0, a :: l, m, h => by
    simp only [modifyAt, List.mem_cons] at h
    rcases h with rfl | h
    · exact ⟨a, List.mem_cons_self _ _, Or.inr rfl⟩
    · exact ⟨m, List.mem_cons_of_mem _ h, Or.inl rfl⟩
  | k + 1, a :: l, m, h => by
    simp only [modifyAt, List.mem_cons] at h
    rcases h with rfl | h
    · exact ⟨m, List.mem_cons_self _ _, Or.inl rfl⟩
    · obtain ⟨n, hn, hm⟩ := mem_modifyAt f k l m h
      exact ⟨n, List.mem_cons_of_mem _ hn, hm⟩

/-- C13 (counterexample): for a second volume named "CT" the call takes the markup node
"Markup CT" of the first volume as the active markup; its parent is the hierarchy node
of the first volume, not the hierarchy node the call created for the second volume. -/
theorem InitializeHierarchyForVolume_markup_of_other_volume :
    (InitializeHierarchyForVolume testServices secondVolumeLogic (some secondVolume)).map
      (fun self1 =>
        (self1.ActiveMarkupHierarchyID,
          (self1.MRMLScene.bind (fun s => s.GetNodeByID self1.ActiveMarkupHierarchyID)).map
            (fun markup => markup.ParentNodeID),
          (GetAssociatedHierarchyNode self1.MRMLScene secondVolume.ID).map (fun vh => vh.ID)))
      = .ok (some "vtkMRMLAnnotationHierarchyNode10",
          some (some "vtkMRMLDisplayableHierarchyNode9"),
          some (some "vtkMRMLDisplayableHierarchyNode13")) := by
  decide!

/-- C13 (amended): for a volume of the scene with a name, after the call the active
markup identifier is the identifier of the first node of the scene named
"Markup <VolumeName>". When no node of the scene before the call and not the hierarchy
node of the volume has that name, that node is the markup node the call created at
the end of the scene: an annotation hierarchy node whose parent is the hierarchy node
of the volume. -/
theorem InitializeHierarchyForVolume_active_markup (svc : SceneServices) (self : Logic)
    (node : Node) (scene : Scene) (nodeID name : String)
    (hscene : self.MRMLScene = some scene) (hin : node.InScene = true)
    (hid : node.ID = some nodeID) (hname : node.Name = some name) :
    ∃ (self1 : Logic) (scene1 : Scene) (markup vh : Node),
      InitializeHierarchyForVolume svc self (some node) = .ok self1 ∧
      self1.MRMLScene = some scene1 ∧
      scene1.GetFirstNodeByName ("Markup " ++ name) = some markup ∧
      self1.ActiveMarkupHierarchyID = markup.ID ∧
      GetAssociatedHierarchyNode (some scene1) (some nodeID) = some vh ∧
      ((∀ n ∈ scene.nodes, n.Name ≠ some ("Markup " ++ name)) →
        vh.Name ≠ some ("Markup " ++ name) →
        markup.cls = .vtkMRMLAnnotationHierarchyNode ∧ markup.ParentNodeID = vh.ID ∧
        scene1.nodes.getLast? = some markup) := by
  obtain ⟨activeReportID, hactive⟩ := GetActiveReportHierarchyID_ok svc self scene hscene
  obtain ⟨base, vh, markups, markup, hres, hfirst, hvh, -, hsecond⟩ :=
    InitializeHierarchyForVolume_result svc self node scene nodeID name activeReportID hscene hin
      hid hname hactive
  refine ⟨_, _, markup, vh, hres, rfl, ?_, rfl, ?_, ?_⟩
  · rcases hsecond with ⟨hm, rfl⟩ | ⟨hm, rfl, -, hmname, -, -⟩
    · simpa [Scene.GetFirstNodeByName] using hm
    · simp only [Scene.GetFirstNodeByName]
      exact find?_of_split _ _ _ _ (by simp [hmname]) (by simpa using hm)
  · simp only [GetAssociatedHierarchyNode, List.find?_append, hvh]
    rfl
  · intro hscenenames hvhname
    have hbase : ∀ m ∈ base, m.Name ≠ some ("Markup " ++ name) := by
      intro m hm
      rcases hfirst with ⟨ptr, hnode, -, rfl, -⟩ | ⟨-, rfl, -, -⟩
      · obtain ⟨n, hn, rfl | rfl⟩ := mem_modifyAt _ _ _ _ hm
        · exact hscenenames _ hn
        · exact hscenenames n hn
      · rcases List.mem_append.mp hm with hm | hm
        · exact hscenenames _ hm
        · rw [List.mem_singleton] at hm
          subst hm
          exact hvhname
    rcases hsecond with ⟨hm, rfl⟩ | ⟨hm, rfl, hmcls, -, hmparent, -⟩
    · have h1 := List.mem_of_find?_eq_some hm
      have h2 : (markup.Name == some ("Markup " ++ name)) = true :=
        List.find?_some (p := fun n : Node => n.Name == some ("Markup " ++ name)) hm
      exact absurd (by simpa using h2) (hbase markup h1)
    · exact ⟨hmcls, hmparent, by simp⟩

/-- Witness of C13 (amended): the volume "CT" of the test scene, before any hierarchy is
set up. -/
theorem InitializeHierarchyForVolume_active_markup_witness :
    reportingLogic.MRMLScene = some
      { nodes := [reportingParameterNode, reportingReport, reportingVolume, reportingLabelMap] } ∧
    reportingVolume.InScene = true ∧
    reportingVolume.ID = some "vtkMRMLScalarVolumeNode3" ∧
    reportingVolume.Name = some "CT" ∧
    (∃ (self1 : Logic) (scene1 : Scene) (markup vh : Node),
      InitializeHierarchyForVolume testServices reportingLogic (some reportingVolume)
        = .ok self1 ∧
      self1.MRMLScene = some scene1 ∧
      scene1.GetFirstNodeByName ("Markup " ++ "CT") = some markup ∧
      self1.ActiveMarkupHierarchyID = markup.ID ∧
      GetAssociatedHierarchyNode (some scene1) (some "vtkMRMLScalarVolumeNode3") = some vh ∧
      ((∀ n ∈ [reportingParameterNode, reportingReport, reportingVolume, reportingLabelMap],
          n.Name ≠ some ("Markup " ++ "CT")) →
        vh.Name ≠ some ("Markup " ++ "CT") →
        markup.cls = .vtkMRMLAnnotationHierarchyNode ∧ markup.ParentNodeID = vh.ID ∧
        scene1.nodes.getLast? = some markup)) ∧
    (InitializeHierarchyForVolume testServices reportingLogic (some reportingVolume)).map
      (fun self1 =>
        (self1.ActiveMarkupHierarchyID,
          (self1.MRMLScene.bind (fun s => s.GetNodeByID self1.ActiveMarkupHierarchyID)).map
            (fun markup => markup.ParentNodeID),
          (GetAssociatedHierarchyNode self1.MRMLScene reportingVolume.ID).map (fun vh => vh.ID)))
      = .ok (some "vtkMRMLAnnotationHierarchyNode6",
          some (some "vtkMRMLDisplayableHierarchyNode5"),
          some (some "vtkMRMLDisplayableHierarchyNode5")) :=
  ⟨rfl, rfl, rfl, rfl,
    InitializeHierarchyForVolume_active_markup testServices reportingLogic reportingVolume _
      "vtkMRMLScalarVolumeNode3" "CT" rfl rfl rfl rfl, by decide!⟩

/-- For a volume of the scene with a name, after the call the first hierarchy node
associated with the volume has as parent identifier what `GetActiveReportHierarchyID`
returned, null or the identifier of a hierarchy node. When the volume had an associated
hierarchy node before the call, that node is the one re-parented, and the scene
gains no node but at most one markup node, an annotation hierarchy node without
associated node. -/
theorem InitializeHierarchyForVolume_volume_hierarchy (svc : SceneServices) (self : Logic)
    (node : Node) (scene : Scene) (nodeID name : String)
    (hscene : self.MRMLScene = some scene) (hin : node.InScene = true)
    (hid : node.ID = some nodeID) (hname : node.Name = some name) :
    ∃ (self1 : Logic) (scene1 : Scene) (activeReportID : Option String) (vh : Node),
      InitializeHierarchyForVolume svc self (some node) = .ok self1 ∧
      self1.MRMLScene = some scene1 ∧
      GetActiveReportHierarchyID svc self = .ok activeReportID ∧
      GetAssociatedHierarchyNode (some scene1) (some nodeID) = some vh ∧
      vh.ParentNodeID = activeReportID ∧
      (∀ ptr hnode,
        GetAssociatedHierarchyNodePtr (some scene) (some nodeID) = some (ptr, hnode) →
        vh = { hnode with ParentNodeID := activeReportID } ∧
        ∃ markups : List Node, markups.length ≤ 1 ∧
          (∀ m ∈ markups,
            m.cls = .vtkMRMLAnnotationHierarchyNode ∧ m.AssociatedNodeID = none) ∧
          scene1.nodes =
            modifyAt (fun h => { h with ParentNodeID := activeReportID }) ptr scene.nodes ++
              markups) := by
  obtain ⟨activeReportID, hactive⟩ := GetActiveReportHierarchyID_ok svc self scene hscene
  obtain ⟨base, vh, markups, markup, hres, hfirst, hvh, hparent, hsecond⟩ :=
    InitializeHierarchyForVolume_result svc self node scene nodeID name activeReportID hscene hin
      hid hname hactive
  refine ⟨_, _, activeReportID, vh, hres, rfl, hactive, ?_, hparent, ?_⟩
  · simp only [GetAssociatedHierarchyNode, List.find?_append, hvh]
    rfl
  · intro ptr hnode hptr
    rcases hfirst with ⟨ptr1, hnode1, hptr1, rfl, rfl⟩ | ⟨hnone, -⟩
    · rw [hptr] at hptr1
      simp only [Option.some.injEq, Prod.mk.injEq] at hptr1
      obtain ⟨rfl, rfl⟩ := hptr1
      refine ⟨rfl, markups, ?_, ?_, rfl⟩
      · rcases hsecond with ⟨-, rfl⟩ | ⟨-, rfl, -⟩ <;> simp
      · intro m hm
        rcases hsecond with ⟨-, rfl⟩ | ⟨-, rfl, hmcls, -, -, hmassoc⟩
        · simp at hm
        · rw [List.mem_singleton] at hm
          subst hm
          exact ⟨hmcls, hmassoc⟩
    · rw [hptr] at hnone
      cases hnone

/-- An instance: the volume "CT" in `labelMapScene`, where it has a hierarchy node. -/
theorem InitializeHierarchyForVolume_volume_hierarchy_witness :
    labelMapLogic.MRMLScene = some labelMapScene ∧
    reportingVolume.InScene = true ∧
    reportingVolume.ID = some "vtkMRMLScalarVolumeNode3" ∧
    reportingVolume.Name = some "CT" ∧
    ∃ (self1 : Logic) (scene1 : Scene) (activeReportID : Option String) (vh : Node),
      InitializeHierarchyForVolume testServices labelMapLogic (some reportingVolume)
        = .ok self1 ∧
      self1.MRMLScene = some scene1 ∧
      GetActiveReportHierarchyID testServices labelMapLogic = .ok activeReportID ∧
      GetAssociatedHierarchyNode (some scene1) (some "vtkMRMLScalarVolumeNode3") = some vh ∧
      vh.ParentNodeID = activeReportID ∧
      (∀ ptr hnode,
        GetAssociatedHierarchyNodePtr (some labelMapScene) (some "vtkMRMLScalarVolumeNode3")
          = some (ptr, hnode) →
        vh = { hnode with ParentNodeID := activeReportID } ∧
        ∃ markups : List Node, markups.length ≤ 1 ∧
          (∀ m ∈ markups,
            m.cls = .vtkMRMLAnnotationHierarchyNode ∧ m.AssociatedNodeID = none) ∧
          scene1.nodes =
            modifyAt (fun h => { h with ParentNodeID := activeReportID }) ptr
              labelMapScene.nodes ++ markups) :=
  ⟨rfl, rfl, rfl, rfl,
    InitializeHierarchyForVolume_volume_hierarchy testServices labelMapLogic reportingVolume
      labelMapScene "vtkMRMLScalarVolumeNode3" "CT" rfl rfl rfl rfl⟩


/-- C14 (failing input): in `labelMapScene` the hierarchy node of the volume has the
hierarchy node of the report as parent, and the active parameter node names that report.
In the build of `testServices` the read of line 1393 behind the string destroyed at
line 1385 does not find the report identifier: `GetActiveReportHierarchyID` returns
null, and the call re-parents the hierarchy node of the volume to null, away from the
hierarchy node of the active report. Where the read finds the identifier the call
leaves the scene as it is. -/
theorem InitializeHierarchyForVolume_parent_lost :
    labelMapLogic.ActiveParameterNodeID = reportingParameterNode.ID ∧
    reportingParameterNode.GetParameter "reportID" = "vtkMRMLReportingReportNode2" ∧
    (GetAssociatedHierarchyNode (some labelMapScene) (some "vtkMRMLReportingReportNode2")).map
      (fun h => h.ID) = some (some "vtkMRMLDisplayableHierarchyNode5") ∧
    (GetAssociatedHierarchyNode (some labelMapScene) reportingVolume.ID).map
      (fun h => (h.ID, h.ParentNodeID)) =
        some (some "vtkMRMLDisplayableHierarchyNode9", some "vtkMRMLDisplayableHierarchyNode5") ∧
    GetActiveReportHierarchyID testServices labelMapLogic = .ok none ∧
    (InitializeHierarchyForVolume testServices labelMapLogic (some reportingVolume)).map
      (fun self1 => (GetAssociatedHierarchyNode self1.MRMLScene reportingVolume.ID).map
        (fun h => (h.ID, h.ParentNodeID))) =
        .ok (some (some "vtkMRMLDisplayableHierarchyNode9", none)) ∧
    GetActiveReportHierarchyID sharedBufferServices labelMapLogic =
      .ok (some "vtkMRMLDisplayableHierarchyNode5") ∧
    InitializeHierarchyForVolume sharedBufferServices labelMapLogic (some reportingVolume) =
      .ok labelMapLogic := by
  refine ⟨rfl, by decide!, by decide!, by decide!, by decide!, by decide!, by decide!,
    by decide!⟩
/-! ## Theorems: the node-added handler, label maps and annotations -/

theorem NodeClass.not_markup_of_scalarVolume (c : NodeClass)
    (h : c.IsA .vtkMRMLScalarVolumeNode = true) :
    c.IsA .vtkMRMLAnnotationFiducialNode = false ∧ c.IsA .vtkMRMLAnnotationRulerNode = false := by
  revert h
  cases c <;> decide

theorem NodeClass.isAnnotation_of_markup (c : NodeClass)
    (h : c.IsA .vtkMRMLAnnotationFiducialNode = true ∨ c.IsA .vtkMRMLAnnotationRulerNode = true) :
    c.IsA .vtkMRMLAnnotationNode = true := by
  revert h
  cases c <;> decide

/-- Where `GetActiveReportHierarchyID` returns the identifier of the hierarchy node of a
report, for a label map whose "AssociatedNodeID" attribute is the volume of that
report: without active markup the handler leaves the state, and so the hierarchy, as
it is; with an active markup, for a label map of the scene with identifier and name
and a scene service that allocates an unused identifier, the handler appends one
node to the scene, a hierarchy node associated with the label map whose parent is
the active markup. -/
theorem OnMRMLSceneNodeAdded_label_map (svc : SceneServices) (self : Logic) (node : Node)
    (scene : Scene) (associatedNodeID activeReportID : String) (activeHierarchyNode : Node)
    (hscene : self.MRMLScene = some scene)
    (hcls : node.cls.IsA .vtkMRMLScalarVolumeNode = true)
    (hlabel : node.LabelMap = true)
    (hattr : node.GetAttribute "AssociatedNodeID" = some associatedNodeID)
    (hreport : GetActiveReportHierarchyID svc self = .ok (some activeReportID))
    (hnode : (scene.GetNodeByID (some activeReportID)).bind
      (SafeDownCast .vtkMRMLDisplayableHierarchyNode) = some activeHierarchyNode)
    (hvolume : GetVolumeIDForReportNode self
      ((scene.GetAssociatedNode activeHierarchyNode).bind
        (SafeDownCast .vtkMRMLReportingReportNode)) = some associatedNodeID) :
    (self.ActiveMarkupHierarchyID = none → OnMRMLSceneNodeAdded svc self (some node) = .ok self) ∧
    (∀ activeMarkupHierarchyID nodeID name,
      self.ActiveMarkupHierarchyID = some activeMarkupHierarchyID →
      node.InScene = true → node.ID = some nodeID → node.Name = some name →
      (∀ n ∈ scene.nodes,
        n.ID ≠ some (svc.GetUniqueIDByClass scene .vtkMRMLDisplayableHierarchyNode)) →
      ∃ h : Node,
        OnMRMLSceneNodeAdded svc self (some node) =
          .ok { self with MRMLScene := some { nodes := scene.nodes ++ [h] } } ∧
        isAssociatedHierarchyNode nodeID h = true ∧
        h.ParentNodeID = some activeMarkupHierarchyID) := by
  obtain ⟨hf, hr⟩ := NodeClass.not_markup_of_scalarVolume node.cls hcls
  have hstart : OnMRMLSceneNodeAdded svc self (some node) =
      OnMRMLSceneNodeAdded.scalarVolume svc self node := by
    simp [OnMRMLSceneNodeAdded, hf, hr, hcls]
  rw [hstart]
  constructor
  · intro hactive
    simp [OnMRMLSceneNodeAdded.scalarVolume, hlabel, hattr, hreport, hscene, hnode, hvolume,
      hactive]
  · intro activeMarkupHierarchyID nodeID name hactive hin hid hname hfresh
    simp only [OnMRMLSceneNodeAdded.scalarVolume, hlabel, hattr, hreport, hscene, hnode, hvolume,
      hactive, Logic.sceneOf, hin, AddDisplayableHierarchyNodeForNode, hname, hid,
      Scene.AddNode_eq_added, Scene.modify, modifyAt_length_append, Option.some_bind,
      Bool.not_true, Bool.false_eq_true, if_false, if_true, ne_eq, not_true_eq_false]
    generalize hA : Scene.added svc scene _ = a
    obtain ⟨ha1, -, -, -, -, ha6, -⟩ := hA ▸ Scene.added_fields svc scene _
    replace ha1 : a.cls = .vtkMRMLDisplayableHierarchyNode := ha1
    replace ha6 : a.ID = some (svc.GetUniqueIDByClass scene .vtkMRMLDisplayableHierarchyNode) :=
      ha6 rfl
    generalize hB : ({ a with AssociatedNodeID := some nodeID } : Node) = b
    have hb1 : b.cls = .vtkMRMLDisplayableHierarchyNode := by rw [← hB]; exact ha1
    have hb6 : b.ID = some (svc.GetUniqueIDByClass scene .vtkMRMLDisplayableHierarchyNode) := by
      rw [← hB]; exact ha6
    have hb4 : b.AssociatedNodeID = some nodeID := by rw [← hB]
    have hptr : findPtr
        (fun n => n.ID == some (svc.GetUniqueIDByClass scene .vtkMRMLDisplayableHierarchyNode))
        (scene.nodes ++ [b]) = some (scene.nodes.length, b) :=
      findPtr_of_split _ _ _ _ (by simp [hb6]) (by simpa using hfresh)
    have hcast : b.cls.IsA .vtkMRMLDisplayableHierarchyNode = true := by rw [hb1]; decide
    simp only [ha6, Scene.GetNodeByIDPtr, hptr, SafeDownCast, hcast, if_true,
      modifyAt_length_append]
    refine ⟨_, rfl, ?_, rfl⟩
    simp only [isAssociatedHierarchyNode, hb1, hb4, beq_self_eq_true, Bool.and_true]
    decide

/-- An instance: the label map of `labelMapScene`, with the markup node of the volume
active, in a build where the read behind the destroyed string finds the report
identifier. -/
theorem OnMRMLSceneNodeAdded_label_map_witness :
    labelMapLogic.MRMLScene = some labelMapScene ∧
    reportingLabelMap.cls.IsA .vtkMRMLScalarVolumeNode = true ∧
    reportingLabelMap.LabelMap = true ∧
    reportingLabelMap.GetAttribute "AssociatedNodeID" = some "vtkMRMLScalarVolumeNode3" ∧
    GetActiveReportHierarchyID sharedBufferServices labelMapLogic =
      .ok (some "vtkMRMLDisplayableHierarchyNode5") ∧
    (labelMapScene.GetNodeByID (some "vtkMRMLDisplayableHierarchyNode5")).bind
      (SafeDownCast .vtkMRMLDisplayableHierarchyNode) = some reportHierarchyNode ∧
    GetVolumeIDForReportNode labelMapLogic
      ((labelMapScene.GetAssociatedNode reportHierarchyNode).bind
        (SafeDownCast .vtkMRMLReportingReportNode)) = some "vtkMRMLScalarVolumeNode3" ∧
    (∀ n ∈ labelMapScene.nodes,
      n.ID ≠ some (sharedBufferServices.GetUniqueIDByClass labelMapScene
        .vtkMRMLDisplayableHierarchyNode)) ∧
    ∃ h : Node,
      OnMRMLSceneNodeAdded sharedBufferServices labelMapLogic (some reportingLabelMap) =
        .ok { labelMapLogic with MRMLScene := some { nodes := labelMapScene.nodes ++ [h] } } ∧
      isAssociatedHierarchyNode "vtkMRMLScalarVolumeNode4" h = true ∧
      h.ParentNodeID = some "vtkMRMLAnnotationHierarchyNode10" :=
  ⟨rfl, by decide, rfl, by decide!, by decide!, by decide!, by decide!, by decide!,
    (OnMRMLSceneNodeAdded_label_map sharedBufferServices labelMapLogic reportingLabelMap
      labelMapScene
      "vtkMRMLScalarVolumeNode3" "vtkMRMLDisplayableHierarchyNode5" reportHierarchyNode
      rfl (by decide) rfl (by decide!) (by decide!) (by decide!) (by decide!)).2
      "vtkMRMLAnnotationHierarchyNode10" "vtkMRMLScalarVolumeNode4" "CT-label"
      rfl rfl rfl rfl (by decide!)⟩


/-- C20 (failing input): in `volumeScene` the markup node of the volume is active, the
active parameter node names the report, the report has a hierarchy node, and the
"AssociatedNodeID" attribute of the label map is the volume of that report; the label
map has no hierarchy node. In the build of `testServices` the read of line 1393 behind
the string destroyed at line 1385 does not find the report identifier:
`GetActiveReportHierarchyID` returns null, and the handler returns without a hierarchy
node for the label map. Where the read finds the identifier the handler adds the
hierarchy node under the active markup. -/
theorem OnMRMLSceneNodeAdded_label_map_left_out :
    volumeLogic.ActiveParameterNodeID = reportingParameterNode.ID ∧
    reportingParameterNode.GetParameter "reportID" = "vtkMRMLReportingReportNode2" ∧
    (GetAssociatedHierarchyNode (some volumeScene) (some "vtkMRMLReportingReportNode2")).map
      (fun h => h.ID) = some (some "vtkMRMLDisplayableHierarchyNode5") ∧
    GetVolumeIDForReportNode volumeLogic (some reportingReport) =
      some "vtkMRMLScalarVolumeNode3" ∧
    reportingLabelMap.LabelMap = true ∧
    reportingLabelMap.GetAttribute "AssociatedNodeID" = some "vtkMRMLScalarVolumeNode3" ∧
    volumeLogic.ActiveMarkupHierarchyID = some "vtkMRMLAnnotationHierarchyNode10" ∧
    GetAssociatedHierarchyNode (some volumeScene) reportingLabelMap.ID = none ∧
    GetActiveReportHierarchyID testServices volumeLogic = .ok none ∧
    OnMRMLSceneNodeAdded testServices volumeLogic (some reportingLabelMap) = .ok volumeLogic ∧
    GetActiveReportHierarchyID sharedBufferServices volumeLogic =
      .ok (some "vtkMRMLDisplayableHierarchyNode5") ∧
    OnMRMLSceneNodeAdded sharedBufferServices volumeLogic (some reportingLabelMap) =
      .ok labelMapLogic := by
  refine ⟨rfl, by decide!, by decide!, by decide!, rfl, by decide!, rfl, by decide!, by decide!,
    by decide!, by decide!, by decide!⟩
theorem NodeClass.not_fiducial_of_ruler (c : NodeClass)
    (h : c.IsA .vtkMRMLAnnotationRulerNode = true) :
    c.IsA .vtkMRMLAnnotationFiducialNode = false := by
  revert h
  cases c <;> decide

/-- The report node the handler reads after a write of a parent identifier is the
report node before the write, written or not. -/
theorem reportNode_modify (scene : Scene) (k : Nat) (parent activeReportID : Option String) :
    ∃ g : Node → Node,
      (g = (fun h => { h with ParentNodeID := parent }) ∨ g = id) ∧
      (((scene.modify k (fun h => { h with ParentNodeID := parent })).GetNodeByID
          activeReportID).bind (SafeDownCast .vtkMRMLDisplayableHierarchyNode)).bind
        (fun reportHierarchyNode =>
          (scene.modify k (fun h => { h with ParentNodeID := parent })).GetAssociatedNode
            reportHierarchyNode) =
      (((scene.GetNodeByID activeReportID).bind
          (SafeDownCast .vtkMRMLDisplayableHierarchyNode)).bind
        (fun reportHierarchyNode => scene.GetAssociatedNode reportHierarchyNode)).map g := by
  cases activeReportID with
  | none => exact ⟨id, Or.inr rfl, rfl⟩
  | some i =>
    simp only [Scene.GetNodeByID, Scene.modify]
    obtain ⟨g1, hg1, hfind1⟩ := find?_modifyAt (fun n => n.ID == some i)
      (fun h => { h with ParentNodeID := parent }) (fun _ => rfl) k scene.nodes
    rw [hfind1]
    cases List.find? (fun n => n.ID == some i) scene.nodes with
    | none => exact ⟨id, Or.inr rfl, rfl⟩
    | some m =>
      have hcast : SafeDownCast .vtkMRMLDisplayableHierarchyNode (g1 m) =
          (SafeDownCast .vtkMRMLDisplayableHierarchyNode m).map g1 := by
        rcases hg1 with rfl | rfl
        · simp only [SafeDownCast]
          split <;> rfl
        · simp
      simp only [Option.map_some', Option.some_bind, hcast]
      cases SafeDownCast .vtkMRMLDisplayableHierarchyNode m with
      | none => exact ⟨id, Or.inr rfl, rfl⟩
      | some rh =>
        have hrh : (g1 rh).InScene = rh.InScene ∧ (g1 rh).AssociatedNodeID = rh.AssociatedNodeID := by
          rcases hg1 with rfl | rfl <;> exact ⟨rfl, rfl⟩
        simp only [Option.map_some', Option.some_bind, Scene.GetAssociatedNode, hrh.1, hrh.2]
        cases rh.InScene with
        | false => exact ⟨id, Or.inr rfl, rfl⟩
        | true =>
          simp only [if_true, Scene.GetNodeByID]
          cases rh.AssociatedNodeID with
          | none => exact ⟨id, Or.inr rfl, rfl⟩
          | some j =>
            simp only []
            exact find?_modifyAt (fun n => n.ID == some j)
              (fun h => { h with ParentNodeID := parent }) (fun _ => rfl) k scene.nodes

/-- Where `GetActiveReportHierarchyID` returns the identifier of a displayable hierarchy
node with a report as associated node: with the GUI visible, for a fiducial or ruler
annotation of the scene whose slice UID is not "NONE" and that has a hierarchy node,
after the handler the hierarchy node of the annotation has the active markup as
parent, and the name of the annotation is what the scene service makes of
"<description>_Fiducial" or "<description>_Ruler", or of "Report_Fiducial" or
"Report_Ruler" when the report has no description. -/
theorem OnMRMLSceneNodeAdded_markup_attached (svc : SceneServices) (self : Logic) (node : Node)
    (scene : Scene) (annotationType UID : String) (hnodePtr : Nat)
    (hnode reportHierarchyNode reportNode : Node) (activeReportID : Option String)
    (htype : (node.cls.IsA .vtkMRMLAnnotationFiducialNode = true ∧ annotationType = "Fiducial") ∨
      (node.cls.IsA .vtkMRMLAnnotationRulerNode = true ∧ annotationType = "Ruler"))
    (hgui : self.GUIHidden = false) (hscene : self.MRMLScene = some scene)
    (hin : node.InScene = true) (hself : (scene.GetNodeByID node.ID).isSome = true)
    (huid : GetSliceUIDFromMarkUp self (SafeDownCast .vtkMRMLAnnotationNode node) = .ok UID)
    (hnone : UID ≠ "NONE")
    (hh : GetAssociatedHierarchyNodePtr (some scene) node.ID = some (hnodePtr, hnode))
    (hreport : GetActiveReportHierarchyID svc self = .ok activeReportID)
    (hrh : (scene.GetNodeByID activeReportID).bind
      (SafeDownCast .vtkMRMLDisplayableHierarchyNode) = some reportHierarchyNode)
    (hrn : scene.GetAssociatedNode reportHierarchyNode = some reportNode) :
    ∃ scene1 : Scene,
      OnMRMLSceneNodeAdded svc self (some node) = .ok { self with MRMLScene := some scene1 } ∧
      (GetAssociatedHierarchyNode (some scene1) node.ID).map (fun h => h.ParentNodeID) =
        some self.ActiveMarkupHierarchyID ∧
      (scene1.GetNodeByID node.ID).map (fun a => a.Name) =
        some (some (svc.GetUniqueNameByString
          (scene.modify hnodePtr (fun h => { h with ParentNodeID := self.ActiveMarkupHierarchyID }))
          (match reportNode.Description with
            | some desc => desc ++ "_" ++ annotationType
            | none => "Report_" ++ annotationType))) := by
  have hstart : OnMRMLSceneNodeAdded svc self (some node) =
      OnMRMLSceneNodeAdded.markupNode svc self node annotationType := by
    rcases htype with ⟨hf, rfl⟩ | ⟨hr, rfl⟩
    · simp [OnMRMLSceneNodeAdded, hf]
    · simp [OnMRMLSceneNodeAdded, hr, NodeClass.not_fiducial_of_ruler _ hr]
  have hann : node.cls.IsA .vtkMRMLAnnotationNode = true :=
    NodeClass.isAnnotation_of_markup _ (htype.imp (fun h => h.1) (fun h => h.1))
  rw [hstart]
  cases hid : node.ID with
  | none => simp [hid, Scene.GetNodeByID] at hself
  | some nodeID =>
  rw [hid] at hh hself
  simp only [GetAssociatedHierarchyNodePtr] at hh
  simp only [Scene.GetNodeByID, find?_eq_findPtr] at hself
  cases hw : findPtr (fun n => n.ID == some nodeID) scene.nodes with
  | none => simp [hw] at hself
  | some w =>
  obtain ⟨written, old⟩ := w
  obtain ⟨g, hg, hchain⟩ := reportNode_modify scene hnodePtr self.ActiveMarkupHierarchyID
    activeReportID
  rw [hrh, Option.some_bind, hrn, Option.map_some'] at hchain
  have hdesc : (g reportNode).Description = reportNode.Description := by
    rcases hg with rfl | rfl <;> rfl
  have hw1 := findPtr_modifyAt (fun n => n.ID == some nodeID)
    (fun h => { h with ParentNodeID := self.ActiveMarkupHierarchyID }) (fun _ => rfl)
    hnodePtr scene.nodes
  rw [hw, Option.map_some'] at hw1
  have hcast : SafeDownCast .vtkMRMLAnnotationNode node = some node := by
    simp [SafeDownCast, hann]
  rw [hcast] at huid
  unfold OnMRMLSceneNodeAdded.markupNode
  rw [if_neg (by rw [hgui]; simp)]
  simp only [hscene, hcast, huid, hnone, Logic.sceneOf, hin, hid,
    GetAssociatedHierarchyNodePtr, hh, GetActiveReportHierarchyID_modify svc self scene _ _ hscene,
    hreport, hchain, if_true, if_false, hdesc]
  simp only [Scene.GetNodeByIDPtr, Scene.modify, hw1]
  have hp1 : ∀ (newName : Option String) (x : Node),
      isAssociatedHierarchyNode nodeID { x with Name := newName } =
        isAssociatedHierarchyNode nodeID x := fun _ _ => rfl
  have hp2 : ∀ (newName : Option String) (x : Node),
      ((fun n : Node => n.ID == some nodeID) { x with Name := newName }) =
        (fun n : Node => n.ID == some nodeID) x := fun _ _ => rfl
  refine ⟨_, rfl, ?_, ?_⟩
  · simp only [GetAssociatedHierarchyNode, find?_eq_findPtr]
    rw [findPtr_modifyAt (isAssociatedHierarchyNode nodeID) _ (hp1 _),
      findPtr_modifyAt (isAssociatedHierarchyNode nodeID)
        (fun h => { h with ParentNodeID := self.ActiveMarkupHierarchyID }) (fun _ => rfl), hh]
    simp only [Option.map_some', if_true]
    split <;> rfl
  · simp only [Scene.GetNodeByID, find?_eq_findPtr]
    rw [findPtr_modifyAt (fun n => n.ID == some nodeID) _ (hp2 _), hw1]
    simp

/-- An instance: the fiducial of `markupScene`, drawn on the second slice of the volume,
with a report described as "Lesion", in a build where the read behind the destroyed
string finds the report identifier: it is named "Lesion_Fiducial". -/
theorem OnMRMLSceneNodeAdded_markup_attached_witness :
    ((testMarkupNode .vtkMRMLAnnotationFiducialNode [(0, 0, 1)]).cls.IsA
        .vtkMRMLAnnotationFiducialNode = true ∧ "Fiducial" = "Fiducial") ∧
    markupLogic.GUIHidden = false ∧
    markupLogic.MRMLScene = some markupScene ∧
    GetSliceUIDFromMarkUp markupLogic (SafeDownCast .vtkMRMLAnnotationNode
      (testMarkupNode .vtkMRMLAnnotationFiducialNode [(0, 0, 1)])) = .ok "UID1" ∧
    GetActiveReportHierarchyID sharedBufferServices markupLogic =
      .ok (some "vtkMRMLDisplayableHierarchyNode5") ∧
    ∃ scene1 : Scene,
      OnMRMLSceneNodeAdded sharedBufferServices markupLogic
          (some (testMarkupNode .vtkMRMLAnnotationFiducialNode [(0, 0, 1)])) =
        .ok { markupLogic with MRMLScene := some scene1 } ∧
      (GetAssociatedHierarchyNode (some scene1) (some "ann1")).map (fun h => h.ParentNodeID) =
        some (some "vtkMRMLAnnotationHierarchyNode6") ∧
      (scene1.GetNodeByID (some "ann1")).map (fun a => a.Name) =
        some (some "Lesion_Fiducial") :=
  ⟨⟨by decide, rfl⟩, rfl, rfl, by decide!, by decide!,
    OnMRMLSceneNodeAdded_markup_attached sharedBufferServices markupLogic
      (testMarkupNode .vtkMRMLAnnotationFiducialNode [(0, 0, 1)]) markupScene "Fiducial" "UID1" 6
      (hierarchyNode .vtkMRMLAnnotationHierarchyNode "vtkMRMLAnnotationHierarchyNode7"
         "A Hierarchy" true none (some "ann1"))
      (hierarchyNode .vtkMRMLDisplayableHierarchyNode "vtkMRMLDisplayableHierarchyNode5"
         "Report Hierarchy" true none (some "vtkMRMLReportingReportNode2"))
      describedReport (some "vtkMRMLDisplayableHierarchyNode5")
      (Or.inl ⟨by decide, rfl⟩) rfl rfl rfl (by decide!) (by decide!) (by decide) (by decide!)
      (by decide!) (by decide!) (by decide!)⟩


/-- C18 (failing input): in `markupScene` the GUI is visible, the fiducial resolves to
the slice "UID1" and has a hierarchy node, the active parameter node names the report,
and the report has a hierarchy node and the description "Lesion". In the build of
`testServices` the read of line 1393 behind the string destroyed at line 1385 does not
find the report identifier: `GetActiveReportHierarchyID` returns null, the hierarchy
node of the fiducial is put under the active markup, and the fiducial keeps its name
"A". Where the read finds the identifier the fiducial is named "Lesion_Fiducial". -/
theorem OnMRMLSceneNodeAdded_markup_not_renamed :
    markupLogic.GUIHidden = false ∧
    GetSliceUIDFromMarkUp markupLogic
      (some (testMarkupNode .vtkMRMLAnnotationFiducialNode [(0, 0, 1)])) = .ok "UID1" ∧
    markupLogic.ActiveParameterNodeID = reportingParameterNode.ID ∧
    reportingParameterNode.GetParameter "reportID" = "vtkMRMLReportingReportNode2" ∧
    (GetAssociatedHierarchyNode (some markupScene) (some "vtkMRMLReportingReportNode2")).map
      (fun h => h.ID) = some (some "vtkMRMLDisplayableHierarchyNode5") ∧
    (markupScene.GetNodeByID (some "vtkMRMLReportingReportNode2")).map
      (fun r => r.Description) = some (some "Lesion") ∧
    GetActiveReportHierarchyID testServices markupLogic = .ok none ∧
    (OnMRMLSceneNodeAdded testServices markupLogic
        (some (testMarkupNode .vtkMRMLAnnotationFiducialNode [(0, 0, 1)]))).map
      (fun self1 =>
        ((GetAssociatedHierarchyNode self1.MRMLScene (some "ann1")).map (fun h => h.ParentNodeID),
          (self1.MRMLScene.bind (fun s => s.GetNodeByID (some "ann1"))).map (fun a => a.Name))) =
      .ok (some (some "vtkMRMLAnnotationHierarchyNode6"), some (some "A")) ∧
    GetActiveReportHierarchyID sharedBufferServices markupLogic =
      .ok (some "vtkMRMLDisplayableHierarchyNode5") ∧
    (OnMRMLSceneNodeAdded sharedBufferServices markupLogic
        (some (testMarkupNode .vtkMRMLAnnotationFiducialNode [(0, 0, 1)]))).map
      (fun self1 =>
        ((GetAssociatedHierarchyNode self1.MRMLScene (some "ann1")).map (fun h => h.ParentNodeID),
          (self1.MRMLScene.bind (fun s => s.GetNodeByID (some "ann1"))).map (fun a => a.Name))) =
      .ok (some (some "vtkMRMLAnnotationHierarchyNode6"), some (some "Lesion_Fiducial")) := by
  refine ⟨rfl, by decide!, rfl, by decide!, by decide!, by decide!, by decide!, by decide!,
    by decide!, by decide!⟩
/-! ## Theorems: visibility of the annotations of the reports -/

theorem NodeClass.not_hierarchy_of_annotation (c : NodeClass)
    (h : c.IsA .vtkMRMLAnnotationNode = true) : c.IsA .vtkMRMLHierarchyNode = false := by
  revert h
  cases c <;> decide

theorem NodeClass.not_hierarchy_of_display (c : NodeClass)
    (h : c.IsA .vtkMRMLDisplayNode = true) : c.IsA .vtkMRMLHierarchyNode = false := by
  revert h
  cases c <;> decide

theorem SameButVisibility.refl (n : Node) : SameButVisibility n n :=
  ⟨rfl, fun _ => rfl⟩

theorem SameButVisibility.fields {n m : Node} (h : SameButVisibility n m) :
    m.cls = n.cls ∧ m.ID = n.ID ∧ m.InScene = n.InScene ∧
    m.AssociatedNodeID = n.AssociatedNodeID ∧ m.ParentNodeID = n.ParentNodeID ∧
    m.DisplayNodeIDs = n.DisplayNodeIDs := by
  obtain ⟨h1, -⟩ := h
  refine ⟨?_, ?_, ?_, ?_, ?_, ?_⟩ <;> rw [h1]

theorem SameButVisibility.setVisible {n m : Node} (h : SameButVisibility n m) (v : Int)
    (hcls : m.cls.IsA .vtkMRMLAnnotationNode = true) :
    SameButVisibility n { m with Visible := v } := by
  obtain ⟨hcls', -⟩ := h.fields
  refine ⟨?_, ?_⟩
  · have := h.1
    exact congrArg (fun x : Node => { x with Visible := v }) this
  · intro hh
    rw [← hcls', NodeClass.not_hierarchy_of_annotation _ hcls] at hh
    cases hh

theorem SameButVisibility.setVisibility {n m : Node} (h : SameButVisibility n m) (v : Int)
    (hcls : m.cls.IsA .vtkMRMLDisplayNode = true) :
    SameButVisibility n { m with Visibility := v } := by
  obtain ⟨hcls', -⟩ := h.fields
  refine ⟨?_, ?_⟩
  · have := h.1
    exact congrArg (fun x : Node => { x with Visibility := v }) this
  · intro hh
    rw [← hcls', NodeClass.not_hierarchy_of_display _ hcls] at hh
    cases hh

/-- A lookup in a scene after writes of visibility flags returns the pointer it
returned before. -/
theorem findPtr_sameButVisibility (p : Node → Bool)
    (hp : ∀ n m, SameButVisibility n m → p m = p n) :
    ∀ (l l' : List Node), List.Forall₂ SameButVisibility l l' →
      (findPtr p l = none ∧ findPtr p l' = none) ∨
      ∃ i n m, findPtr p l = some (i, n) ∧ findPtr p l' = some (i, m) ∧
        SameButVisibility n m := by
  intro l l' h
  induction h with
  | nil => exact Or.inl ⟨rfl, rfl⟩
  | @cons n m l l' hnm hl ih =>
    simp only [findPtr, hp n m hnm]
    by_cases hn : p n = true
    · simp only [hn, if_true]
      exact Or.inr ⟨0, n, m, rfl, rfl, hnm⟩
    · simp only [hn, Bool.false_eq_true, if_false]
      rcases ih with ⟨h1, h2⟩ | ⟨i, a, b, h1, h2, hab⟩
      · exact Or.inl ⟨by simp [h1], by simp [h2]⟩
      · exact Or.inr ⟨i + 1, a, b, by simp [h1], by simp [h2], hab⟩

/-- A filter that passes hierarchy nodes only returns the same nodes after writes of
visibility flags. -/
theorem filter_sameButVisibility (p : Node → Bool)
    (hh : ∀ n, p n = true → n.cls.IsA .vtkMRMLHierarchyNode = true) :
    ∀ (l l' : List Node), List.Forall₂ SameButVisibility l l' → l'.filter p = l.filter p := by
  intro l l' h
  induction h with
  | nil => rfl
  | @cons n m l l' hnm hl ih =>
    by_cases hn : n.cls.IsA .vtkMRMLHierarchyNode = true
    · have := hnm.2 hn
      subst this
      simp [List.filter_cons, ih]
    · have hpn : p n = false := by
        cases hpn : p n
        · rfl
        · exact absurd (hh n hpn) hn
      have hpm : p m = false := by
        cases hpm : p m
        · rfl
        · have := hh m hpm
          rw [hnm.fields.1] at this
          exact absurd this hn
      simp [List.filter_cons, hpn, hpm, ih]

theorem GetChildrenNodes_sameButVisibility (s s' : Scene)
    (h : List.Forall₂ SameButVisibility s.nodes s'.nodes) (id : Option String) :
    s'.GetChildrenNodes id = s.GetChildrenNodes id := by
  cases id with
  | none => rfl
  | some i =>
    exact filter_sameButVisibility _
      (fun n hn => by
        simp only [Bool.and_eq_true] at hn
        exact hn.1) _ _ h

theorem GetAllChildrenNodesWithin_sameButVisibility (s s' : Scene)
    (h : List.Forall₂ SameButVisibility s.nodes s'.nodes) :
    ∀ (depth : Nat) (id : Option String),
      s'.GetAllChildrenNodesWithin depth id = s.GetAllChildrenNodesWithin depth id
  | 0, _ => rfl
  | depth + 1, id => by
    simp only [Scene.GetAllChildrenNodesWithin, GetChildrenNodes_sameButVisibility s s' h]
    congr 1
    funext child
    rw [GetAllChildrenNodesWithin_sameButVisibility s s' h depth child.ID]

theorem allChildrenOf_sameButVisibility (s s' : Scene)
    (h : List.Forall₂ SameButVisibility s.nodes s'.nodes) (child : Node) :
    s'.allChildrenOf child = s.allChildrenOf child := by
  simp only [Scene.allChildrenOf, Scene.GetAllChildrenNodes, h.length_eq,
    GetAllChildrenNodesWithin_sameButVisibility s s' h]

theorem findPtr_getElem? (p : Node → Bool) (l : List Node) (i : Nat) (n : Node)
    (h : findPtr p l = some (i, n)) : l[i]? = some n ∧ p n = true := by
  obtain ⟨before, after, rfl, rfl, hp, -⟩ := findPtr_split p l i n h
  refine ⟨?_, hp⟩
  rw [List.getElem?_append_right (le_refl _)]
  simp

theorem GetNodeByIDPtr_sameButVisibility (s s' : Scene)
    (h : List.Forall₂ SameButVisibility s.nodes s'.nodes) (id : Option String) :
    (s.GetNodeByIDPtr id = none ∧ s'.GetNodeByIDPtr id = none) ∨
    ∃ i n m, s.GetNodeByIDPtr id = some (i, n) ∧ s'.GetNodeByIDPtr id = some (i, m) ∧
      SameButVisibility n m := by
  cases id with
  | none => exact Or.inl ⟨rfl, rfl⟩
  | some j =>
    exact findPtr_sameButVisibility _ (fun n m hnm => by simp only [hnm.fields.2.1]) _ _ h

/-- A write through a pointer that keeps a node the same but for its visibility flags
keeps the scene the same but for visibility flags. -/
theorem modifyAt_sameButVisibility (f : Node → Node) :
    ∀ (l l' : List Node), List.Forall₂ SameButVisibility l l' → ∀ (k : Nat),
      (∀ n m, SameButVisibility n m → l'[k]? = some m → SameButVisibility n (f m)) →
      List.Forall₂ SameButVisibility l (modifyAt f k l') := by
  intro l l' h
  induction h with
  | nil =>
    intro k _
    simp only [modifyAt]
    exact List.Forall₂.nil
  | @cons n m l l' hnm hl ih =>
    intro k hf
    cases k with
    | zero =>
      simp only [modifyAt]
      exact List.Forall₂.cons (hf n m hnm (by simp)) hl
    | succ k =>
      simp only [modifyAt]
      exact List.Forall₂.cons hnm (ih k (fun a b hab hb => hf a b hab (by simpa using hb)))

theorem applyWrites_nil (s : Scene) : applyWrites [] s = s := rfl

theorem applyWrites_cons (w : VisibilityWrite) (ws : List VisibilityWrite) (s : Scene) :
    applyWrites (w :: ws) s = applyWrites ws (w.apply s) := rfl

theorem applyWrites_append (ws1 ws2 : List VisibilityWrite) (s : Scene) :
    applyWrites (ws1 ++ ws2) s = applyWrites ws2 (applyWrites ws1 s) := by
  simp [applyWrites, List.foldl_append]

/-- The loop over the display nodes performs the writes computed with the pointers of
the scene before all writes. -/
theorem displayLoop_eq (s : Scene) (visibFlag : Int) :
    ∀ (displayNodeIDs : List String) (s' : Scene),
      List.Forall₂ SameButVisibility s.nodes s'.nodes →
      HideAnnotationsForOtherReports.displayLoop visibFlag displayNodeIDs s' =
        applyWrites (displayWrites s visibFlag displayNodeIDs) s' ∧
      List.Forall₂ SameButVisibility s.nodes
        (HideAnnotationsForOtherReports.displayLoop visibFlag displayNodeIDs s').nodes
  | [], s', h => ⟨rfl, h⟩
  | id :: rest, s', h => by
    simp only [HideAnnotationsForOtherReports.displayLoop, displayWrites, List.filterMap_cons,
      Scene.GetDisplayNodePtr]
    rcases GetNodeByIDPtr_sameButVisibility s s' h (some id) with ⟨h1, h2⟩ | ⟨i, n, m, h1, h2, hnm⟩
    · simp only [h1, h2, Option.map_none']
      exact displayLoop_eq s visibFlag rest s' h
    · simp only [h1, h2, hnm.fields.1]
      by_cases hcls : n.cls.IsA .vtkMRMLDisplayNode = true
      · simp only [hcls, if_true, Option.map_some', applyWrites_cons, VisibilityWrite.apply]
        apply displayLoop_eq s visibFlag rest
        apply modifyAt_sameButVisibility _ _ _ h
        intro a b hab hb
        have hm := (findPtr_getElem? _ _ _ _ h2).1
        rw [hm] at hb
        cases hb
        exact hab.setVisibility visibFlag (by rw [hnm.fields.1]; exact hcls)
      · simp only [hcls, Bool.false_eq_true, if_false, Option.map_none']
        exact displayLoop_eq s visibFlag rest s' h

theorem GetAssociatedNodePtr_sameButVisibility (s s' : Scene)
    (h : List.Forall₂ SameButVisibility s.nodes s'.nodes) (hierarchyNode : Node) :
    (s.GetAssociatedNodePtr hierarchyNode = none ∧ s'.GetAssociatedNodePtr hierarchyNode = none) ∨
    ∃ i n m, s.GetAssociatedNodePtr hierarchyNode = some (i, n) ∧
      s'.GetAssociatedNodePtr hierarchyNode = some (i, m) ∧ SameButVisibility n m := by
  unfold Scene.GetAssociatedNodePtr
  cases hierarchyNode.InScene with
  | false => exact Or.inl ⟨rfl, rfl⟩
  | true => exact GetNodeByIDPtr_sameButVisibility s s' h _

theorem GetNodeByIDPtr_getElem? (s : Scene) (id : Option String) (i : Nat) (m : Node)
    (h : s.GetNodeByIDPtr id = some (i, m)) : s.nodes[i]? = some m ∧ m.ID = id := by
  cases id with
  | none => cases h
  | some j =>
    obtain ⟨h1, h2⟩ := findPtr_getElem? _ _ _ _ h
    exact ⟨h1, by simpa using h2⟩

theorem GetAssociatedNodePtr_getElem? (s : Scene) (hierarchyNode : Node) (i : Nat) (m : Node)
    (h : s.GetAssociatedNodePtr hierarchyNode = some (i, m)) :
    s.nodes[i]? = some m ∧ m.ID = hierarchyNode.AssociatedNodeID ∧
      hierarchyNode.InScene = true := by
  unfold Scene.GetAssociatedNodePtr at h
  cases hin : hierarchyNode.InScene with
  | false => simp [hin] at h
  | true =>
    simp only [hin, if_true] at h
    exact ⟨(GetNodeByIDPtr_getElem? s _ i m h).1, (GetNodeByIDPtr_getElem? s _ i m h).2, rfl⟩

/-- The loop over `allChildren` performs the writes computed with the pointers of the
scene before all writes. -/
theorem allChildrenLoop_eq (s : Scene) (visibFlag : Int) :
    ∀ (allChildren : List Node) (s' : Scene),
      List.Forall₂ SameButVisibility s.nodes s'.nodes →
      HideAnnotationsForOtherReports.allChildrenLoop visibFlag allChildren s' =
        applyWrites (allChildrenWrites s visibFlag allChildren) s' ∧
      List.Forall₂ SameButVisibility s.nodes
        (HideAnnotationsForOtherReports.allChildrenLoop visibFlag allChildren s').nodes
  | [], s', h => ⟨rfl, h⟩
  | hierarchyNode :: rest, s', h => by
    simp only [HideAnnotationsForOtherReports.allChildrenLoop, allChildrenWrites,
      List.flatMap_cons, hierarchyNodeWrites, applyWrites_append]
    rcases GetAssociatedNodePtr_sameButVisibility s s' h hierarchyNode with
      ⟨h1, h2⟩ | ⟨i, n, m, h1, h2, hnm⟩
    · simp only [h1, h2, applyWrites_nil]
      exact allChildrenLoop_eq s visibFlag rest s' h
    · obtain ⟨hcls, hid, hin, -, -, hdisp⟩ := hnm.fields
      simp only [h1, h2, hcls, hid, hin, hdisp]
      by_cases htest : (n.ID.isSome && n.cls.IsA .vtkMRMLAnnotationNode) = true
      · simp only [htest, if_true, applyWrites_cons, VisibilityWrite.apply]
        have hR1 : List.Forall₂ SameButVisibility s.nodes
            (s'.modify i (fun a => { a with Visible := visibFlag })).nodes := by
          apply modifyAt_sameButVisibility _ _ _ h
          intro a b hab hb
          have hm := (GetAssociatedNodePtr_getElem? _ _ _ _ h2).1
          rw [hm] at hb
          cases hb
          simp only [Bool.and_eq_true] at htest
          exact hab.setVisible visibFlag (by rw [hcls]; exact htest.2)
        obtain ⟨e1, hR2⟩ := displayLoop_eq s visibFlag
          (if n.InScene then n.DisplayNodeIDs else []) _ hR1
        rw [e1] at hR2 ⊢
        exact allChildrenLoop_eq s visibFlag rest _ hR2
      · simp only [htest, Bool.false_eq_true, if_false, applyWrites_nil]
        exact allChildrenLoop_eq s visibFlag rest s' h

/-- The loop over the children of the top level node ends without fault when the
identifiers it compares are present, and performs the writes computed with the
pointers of the scene before all writes. -/
theorem HideAnnotationsForOtherReports_loop_eq (s : Scene) (thisReportHierarchyNode : Node)
    (hthis : thisReportHierarchyNode.ID ≠ none) :
    ∀ (children : List Node) (s' : Scene),
      List.Forall₂ SameButVisibility s.nodes s'.nodes →
      (∀ child ∈ children, child.ID ≠ none) →
      HideAnnotationsForOtherReports.loop thisReportHierarchyNode children s' =
        .ok (applyWrites (childrenWrites s thisReportHierarchyNode children) s') ∧
      List.Forall₂ SameButVisibility s.nodes
        (applyWrites (childrenWrites s thisReportHierarchyNode children) s').nodes
  | [], s', h, _ => ⟨rfl, h⟩
  | child :: rest, s', h, hids => by
    have hchild := hids child (List.mem_cons_self _ _)
    cases hthisID : thisReportHierarchyNode.ID with
    | none => exact absurd hthisID hthis
    | some thisID =>
      cases hchildID : child.ID with
      | none => exact absurd hchildID hchild
      | some childID =>
        simp only [HideAnnotationsForOtherReports.loop, hthisID, hchildID, childrenWrites,
          List.flatMap_cons, applyWrites_append, visibFlagOf, Option.some.injEq,
          allChildrenOf_sameButVisibility s s' h]
        obtain ⟨e1, hR1⟩ := allChildrenLoop_eq s (if thisID = childID then 1 else 0)
          (s.allChildrenOf child) s' h
        rw [e1] at hR1 ⊢
        have ih := HideAnnotationsForOtherReports_loop_eq s thisReportHierarchyNode hthis rest _
          hR1 (fun c hc => hids c (List.mem_cons_of_mem _ hc))
        simp only [childrenWrites, visibFlagOf, hthisID] at ih
        exact ih

theorem VisibilityWrite.apply_length (w : VisibilityWrite) (s : Scene) :
    (w.apply s).nodes.length = s.nodes.length := by
  cases w <;> simp [VisibilityWrite.apply, Scene.modify, modifyAt_length]

/-- The flag of a kind at a pointer after one write: the flag written, when the write
stores a flag of that kind at that pointer, and the flag before otherwise. -/
theorem VisibilityWrite.apply_flagOf (w : VisibilityWrite) (s : Scene) (p : Nat) (k : Bool) :
    ((w.apply s).nodes[p]?).map (Node.flagOf k) =
      match w.valueAt p k with
      | some v => (s.nodes[p]?).map (fun _ => v)
      | none => (s.nodes[p]?).map (Node.flagOf k) := by
  cases w with
  | SetVisible q v =>
    simp only [VisibilityWrite.apply, Scene.modify, modifyAt_getElem?, VisibilityWrite.valueAt]
    by_cases hq : q = p
    · subst hq
      cases k <;> cases s.nodes[q]? <;> simp [Node.flagOf]
    · have hq' : ¬ p = q := fun h => hq h.symm
      simp [hq, hq']
  | SetVisibility q v =>
    simp only [VisibilityWrite.apply, Scene.modify, modifyAt_getElem?, VisibilityWrite.valueAt]
    by_cases hq : q = p
    · subst hq
      cases k <;> cases s.nodes[q]? <;> simp [Node.flagOf]
    · have hq' : ¬ p = q := fun h => hq h.symm
      simp [hq, hq']

theorem applyWrites_length : ∀ (ws : List VisibilityWrite) (s : Scene),
    (applyWrites ws s).nodes.length = s.nodes.length
  | [], _ => rfl
  | w :: ws, s => by
    rw [applyWrites_cons, applyWrites_length ws, VisibilityWrite.apply_length]

/-- When every write to a flag stores the value the flag has, the flag keeps it. -/
theorem applyWrites_flagOf_keep (p : Nat) (k : Bool) (v : Int) :
    ∀ (ws : List VisibilityWrite) (s : Scene),
      (∀ w ∈ ws, ∀ v', w.valueAt p k = some v' → v' = v) →
      (s.nodes[p]?).map (Node.flagOf k) = some v →
      ((applyWrites ws s).nodes[p]?).map (Node.flagOf k) = some v
  | [], _, _, h => h
  | w :: ws, s, hall, h => by
    rw [applyWrites_cons]
    apply applyWrites_flagOf_keep p k v ws _
      (fun w' hw' => hall w' (List.mem_cons_of_mem _ hw'))
    rw [VisibilityWrite.apply_flagOf]
    cases hw : w.valueAt p k with
    | none => exact h
    | some v' =>
      have := hall w (List.mem_cons_self _ _) v' hw
      subst this
      cases hp : s.nodes[p]? with
      | none => simp [hp] at h
      | some n => rfl

/-- When every write to a flag stores the same value and there is such a write, the
flag has that value after the writes. -/
theorem applyWrites_flagOf (p : Nat) (k : Bool) (v : Int) :
    ∀ (ws : List VisibilityWrite) (s : Scene),
      (∀ w ∈ ws, ∀ v', w.valueAt p k = some v' → v' = v) →
      (∃ w ∈ ws, w.valueAt p k = some v) →
      p < s.nodes.length →
      ((applyWrites ws s).nodes[p]?).map (Node.flagOf k) = some v
  | [], _, _, hex, _ => by
    obtain ⟨w, hw, -⟩ := hex
    simp at hw
  | w :: ws, s, hall, hex, hp => by
    rw [applyWrites_cons]
    have hall' : ∀ w' ∈ ws, ∀ v', w'.valueAt p k = some v' → v' = v :=
      fun w' hw' => hall w' (List.mem_cons_of_mem _ hw')
    cases hw : w.valueAt p k with
    | some v' =>
      have := hall w (List.mem_cons_self _ _) v' hw
      subst this
      apply applyWrites_flagOf_keep p k v' ws _ hall'
      rw [VisibilityWrite.apply_flagOf, hw]
      simp [List.getElem?_eq_getElem hp]
    | none =>
      apply applyWrites_flagOf p k v ws _ hall'
      · obtain ⟨w', hw', hv⟩ := hex
        rcases List.mem_cons.mp hw' with rfl | hw'
        · rw [hw] at hv
          cases hv
        · exact ⟨w', hw', hv⟩
      · rw [VisibilityWrite.apply_length]
        exact hp

theorem forall₂_sameButVisibility_refl : ∀ (l : List Node), List.Forall₂ SameButVisibility l l
  | [] => List.Forall₂.nil
  | n :: l => List.Forall₂.cons (SameButVisibility.refl n) (forall₂_sameButVisibility_refl l)

theorem mem_hierarchyNodeWrites (s : Scene) (v : Int) (hierarchyNode : Node)
    (w : VisibilityWrite) :
    w ∈ hierarchyNodeWrites s v hierarchyNode ↔
      ∃ p a, s.GetAssociatedNodePtr hierarchyNode = some (p, a) ∧
        a.cls.IsA .vtkMRMLAnnotationNode = true ∧
        (w = .SetVisible p v ∨
          ∃ id ∈ (if a.InScene then a.DisplayNodeIDs else []), ∃ q d,
            s.GetDisplayNodePtr id = some (q, d) ∧ w = .SetVisibility q v) := by
  unfold hierarchyNodeWrites
  cases hptr : s.GetAssociatedNodePtr hierarchyNode with
  | none => simp
  | some r =>
    obtain ⟨p, a⟩ := r
    have hid : a.ID.isSome = true := by
      obtain ⟨-, h2, -⟩ := GetAssociatedNodePtr_getElem? s hierarchyNode p a hptr
      unfold Scene.GetAssociatedNodePtr Scene.GetNodeByIDPtr at hptr
      cases hassoc : hierarchyNode.AssociatedNodeID with
      | none => simp [hassoc] at hptr
      | some i => simp [h2, hassoc]
    simp only [hid, Bool.true_and, Option.some.injEq, Prod.mk.injEq]
    by_cases hcls : a.cls.IsA .vtkMRMLAnnotationNode = true
    · simp only [hcls, if_true, List.mem_cons, displayWrites, List.mem_filterMap,
        Option.map_eq_some']
      constructor
      · rintro (rfl | ⟨id, hmem, ⟨q, d⟩, hd, rfl⟩)
        · exact ⟨p, a, ⟨rfl, rfl⟩, hcls, Or.inl rfl⟩
        · exact ⟨p, a, ⟨rfl, rfl⟩, hcls, Or.inr ⟨id, hmem, q, d, hd, rfl⟩⟩
      · rintro ⟨p', a', ⟨rfl, rfl⟩, -, (rfl | ⟨id, hmem, q, d, hd, rfl⟩)⟩
        · exact Or.inl rfl
        · exact Or.inr ⟨id, hmem, (q, d), hd, rfl⟩
    · simp only [hcls, Bool.false_eq_true, if_false, List.not_mem_nil, false_iff]
      rintro ⟨p', a', ⟨rfl, rfl⟩, h, -⟩
      exact hcls h

theorem mem_childrenWrites (s : Scene) (thisReportHierarchyNode : Node) (children : List Node)
    (w : VisibilityWrite) :
    w ∈ childrenWrites s thisReportHierarchyNode children ↔
      ∃ child ∈ children, ∃ hierarchyNode ∈ s.allChildrenOf child,
        w ∈ hierarchyNodeWrites s (visibFlagOf thisReportHierarchyNode child) hierarchyNode := by
  simp [childrenWrites, allChildrenWrites, List.mem_flatMap]

theorem GetNodeByID_eq_ptr (s : Scene) (id : Option String) :
    s.GetNodeByID id = (s.GetNodeByIDPtr id).map (fun r => r.2) := by
  cases id with
  | none => rfl
  | some i => exact find?_eq_findPtr _ _

theorem GetAssociatedNode_eq_ptr (s : Scene) (hierarchyNode : Node) :
    s.GetAssociatedNode hierarchyNode =
      (s.GetAssociatedNodePtr hierarchyNode).map (fun r => r.2) := by
  unfold Scene.GetAssociatedNode Scene.GetAssociatedNodePtr
  split
  · exact GetNodeByID_eq_ptr s _
  · rfl

theorem mem_annotationsUnder (s : Scene) (child a : Node) :
    a ∈ s.annotationsUnder child ↔
      ∃ hierarchyNode ∈ s.allChildrenOf child, ∃ p,
        s.GetAssociatedNodePtr hierarchyNode = some (p, a) ∧
        a.cls.IsA .vtkMRMLAnnotationNode = true := by
  simp only [Scene.annotationsUnder, List.mem_filterMap, GetAssociatedNode_eq_ptr]
  constructor
  · rintro ⟨h, hh, ha⟩
    refine ⟨h, hh, ?_⟩
    cases hptr : s.GetAssociatedNodePtr h with
    | none => simp [hptr] at ha
    | some r =>
      obtain ⟨p, b⟩ := r
      simp only [hptr, Option.map_some', Option.filter] at ha
      split at ha
      · cases ha
        rename_i hb
        exact ⟨p, rfl, hb⟩
      · cases ha
  · rintro ⟨h, hh, p, hptr, ha⟩
    exact ⟨h, hh, by simp [hptr, Option.filter, ha]⟩

theorem mem_displayNodesOf (s : Scene) (a d : Node) :
    d ∈ s.displayNodesOf a ↔
      ∃ id ∈ (if a.InScene then a.DisplayNodeIDs else []), ∃ q,
        s.GetDisplayNodePtr id = some (q, d) := by
  simp only [Scene.displayNodesOf, List.mem_filterMap, GetNodeByID_eq_ptr,
    Scene.GetDisplayNodePtr]
  constructor
  · rintro ⟨id, hid, hd⟩
    refine ⟨id, hid, ?_⟩
    cases hptr : s.GetNodeByIDPtr (some id) with
    | none => simp [hptr] at hd
    | some r =>
      obtain ⟨q, b⟩ := r
      simp only [hptr, Option.map_some', Option.filter] at hd
      split at hd
      · cases hd
        rename_i hb
        exact ⟨q, by simp [hb]⟩
      · cases hd
  · rintro ⟨id, hid, q, hptr⟩
    refine ⟨id, hid, ?_⟩
    cases hptr1 : s.GetNodeByIDPtr (some id) with
    | none => simp [hptr1] at hptr
    | some r =>
      obtain ⟨q', b⟩ := r
      simp only [hptr1] at hptr
      split at hptr
      · cases hptr
        rename_i hb
        simp [Option.filter, hb]
      · cases hptr

theorem GetDisplayNodePtr_sameButVisibility (s s' : Scene)
    (h : List.Forall₂ SameButVisibility s.nodes s'.nodes) (id : String) :
    (s.GetDisplayNodePtr id = none ∧ s'.GetDisplayNodePtr id = none) ∨
    ∃ i n m, s.GetDisplayNodePtr id = some (i, n) ∧ s'.GetDisplayNodePtr id = some (i, m) ∧
      SameButVisibility n m := by
  unfold Scene.GetDisplayNodePtr
  rcases GetNodeByIDPtr_sameButVisibility s s' h (some id) with ⟨h1, h2⟩ | ⟨i, n, m, h1, h2, hnm⟩
  · simp [h1, h2]
  · simp only [h1, h2, hnm.fields.1]
    by_cases hcls : n.cls.IsA .vtkMRMLDisplayNode = true
    · simp only [hcls, if_true]
      exact Or.inr ⟨i, n, m, rfl, rfl, hnm⟩
    · simp only [hcls, Bool.false_eq_true, if_false]
      exact Or.inl ⟨trivial, trivial⟩

theorem GetDisplayNodePtr_getElem? (s : Scene) (id : String) (q : Nat) (d : Node)
    (h : s.GetDisplayNodePtr id = some (q, d)) : s.nodes[q]? = some d ∧ d.ID = some id := by
  unfold Scene.GetDisplayNodePtr at h
  cases hptr : s.GetNodeByIDPtr (some id) with
  | none => simp [hptr] at h
  | some r =>
    obtain ⟨q', d'⟩ := r
    simp only [hptr] at h
    split at h
    · cases h
      exact GetNodeByIDPtr_getElem? s _ _ _ hptr
    · cases h

theorem mem_displayNodeIDs_of_mem {a : Node} {id : String}
    (h : id ∈ (if a.InScene then a.DisplayNodeIDs else [])) : id ∈ a.DisplayNodeIDs := by
  split at h
  · exact h
  · simp at h

/-- The flags after the writes of the loop over the children of the top level node, in
a scene where no annotation and no display node is reached from two children with
different identifiers: every annotation under a child, and each of its display
nodes, has the flag of the child. -/
theorem childrenWrites_flags (s : Scene) (thisReportHierarchyNode : Node)
    (children : List Node)
    (hunshared : ∀ c1 ∈ children, ∀ c2 ∈ children,
      ∀ a1 ∈ s.annotationsUnder c1, ∀ a2 ∈ s.annotationsUnder c2,
        (a1.ID = a2.ID ∨ ∃ id ∈ a1.DisplayNodeIDs, id ∈ a2.DisplayNodeIDs) → c1.ID = c2.ID)
    (hR : List.Forall₂ SameButVisibility s.nodes
      (applyWrites (childrenWrites s thisReportHierarchyNode children) s).nodes) :
    ∀ child ∈ children,
      ∀ a ∈ (applyWrites (childrenWrites s thisReportHierarchyNode children) s).annotationsUnder
          child,
        a.Visible = visibFlagOf thisReportHierarchyNode child ∧
        ∀ d ∈ (applyWrites (childrenWrites s thisReportHierarchyNode children) s).displayNodesOf a,
          d.Visibility = visibFlagOf thisReportHierarchyNode child := by
  intro child hchild a ha
  generalize hs1 : applyWrites (childrenWrites s thisReportHierarchyNode children) s = s1
    at hR ha ⊢
  rw [mem_annotationsUnder] at ha
  obtain ⟨h, hh, p, hptr1, hcls1⟩ := ha
  rw [allChildrenOf_sameButVisibility s s1 hR] at hh
  rcases GetAssociatedNodePtr_sameButVisibility s s1 hR h with
    ⟨-, h2⟩ | ⟨i, a0, a', h1, h2, ha0⟩
  · rw [h2] at hptr1
    cases hptr1
  rw [h2] at hptr1
  cases hptr1
  obtain ⟨hfcls, -, hfin, -, -, hfdisp⟩ := ha0.fields
  have hcls0 : a0.cls.IsA .vtkMRMLAnnotationNode = true := by
    rw [← hfcls]
    exact hcls1
  have ha0mem : a0 ∈ s.annotationsUnder child :=
    (mem_annotationsUnder s child a0).mpr ⟨h, hh, p, h1, hcls0⟩
  have hflag : ∀ c2 ∈ children, ∀ a2 ∈ s.annotationsUnder c2,
      (a0.ID = a2.ID ∨ ∃ id ∈ a0.DisplayNodeIDs, id ∈ a2.DisplayNodeIDs) →
      visibFlagOf thisReportHierarchyNode c2 = visibFlagOf thisReportHierarchyNode child := by
    intro c2 hc2 a2 ha2 hor
    have := hunshared child hchild c2 hc2 a0 ha0mem a2 ha2 hor
    simp only [visibFlagOf, this]
  have hp0 := (GetAssociatedNodePtr_getElem? s h p a0 h1).1
  constructor
  · have hval := applyWrites_flagOf p true (visibFlagOf thisReportHierarchyNode child)
      (childrenWrites s thisReportHierarchyNode children) s
      (by
        intro w hw v' hv
        rw [mem_childrenWrites] at hw
        obtain ⟨c2, hc2, h2', hh2, hw2⟩ := hw
        rw [mem_hierarchyNodeWrites] at hw2
        obtain ⟨p2, a2, hptr2, hcls2, (rfl | ⟨id, hid, q, d, hd, rfl⟩)⟩ := hw2
        · simp only [VisibilityWrite.valueAt, and_true] at hv
          split at hv
          · rename_i hp2
            subst hp2
            cases hv
            have e1 := (GetAssociatedNodePtr_getElem? s h2' p2 a2 hptr2).1
            rw [hp0] at e1
            cases e1
            exact hflag c2 hc2 a0
              ((mem_annotationsUnder s c2 a0).mpr ⟨h2', hh2, p2, hptr2, hcls2⟩) (Or.inl rfl)
          · cases hv
        · simp [VisibilityWrite.valueAt] at hv)
      ⟨.SetVisible p (visibFlagOf thisReportHierarchyNode child),
        (mem_childrenWrites _ _ _ _).mpr ⟨child, hchild, h, hh,
          (mem_hierarchyNodeWrites _ _ _ _).mpr ⟨p, a0, h1, hcls0, Or.inl rfl⟩⟩,
        by simp [VisibilityWrite.valueAt]⟩
      (by
        by_contra hlt
        rw [List.getElem?_eq_none (not_lt.mp hlt)] at hp0
        cases hp0)
    rw [hs1, (GetAssociatedNodePtr_getElem? s1 h p a h2).1] at hval
    simpa [Node.flagOf] using hval
  · intro d hd
    rw [mem_displayNodesOf] at hd
    obtain ⟨id, hid, q, hdptr⟩ := hd
    rw [hfin, hfdisp] at hid
    rcases GetDisplayNodePtr_sameButVisibility s s1 hR id with
      ⟨-, hd2⟩ | ⟨j, d0, d', hd1, hd2, hd0⟩
    · rw [hd2] at hdptr
      cases hdptr
    rw [hd2] at hdptr
    cases hdptr
    have hq0 := GetDisplayNodePtr_getElem? s id q d0 hd1
    have hval := applyWrites_flagOf q false (visibFlagOf thisReportHierarchyNode child)
      (childrenWrites s thisReportHierarchyNode children) s
      (by
        intro w hw v' hv
        rw [mem_childrenWrites] at hw
        obtain ⟨c2, hc2, h2', hh2, hw2⟩ := hw
        rw [mem_hierarchyNodeWrites] at hw2
        obtain ⟨p2, a2, hptr2, hcls2, (rfl | ⟨id2, hid2, q2, d2, hdp2, rfl⟩)⟩ := hw2
        · simp [VisibilityWrite.valueAt] at hv
        · simp only [VisibilityWrite.valueAt, and_true] at hv
          split at hv
          · rename_i hq2
            subst hq2
            cases hv
            have e2 := GetDisplayNodePtr_getElem? s id2 q2 d2 hdp2
            rw [hq0.1] at e2
            obtain ⟨e3, e4⟩ := e2
            cases e3
            rw [hq0.2] at e4
            cases e4
            exact hflag c2 hc2 a2
              ((mem_annotationsUnder s c2 a2).mpr ⟨h2', hh2, p2, hptr2, hcls2⟩)
              (Or.inr ⟨id, mem_displayNodeIDs_of_mem hid, mem_displayNodeIDs_of_mem hid2⟩)
          · cases hv)
      ⟨.SetVisibility q (visibFlagOf thisReportHierarchyNode child),
        (mem_childrenWrites _ _ _ _).mpr ⟨child, hchild, h, hh,
          (mem_hierarchyNodeWrites _ _ _ _).mpr ⟨p, a0, h1, hcls0,
            Or.inr ⟨id, hid, q, d0, hd1, rfl⟩⟩⟩,
        by simp [VisibilityWrite.valueAt]⟩
      (by
        by_contra hlt
        rw [List.getElem?_eq_none (not_lt.mp hlt)] at hq0
        cases hq0.1)
    rw [hs1, (GetDisplayNodePtr_getElem? s1 id q d hd2).1] at hval
    simpa [Node.flagOf] using hval

/-- C16: in a scene where every node is in the scene and has an identifier, with a top
level node and a hierarchy node for the report, and where no annotation and no display
node is reached from two children of the top level node with different identifiers:
the call ends without fault and changes visibility flags only; after it every
annotation under the child of the top level node that has the identifier of the
hierarchy node of the report, and each of its display nodes, has visibility 1, and
every annotation under another child, and each of its display nodes, has
visibility 0. -/
theorem HideAnnotationsForOtherReports_visibility (svc : SceneServices) (self : Logic)
    (node : Node) (scene : Scene) (top topNode thisReportHierarchyNode : Node)
    (hscene : self.MRMLScene = some scene)
    (hwf : ∀ n ∈ scene.nodes, n.InScene = true ∧ n.ID ≠ none)
    (htop : scene.GetFirstNodeByName "Reporting Hierarchy" = some top)
    (htopNode : (scene.GetNodeByID top.ID).bind (SafeDownCast .vtkMRMLHierarchyNode) =
      some topNode)
    (hthis : GetAssociatedHierarchyNode (self.sceneOf node) node.ID =
      some thisReportHierarchyNode)
    (hunshared : ∀ c1 ∈ scene.GetChildrenNodes topNode.ID,
      ∀ c2 ∈ scene.GetChildrenNodes topNode.ID,
      ∀ a1 ∈ scene.annotationsUnder c1, ∀ a2 ∈ scene.annotationsUnder c2,
        (a1.ID = a2.ID ∨ ∃ id ∈ a1.DisplayNodeIDs, id ∈ a2.DisplayNodeIDs) → c1.ID = c2.ID) :
    ∃ scene1 : Scene,
      HideAnnotationsForOtherReports svc self (some node) =
        .ok { self with MRMLScene := some scene1 } ∧
      List.Forall₂ SameButVisibility scene.nodes scene1.nodes ∧
      scene1.GetChildrenNodes topNode.ID = scene.GetChildrenNodes topNode.ID ∧
      ∀ child ∈ scene1.GetChildrenNodes topNode.ID,
        ∀ a ∈ scene1.annotationsUnder child,
          a.Visible = (if thisReportHierarchyNode.ID = child.ID then 1 else 0) ∧
          ∀ d ∈ scene1.displayNodesOf a,
            d.Visibility = (if thisReportHierarchyNode.ID = child.ID then 1 else 0) := by
  have htopmem : top ∈ scene.nodes := List.mem_of_find?_eq_some htop
  cases htopID : top.ID with
  | none => exact absurd htopID (hwf top htopmem).2
  | some topID =>
  rw [htopID] at htopNode
  cases hfind : scene.GetNodeByID (some topID) with
  | none => simp [hfind] at htopNode
  | some t0 =>
  simp only [hfind, Option.some_bind, SafeDownCast] at htopNode
  split at htopNode
  case isFalse => cases htopNode
  rename_i hcls
  cases htopNode
  have ht0mem : topNode ∈ scene.nodes := List.mem_of_find?_eq_some hfind
  have ht0in := (hwf topNode ht0mem).1
  have hthis' : GetAssociatedHierarchyNode (if node.InScene = true then some scene else none)
      node.ID = some thisReportHierarchyNode := by
    simpa only [Logic.sceneOf, hscene] using hthis
  have hthismem : thisReportHierarchyNode ∈ scene.nodes := by
    cases hin : node.InScene with
    | false => simp [hin, GetAssociatedHierarchyNode] at hthis'
    | true =>
      cases hid : node.ID with
      | none => simp [hin, hid, GetAssociatedHierarchyNode] at hthis'
      | some nodeID =>
        simp only [hin, hid, if_true, GetAssociatedHierarchyNode] at hthis'
        exact List.mem_of_find?_eq_some hthis'
  have hthisID := (hwf _ hthismem).2
  have hchildren : ∀ child ∈ scene.GetChildrenNodes topNode.ID, child.ID ≠ none := by
    intro child hchild
    cases hid : topNode.ID with
    | none => simp [hid, Scene.GetChildrenNodes] at hchild
    | some i =>
      simp only [hid, Scene.GetChildrenNodes] at hchild
      exact (hwf child (List.mem_of_mem_filter hchild)).2
  obtain ⟨hloop, hR⟩ := HideAnnotationsForOtherReports_loop_eq scene thisReportHierarchyNode
    hthisID (scene.GetChildrenNodes topNode.ID) scene (forall₂_sameButVisibility_refl _) hchildren
  refine ⟨applyWrites (childrenWrites scene thisReportHierarchyNode
    (scene.GetChildrenNodes topNode.ID)) scene, ?_, hR, ?_, ?_⟩
  · simp only [HideAnnotationsForOtherReports, GetTopLevelHierarchyNodeID, hscene,
      Scene.GetTopLevelHierarchyNodeID_of_found svc htop, htopID, hfind, SafeDownCast, hcls,
      if_true, Logic.sceneOf, hthis', Logic.childrenOf, ht0in, hloop]
  · exact GetChildrenNodes_sameButVisibility _ _ hR _
  · rw [GetChildrenNodes_sameButVisibility _ _ hR]
    exact childrenWrites_flags scene thisReportHierarchyNode _ hunshared hR

/-- Witness of C16: the reports "A" and "B" with one visible fiducial each; after the call
for "A" the fiducial and the display node of "A" have the flag 1, those of "B" the
flag 0. -/
theorem HideAnnotationsForOtherReports_visibility_witness :
    visibilityLogic.MRMLScene = some visibilityScene ∧
    (∀ n ∈ visibilityScene.nodes, n.InScene = true ∧ n.ID ≠ none) ∧
    visibilityScene.GetFirstNodeByName "Reporting Hierarchy" = some topLevelNode ∧
    (visibilityScene.GetNodeByID topLevelNode.ID).bind (SafeDownCast .vtkMRMLHierarchyNode) =
      some topLevelNode ∧
    GetAssociatedHierarchyNode (visibilityLogic.sceneOf reportA) reportA.ID =
      some hierarchyNodeA ∧
    (∃ scene1 : Scene,
      HideAnnotationsForOtherReports testServices visibilityLogic (some reportA) =
        .ok { visibilityLogic with MRMLScene := some scene1 } ∧
      List.Forall₂ SameButVisibility visibilityScene.nodes scene1.nodes ∧
      scene1.GetChildrenNodes topLevelNode.ID = visibilityScene.GetChildrenNodes topLevelNode.ID ∧
      ∀ child ∈ scene1.GetChildrenNodes topLevelNode.ID,
        ∀ a ∈ scene1.annotationsUnder child,
          a.Visible = (if hierarchyNodeA.ID = child.ID then 1 else 0) ∧
          ∀ d ∈ scene1.displayNodesOf a,
            d.Visibility = (if hierarchyNodeA.ID = child.ID then 1 else 0)) ∧
    (HideAnnotationsForOtherReports testServices visibilityLogic (some reportA)).map
      (fun self1 => self1.MRMLScene.map (fun scene1 =>
        ((scene1.GetNodeByID (some "vtkMRMLAnnotationFiducialNode6")).map (fun a => a.Visible),
         (scene1.GetNodeByID (some "vtkMRMLDisplayNode7")).map (fun d => d.Visibility),
         (scene1.GetNodeByID (some "vtkMRMLAnnotationFiducialNode9")).map (fun a => a.Visible),
         (scene1.GetNodeByID (some "vtkMRMLDisplayNode10")).map (fun d => d.Visibility))))
      = .ok (some (some 1, some 1, some 0, some 0)) :=
  ⟨rfl, by decide!, by decide!, by decide!, by decide!,
    HideAnnotationsForOtherReports_visibility testServices visibilityLogic reportA
      visibilityScene topLevelNode topLevelNode hierarchyNodeA rfl (by decide!) (by decide!)
      (by decide!) (by decide!) (by decide!),
    by decide!⟩

/-! ## Theorems: the AIM exporter -/

/-- C21: `SaveReportToAIM` returns `EXIT_FAILURE` whenever the DICOM database is not
initialised, or the report node is null, or the file name is null; the logic after the
call (its scene and its active markup hierarchy) and the files are those before the
call, no header is loaded and no document is built. -/
theorem SaveReportToAIM_precondition (self : Logic) (fs : FileSystem)
    (reportNode : Option Node) (filename : Option String)
    (h : self.DICOMDatabase = none ∨ reportNode = none ∨ filename = none) :
    SaveReportToAIM self fs reportNode filename =
      .ok { code := EXIT_FAILURE, logic := self, files := fs, loaded := [], doc := none } := by
  unfold SaveReportToAIM
  rcases h with h | h | h
  · simp only [h]
  · cases hdb : self.DICOMDatabase <;> simp only [h]
  · cases hdb : self.DICOMDatabase <;> cases reportNode <;> simp only [h]

/-- Witness of C21: on the export scene, without a file name, the export fails and
leaves the logic and the files as they were. -/
theorem SaveReportToAIM_precondition_witness :
    (exportLogic.DICOMDatabase = none ∨ some testReport = none ∨ (none : Option String) = none) ∧
    SaveReportToAIM exportLogic {} (some testReport) none =
      .ok { code := EXIT_FAILURE, logic := exportLogic, files := {}, loaded := [], doc := none } :=
  ⟨Or.inr (Or.inr rfl), SaveReportToAIM_precondition exportLogic {} (some testReport) none
    (Or.inr (Or.inr rfl))⟩

/-- C27: for a report whose hierarchy node has no volume in its subtree (or that has no
hierarchy node), with the DICOM database initialised and a file name, the export returns
`EXIT_SUCCESS`, loads no header, leaves the logic as it was, and the document it writes
has no geometric shape and no image reference. -/
theorem SaveReportToAIM_no_volume (self : Logic) (fs : FileSystem) (db : DICOMDatabase)
    (reportNode : Node) (filename : String)
    (hdb : self.DICOMDatabase = some db)
    (hvol : ∀ hnode scene,
      GetAssociatedHierarchyNode (self.sceneOf reportNode) reportNode.ID = some hnode →
      self.sceneOf hnode = some scene → scene.volumesUnder hnode = []) :
    SaveReportToAIM self fs (some reportNode) (some filename) =
      .ok { code := EXIT_SUCCESS, logic := self,
            files := fs.ofstream filename
              { name := reportNode.Description, geometricShapeCollection := [],
                imageReferenceCollection := [] },
            loaded := [],
            doc := some { name := reportNode.Description, geometricShapeCollection := [],
                          imageReferenceCollection := [] } } := by
  have hnone : GetVolumeIDForReportNode self (some reportNode) = none := by
    simp only [GetVolumeIDForReportNode]
    cases hh : GetAssociatedHierarchyNode (self.sceneOf reportNode) reportNode.ID with
    | none => rfl
    | some hnode =>
      cases hs : self.sceneOf hnode with
      | none => simp only [hs]
      | some scene =>
        have hv := hvol hnode scene hh hs
        simp only [Scene.volumesUnder] at hv
        simp only [hs, GetVolumeIDForReportNode_loop_eq, hv]
        rfl
  have hself : { self with DICOMDatabase := some db } = self := by
    cases self
    simp only at hdb
    simp only [hdb]
  simp only [SaveReportToAIM, SaveReportToAIM.markupHierarchyNode, hdb, hnone,
    SaveReportToAIM.document, SaveReportToAIM.shapes, SaveReportToAIM.headerLoop,
    SaveReportToAIM.imageReferences, List.flatMap_nil, hself]

/-- Witness of C27: a report with a hierarchy node and nothing under it. -/
theorem SaveReportToAIM_no_volume_witness :
    noVolumeLogic.DICOMDatabase = some exportDatabase ∧
    GetAssociatedHierarchyNode (noVolumeLogic.sceneOf testReport) testReport.ID =
      some (hierarchyNode .vtkMRMLDisplayableHierarchyNode "vtkMRMLDisplayableHierarchyNode5"
        "Report Hierarchy" true none (some "vtkMRMLReportingReportNode2")) ∧
    SaveReportToAIM noVolumeLogic {} (some testReport) (some "report.xml") =
      .ok { code := EXIT_SUCCESS, logic := noVolumeLogic,
            files := { files := [("report.xml",
              { name := some "TestReport", geometricShapeCollection := [],
                imageReferenceCollection := [] })] },
            loaded := [],
            doc := some { name := some "TestReport", geometricShapeCollection := [],
                          imageReferenceCollection := [] } } :=
  ⟨rfl, by decide!,
    SaveReportToAIM_no_volume noVolumeLogic {} exportDatabase testReport "report.xml" rfl
      (by
        intro hnode scene hh hs
        have hh1 : hnode = hierarchyNode .vtkMRMLDisplayableHierarchyNode
            "vtkMRMLDisplayableHierarchyNode5" "Report Hierarchy" true none
            (some "vtkMRMLReportingReportNode2") := by
          have h0 : GetAssociatedHierarchyNode (noVolumeLogic.sceneOf testReport) testReport.ID =
              some (hierarchyNode .vtkMRMLDisplayableHierarchyNode
                "vtkMRMLDisplayableHierarchyNode5" "Report Hierarchy" true none
                (some "vtkMRMLReportingReportNode2")) := by decide!
          rw [h0] at hh
          exact (Option.some.inj hh).symm
        subst hh1
        have hs1 : Logic.sceneOf noVolumeLogic (hierarchyNode .vtkMRMLDisplayableHierarchyNode
            "vtkMRMLDisplayableHierarchyNode5" "Report Hierarchy" true none
            (some "vtkMRMLReportingReportNode2")) = noVolumeLogic.MRMLScene := by decide!
        rw [hs1] at hs
        cases hs
        decide!)⟩
/-! ## Theorems: the output file of the exporter -/

/-- C23, the code at a path that cannot be opened for writing: the export of
`exportScene` returns `EXIT_SUCCESS`, as it does for a path that can be written, and
no file is written. -/
theorem SaveReportToAIM_unwritable_path :
    SaveReportToAIM exportLogic { unwritable := ["/nonexistent/report.xml"] } (some testReport)
        (some "/nonexistent/report.xml") =
      .ok { code := EXIT_SUCCESS
            logic := { exportLogic with
              ActiveMarkupHierarchyID := some "vtkMRMLAnnotationHierarchyNode7"
              DICOMDatabase := some (exportDatabase.loadInstanceHeader "A") }
            files := { unwritable := ["/nonexistent/report.xml"] }
            loaded := ["A"]
            doc := some exportDocument } ∧
    SaveReportToAIM exportLogic {} (some testReport) (some "/nonexistent/report.xml") =
      .ok { code := EXIT_SUCCESS
            logic := { exportLogic with
              ActiveMarkupHierarchyID := some "vtkMRMLAnnotationHierarchyNode7"
              DICOMDatabase := some (exportDatabase.loadInstanceHeader "A") }
            files := { files := [("/nonexistent/report.xml", exportDocument)] }
            loaded := ["A"]
            doc := some exportDocument } := by
  decide!
/-! ## Theorems: the shape records of the exporter -/

theorem NodeClass.isControlPoints_of_markup (c : NodeClass)
    (h : c.IsA .vtkMRMLAnnotationFiducialNode = true ∨ c.IsA .vtkMRMLAnnotationRulerNode = true) :
    c.IsA .vtkMRMLAnnotationControlPointsNode = true := by
  revert h
  cases c <;> decide

/-- The coordinates of a control points node are read without a fault. -/
theorem GetMarkupPointCoordinatesStr_ok (self : Logic) (a : Node)
    (h : a.cls.IsA .vtkMRMLAnnotationControlPointsNode = true) :
    ∃ coordStr, GetMarkupPointCoordinatesStr self (some a) = .ok coordStr := by
  have hv : ∃ v, GetMarkupVolumeNode self (some a) = .ok v := by
    simp only [GetMarkupVolumeNode, SafeDownCast, h, if_true]
    repeat' split
    all_goals exact ⟨_, rfl⟩
  obtain ⟨v, hv⟩ := hv
  simp only [GetMarkupPointCoordinatesStr, Option.some_bind, SafeDownCast, h, if_true, hv]
  cases v <;> exact ⟨_, rfl⟩

/-- The method `SetActiveMarkupHierarchyIDFromNode` writes the active markup only. -/
theorem SetActiveMarkupHierarchyIDFromNode_frame (self self1 : Logic) (node : Option Node)
    (h : SetActiveMarkupHierarchyIDFromNode self node = .ok self1) :
    ∃ id, self1 = { self with ActiveMarkupHierarchyID := id } := by
  obtain ⟨m, p, a, g, d⟩ := self
  have hk : ∀ (id : Option String) (r : Except Fault Logic),
      r = .ok ⟨m, p, id, g, d⟩ → r = .ok self1 → ∃ id, self1 = ⟨m, p, id, g, d⟩ := by
    intro id r h1 h2
    rw [h1] at h2
    exact ⟨id, (Except.ok.inj h2).symm⟩
  unfold SetActiveMarkupHierarchyIDFromNode at h
  cases node with
  | none => cases h
  | some node =>
    simp only at h
    cases hname : node.Name with
    | none => rw [hname] at h; exact hk _ _ rfl h
    | some name =>
      rw [hname] at h
      simp only at h
      cases m with
      | none => cases h
      | some scene =>
        simp only at h
        cases hf : scene.GetFirstNodeByName ("Markup " ++ name) with
        | some mrmlNode => rw [hf] at h; exact hk _ _ rfl h
        | none =>
          rw [hf] at h
          simp only at h
          cases hh : GetAssociatedHierarchyNode
              (Logic.sceneOf ⟨some scene, p, a, g, d⟩ node) node.ID with
          | none => rw [hh] at h; exact hk _ _ rfl h
          | some hnode =>
            rw [hh] at h
            simp only at h
            cases hl : SetActiveMarkupHierarchyIDFromNode.loop
                (Logic.childrenOf ⟨some scene, p, a, g, d⟩ hnode) with
            | error e => rw [hl] at h; cases h
            | ok c =>
              rw [hl] at h
              cases c with
              | none => exact hk _ _ rfl h
              | some child => exact hk _ _ rfl h

/-- Lines 866-900 of `SaveReportToAIM` write the active markup only. -/
theorem SaveReportToAIM.markupHierarchyNode_frame (self self1 : Logic) (reportNode : Node)
    (r : Option (Option Node))
    (h : SaveReportToAIM.markupHierarchyNode self reportNode = .ok (self1, r)) :
    ∃ id, self1 = { self with ActiveMarkupHierarchyID := id } := by
  unfold SaveReportToAIM.markupHierarchyNode at h
  split at h
  · cases h; exact ⟨self.ActiveMarkupHierarchyID, rfl⟩
  · split at h
    · cases h
    · split at h
      · cases h; exact ⟨self.ActiveMarkupHierarchyID, rfl⟩
      · split at h
        · cases h
        · rename_i self2 hset
          obtain ⟨id, hid⟩ := SetActiveMarkupHierarchyIDFromNode_frame _ _ _ hset
          split at h
          · cases h; exact ⟨id, hid⟩
          · split at h <;> (cases h; exact ⟨id, hid⟩)

theorem GetSliceUIDFromMarkUp_scene (self self1 : Logic) (hs : self1.MRMLScene = self.MRMLScene)
    (node : Option Node) : GetSliceUIDFromMarkUp self1 node = GetSliceUIDFromMarkUp self node := by
  simp only [GetSliceUIDFromMarkUp, hs]

theorem GetMarkupPointCoordinatesStr_scene (self self1 : Logic)
    (hs : self1.MRMLScene = self.MRMLScene) (node : Option Node) :
    GetMarkupPointCoordinatesStr self1 node = GetMarkupPointCoordinatesStr self node := by
  have hv : GetMarkupVolumeNode self1 node = GetMarkupVolumeNode self node := by
    simp only [GetMarkupVolumeNode, hs]
  simp only [GetMarkupPointCoordinatesStr, hv]

/-- The loop over the children reads the scene of the logic only. -/
theorem SaveReportToAIM.shapeLoop_scene (self self1 : Logic) (scene : Scene)
    (hs : self1.MRMLScene = self.MRMLScene) :
    ∀ (l : List Node) (shapeId : Int) (gsc : List GeometricShape) (allInstanceUIDs : List String),
      SaveReportToAIM.shapeLoop self1 scene l shapeId gsc allInstanceUIDs =
        SaveReportToAIM.shapeLoop self scene l shapeId gsc allInstanceUIDs
  | [], _, _, _ => rfl
  | child :: rest, shapeId, gsc, allInstanceUIDs => by
    simp only [SaveReportToAIM.shapeLoop, GetSliceUIDFromMarkUp_scene self self1 hs,
      GetMarkupPointCoordinatesStr_scene self self1 hs,
      SaveReportToAIM.shapeLoop_scene self self1 scene hs rest]

theorem SafeDownCast_isSome (base : NodeClass) (n : Node) :
    (SafeDownCast base n).isSome = n.cls.IsA base := by
  unfold SafeDownCast
  split <;> simp [*]

/-- A child without a fiducial or ruler is passed over. -/
theorem SaveReportToAIM.shapeLoop_skip (self : Logic) (scene : Scene) (child : Node)
    (rest : List Node) (shapeId : Int) (gsc : List GeometricShape) (allInstanceUIDs : List String)
    (h : (scene.GetAssociatedNode child).filter (fun a =>
      a.cls.IsA .vtkMRMLAnnotationFiducialNode || a.cls.IsA .vtkMRMLAnnotationRulerNode) = none) :
    SaveReportToAIM.shapeLoop self scene (child :: rest) shapeId gsc allInstanceUIDs =
      SaveReportToAIM.shapeLoop self scene rest shapeId gsc allInstanceUIDs := by
  simp only [SaveReportToAIM.shapeLoop]
  cases ha : scene.GetAssociatedNode child with
  | none => rfl
  | some a =>
    rw [ha] at h
    simp only [Option.filter] at h
    split at h
    · cases h
    · rename_i hfr
      simp only [SafeDownCast_isSome]
      rw [if_neg hfr]

theorem Option.filter_eq_some_elim {α : Type} (p : α → Bool) (o : Option α) (a : α)
    (h : o.filter p = some a) : o = some a ∧ p a = true := by
  cases o with
  | none => cases h
  | some b =>
    simp only [Option.filter] at h
    split at h
    · cases h
      exact ⟨rfl, by assumption⟩
    · cases h

/-- The coordinate elements of a point. -/
theorem AddSpatialCoordinateCollectionElement_two (parent : GeometricShape) (coordStr : List ℚ)
    (sliceUID : String) (h : coordStr.length = 2) :
    ∃ gs, AddSpatialCoordinateCollectionElement parent coordStr [sliceUID] = .ok gs ∧
      gs.xsiType = parent.xsiType ∧
      gs.spatialCoordinateCollection.map (fun c => c.imageReferenceUID) = [sliceUID] := by
  obtain ⟨x, y, rfl⟩ := List.length_eq_two.mp h
  exact ⟨_, rfl, rfl, rfl⟩

/-- The coordinate elements of the two points of a ruler. -/
theorem AddSpatialCoordinateCollectionElement_four (parent : GeometricShape) (coordStr : List ℚ)
    (sliceUID : String) (h : coordStr.length = 4) :
    ∃ gs, AddSpatialCoordinateCollectionElement parent coordStr [sliceUID] = .ok gs ∧
      gs.xsiType = parent.xsiType ∧
      gs.spatialCoordinateCollection.map (fun c => c.imageReferenceUID) =
        [sliceUID, sliceUID] := by
  match coordStr, h with
  | [x, y, z, w], _ => exact ⟨_, rfl, rfl, rfl⟩

/-- One round of the loop over the children, for a child with a fiducial or ruler. -/
theorem SaveReportToAIM.shapeLoop_markup (self : Logic) (scene : Scene) (child a : Node)
    (rest : List Node) (shapeId : Int) (gsc : List GeometricShape) (allInstanceUIDs : List String)
    (h : (scene.GetAssociatedNode child).filter (fun a =>
      a.cls.IsA .vtkMRMLAnnotationFiducialNode || a.cls.IsA .vtkMRMLAnnotationRulerNode) = some a) :
    (∀ e, GetSliceUIDFromMarkUp self (some a) = .error e →
      SaveReportToAIM.shapeLoop self scene (child :: rest) shapeId gsc allInstanceUIDs = .error e) ∧
    (∀ uid, GetSliceUIDFromMarkUp self (some a) = .ok uid →
      (uid = "NONE" →
        SaveReportToAIM.shapeLoop self scene (child :: rest) shapeId gsc allInstanceUIDs =
          .ok none) ∧
      (SaveReportToAIM.shapeLoop self scene (child :: rest) shapeId gsc allInstanceUIDs = .ok none ∨
        ∃ gs shapeId1, IsShapeRecordOf self a gs ∧
          SaveReportToAIM.shapeLoop self scene (child :: rest) shapeId gsc allInstanceUIDs =
            SaveReportToAIM.shapeLoop self scene rest shapeId1 (gsc ++ [gs])
              (allInstanceUIDs ++ [uid]))) := by
  obtain ⟨ha, hfr⟩ := Option.filter_eq_some_elim _ _ _ h
  have hfr1 : a.cls.IsA .vtkMRMLAnnotationFiducialNode = true ∨
      a.cls.IsA .vtkMRMLAnnotationRulerNode = true := by
    simpa using hfr
  have hann : SafeDownCast .vtkMRMLAnnotationNode a = some a := by
    simp [SafeDownCast, NodeClass.isAnnotation_of_markup _ hfr1]
  obtain ⟨coordStr, hcoord⟩ := GetMarkupPointCoordinatesStr_ok self a
    (NodeClass.isControlPoints_of_markup _ hfr1)
  simp only [SaveReportToAIM.shapeLoop, ha, SafeDownCast_isSome, hfr, if_true, hann, hcoord]
  refine ⟨fun e he => by simp only [he], fun uid huid => ?_⟩
  simp only [huid]
  refine ⟨fun hn => by simp only [hn, if_true], ?_⟩
  by_cases hn : uid = "NONE"
  · exact Or.inl (by simp only [hn, if_true])
  · simp only [hn, if_false]
    rcases hfr1 with hf | hr
    · have hr : a.cls.IsA .vtkMRMLAnnotationRulerNode = false := by
        revert hf
        cases a.cls <;> decide
      simp only [hf, hr, if_true, Bool.false_eq_true, if_false]
      by_cases hlen : coordStr.length = 2
      · obtain ⟨gs, hgs, htype, huids⟩ := AddSpatialCoordinateCollectionElement_two
          { xsiType := some "Point", shapeIdentifier := some shapeId } coordStr uid hlen
        simp only [hlen, ne_eq, not_true_eq_false, if_false, hgs]
        exact Or.inr ⟨gs, _, ⟨uid, huid, hn, fun _ => ⟨htype, huids⟩,
          fun h => by rw [h] at hr; cases hr⟩, rfl⟩
      · exact Or.inl (by simp only [ne_eq, hlen, not_false_eq_true, if_true])
    · have hf : a.cls.IsA .vtkMRMLAnnotationFiducialNode = false :=
        NodeClass.not_fiducial_of_ruler _ hr
      simp only [hf, hr, if_true, Bool.false_eq_true, if_false]
      by_cases hlen : coordStr.length = 4
      · obtain ⟨gs, hgs, htype, huids⟩ := AddSpatialCoordinateCollectionElement_four
          { xsiType := some "MultiPoint", shapeIdentifier := some shapeId } coordStr uid hlen
        simp only [hlen, ne_eq, not_true_eq_false, if_false, hgs]
        exact Or.inr ⟨gs, _, ⟨uid, huid, hn, fun h => (by rw [h] at hf; cases hf),
          fun _ => ⟨htype, huids⟩⟩, rfl⟩
      · exact Or.inl (by simp only [ne_eq, hlen, not_false_eq_true, if_true])

/-- The loop over the children returns `EXIT_FAILURE` at the first fiducial or ruler that
resolves to "NONE", when the fiducials and rulers before it resolve without a fault. -/
theorem SaveReportToAIM.shapeLoop_aborts (self : Logic) (scene : Scene) (a : Node)
    (after : List Node) (hnone : GetSliceUIDFromMarkUp self (some a) = .ok "NONE") :
    ∀ (l before : List Node) (shapeId : Int) (gsc : List GeometricShape)
      (allInstanceUIDs : List String),
      l.filterMap (fun h => (scene.GetAssociatedNode h).filter (fun a =>
        a.cls.IsA .vtkMRMLAnnotationFiducialNode || a.cls.IsA .vtkMRMLAnnotationRulerNode)) =
          before ++ a :: after →
      (∀ b ∈ before, ∃ uid, GetSliceUIDFromMarkUp self (some b) = .ok uid) →
      SaveReportToAIM.shapeLoop self scene l shapeId gsc allInstanceUIDs = .ok none := by
  intro l
  induction l with
  | nil =>
    intro before shapeId gsc allInstanceUIDs hsplit _
    simp at hsplit
  | cons child rest ih =>
    intro before shapeId gsc allInstanceUIDs hsplit hbefore
    cases hf : (scene.GetAssociatedNode child).filter (fun a =>
        a.cls.IsA .vtkMRMLAnnotationFiducialNode || a.cls.IsA .vtkMRMLAnnotationRulerNode) with
    | none =>
      rw [SaveReportToAIM.shapeLoop_skip self scene child rest shapeId gsc allInstanceUIDs hf]
      simp only [List.filterMap_cons, hf] at hsplit
      exact ih before shapeId gsc allInstanceUIDs hsplit hbefore
    | some m =>
      simp only [List.filterMap_cons, hf] at hsplit
      have hstep := SaveReportToAIM.shapeLoop_markup self scene child m rest shapeId gsc
        allInstanceUIDs hf
      cases before with
      | nil =>
        simp only [List.nil_append, List.cons.injEq] at hsplit
        rw [hsplit.1] at hstep
        exact (hstep.2 "NONE" hnone).1 rfl
      | cons b before1 =>
        simp only [List.cons_append, List.cons.injEq] at hsplit
        obtain ⟨uid, huid⟩ := hbefore b (List.mem_cons_self _ _)
        rw [← hsplit.1] at huid
        rcases (hstep.2 uid huid).2 with h | ⟨gs, shapeId1, _, h⟩
        · exact h
        · rw [h]
          exact ih before1 shapeId1 _ _ hsplit.2
            (fun b1 hb1 => hbefore b1 (List.mem_cons_of_mem _ hb1))

/-- A loop over the children that runs to its end has appended one shape record and one
slice UID for every fiducial and ruler, in their order. -/
theorem SaveReportToAIM.shapeLoop_records (self : Logic) (scene : Scene) :
    ∀ (l : List Node) (shapeId : Int) (gsc : List GeometricShape) (allInstanceUIDs : List String)
      (r : List GeometricShape × List String),
      SaveReportToAIM.shapeLoop self scene l shapeId gsc allInstanceUIDs = .ok (some r) →
      ∃ shapes uids, r = (gsc ++ shapes, allInstanceUIDs ++ uids) ∧
        List.Forall₂ (IsShapeRecordOf self)
          (l.filterMap (fun h => (scene.GetAssociatedNode h).filter (fun a =>
            a.cls.IsA .vtkMRMLAnnotationFiducialNode || a.cls.IsA .vtkMRMLAnnotationRulerNode)))
          shapes ∧
        List.Forall₂ (fun a uid => GetSliceUIDFromMarkUp self (some a) = .ok uid)
          (l.filterMap (fun h => (scene.GetAssociatedNode h).filter (fun a =>
            a.cls.IsA .vtkMRMLAnnotationFiducialNode || a.cls.IsA .vtkMRMLAnnotationRulerNode)))
          uids := by
  intro l
  induction l with
  | nil =>
    intro shapeId gsc allInstanceUIDs r h
    simp only [SaveReportToAIM.shapeLoop, Except.ok.injEq, Option.some.injEq] at h
    exact ⟨[], [], by simp [← h], List.Forall₂.nil, List.Forall₂.nil⟩
  | cons child rest ih =>
    intro shapeId gsc allInstanceUIDs r h
    cases hf : (scene.GetAssociatedNode child).filter (fun a =>
        a.cls.IsA .vtkMRMLAnnotationFiducialNode || a.cls.IsA .vtkMRMLAnnotationRulerNode) with
    | none =>
      rw [SaveReportToAIM.shapeLoop_skip self scene child rest shapeId gsc allInstanceUIDs hf] at h
      simp only [List.filterMap_cons, hf]
      exact ih shapeId gsc allInstanceUIDs r h
    | some m =>
      simp only [List.filterMap_cons, hf]
      have hstep := SaveReportToAIM.shapeLoop_markup self scene child m rest shapeId gsc
        allInstanceUIDs hf
      cases huid : GetSliceUIDFromMarkUp self (some m) with
      | error e =>
        rw [hstep.1 e huid] at h
        cases h
      | ok uid =>
        rcases (hstep.2 uid huid).2 with h1 | ⟨gs, shapeId1, hgs, h1⟩
        · rw [h1] at h
          cases h
        · rw [h1] at h
          obtain ⟨shapes, uids, hr, hshapes, huids⟩ := ih shapeId1 _ _ r h
          refine ⟨gs :: shapes, uid :: uids, ?_, List.Forall₂.cons hgs hshapes,
            List.Forall₂.cons huid huids⟩
          rw [hr]
          simp

/-- The shapes of the document are made by the loop over the subtree of the markup
node, in the scene of the logic before the call. -/
theorem SaveReportToAIM.shapes_eq (self self1 : Logic) (scene : Scene) (markup : Node)
    (hscene : self.MRMLScene = some scene) (hs : self1.MRMLScene = self.MRMLScene) :
    SaveReportToAIM.shapes self1 (some markup) =
      SaveReportToAIM.shapeLoop self scene (scene.allChildrenOf markup) 0 [] [] := by
  cases hin : markup.InScene with
  | false =>
    simp only [SaveReportToAIM.shapes, Logic.sceneOf, hin, Scene.allChildrenOf,
      Bool.false_eq_true, if_false, SaveReportToAIM.shapeLoop]
  | true =>
    simp only [SaveReportToAIM.shapes, Logic.sceneOf, hin, Scene.allChildrenOf, if_true, hs,
      hscene, SaveReportToAIM.shapeLoop_scene self self1 scene hs]

/-- C22: when the markup node of the volume of the report is found and a fiducial or
ruler under it resolves to the slice UID "NONE", the export returns `EXIT_FAILURE`,
loads no header, builds no document and leaves the files as they were, whatever the
fiducials and rulers before it resolved to. -/
theorem SaveReportToAIM_unresolved_slice (self self1 : Logic) (fs : FileSystem)
    (db : DICOMDatabase) (scene : Scene) (reportNode markup : Node) (filename : String)
    (before after : List Node) (a : Node)
    (hdb : self.DICOMDatabase = some db) (hscene : self.MRMLScene = some scene)
    (hmk : SaveReportToAIM.markupHierarchyNode self reportNode = .ok (self1, some (some markup)))
    (hsplit : scene.markupNodesUnder markup = before ++ a :: after)
    (hbefore : ∀ b ∈ before, ∃ uid, GetSliceUIDFromMarkUp self (some b) = .ok uid)
    (hnone : GetSliceUIDFromMarkUp self (some a) = .ok "NONE") :
    SaveReportToAIM self fs (some reportNode) (some filename) =
      .ok { code := EXIT_FAILURE, logic := self1, files := fs, loaded := [], doc := none } := by
  obtain ⟨id, hid⟩ := SaveReportToAIM.markupHierarchyNode_frame _ _ _ _ hmk
  have hs : self1.MRMLScene = self.MRMLScene := by rw [hid]
  simp only [SaveReportToAIM, hdb, hmk, SaveReportToAIM.document,
    SaveReportToAIM.shapes_eq self self1 scene markup hscene hs,
    SaveReportToAIM.shapeLoop_aborts self scene a after hnone _ before 0 [] [] hsplit hbefore]

/-- Witness of C22: in `unresolvedScene` the fiducial "ann1" resolves to the slice "A"
and the fiducial "ann2" after it resolves to "NONE". -/
theorem SaveReportToAIM_unresolved_slice_witness :
    SaveReportToAIM.markupHierarchyNode unresolvedLogic testReport =
      .ok ({ unresolvedLogic with ActiveMarkupHierarchyID := some "vtkMRMLAnnotationHierarchyNode7" },
        some (some exportMarkupHierarchyNode)) ∧
    unresolvedScene.markupNodesUnder exportMarkupHierarchyNode =
      [exportMarkupNode .vtkMRMLAnnotationFiducialNode "ann1" "vol1" [(3, 4, 0)]] ++
        exportMarkupNode .vtkMRMLAnnotationFiducialNode "ann2" "vol1" [] :: [] ∧
    GetSliceUIDFromMarkUp unresolvedLogic
      (some (exportMarkupNode .vtkMRMLAnnotationFiducialNode "ann1" "vol1" [(3, 4, 0)])) = .ok "A" ∧
    GetSliceUIDFromMarkUp unresolvedLogic
      (some (exportMarkupNode .vtkMRMLAnnotationFiducialNode "ann2" "vol1" [])) = .ok "NONE" ∧
    SaveReportToAIM unresolvedLogic {} (some testReport) (some "report.xml") =
      .ok { code := EXIT_FAILURE
            logic := { unresolvedLogic with
              ActiveMarkupHierarchyID := some "vtkMRMLAnnotationHierarchyNode7" }
            files := {}, loaded := [], doc := none } :=
  ⟨by decide!, by decide!, by decide!, by decide!,
    SaveReportToAIM_unresolved_slice unresolvedLogic _ {} exportDatabase unresolvedScene testReport
      exportMarkupHierarchyNode "report.xml"
      [exportMarkupNode .vtkMRMLAnnotationFiducialNode "ann1" "vol1" [(3, 4, 0)]] []
      (exportMarkupNode .vtkMRMLAnnotationFiducialNode "ann2" "vol1" [])
      rfl rfl (by decide!) (by decide!)
      (fun b hb => by
        rw [List.mem_singleton.mp hb]
        exact ⟨"A", by decide!⟩)
      (by decide!)⟩

/-- A loop over the instance UIDs that runs to its end has loaded the header of every
instance, in order. -/
theorem SaveReportToAIM.headerLoop_loaded :
    ∀ (l : List String) (db : DICOMDatabase) (loaded : List String)
      (seriesToImageList studyToSeriesList : StringListMap) (db1 : DICOMDatabase)
      (loaded1 : List String) (maps : StringListMap × StringListMap),
      SaveReportToAIM.headerLoop l db loaded seriesToImageList studyToSeriesList =
        .ok (db1, loaded1, some maps) →
      loaded1 = loaded ++ l := by
  intro l
  induction l with
  | nil =>
    intro db loaded s t db1 loaded1 maps h
    simp only [SaveReportToAIM.headerLoop, Except.ok.injEq, Prod.mk.injEq] at h
    simp [← h.2.1]
  | cons instanceUID rest ih =>
    intro db loaded s t db1 loaded1 maps h
    simp only [SaveReportToAIM.headerLoop] at h
    repeat' split at h
    all_goals first
      | cases h
      | (rw [ih _ _ _ _ _ _ _ h]; simp)

/-- A call of `SaveReportToAIM` that returns `EXIT_SUCCESS` has run both loops to their
end, and its document holds what they made. -/
theorem SaveReportToAIM_success (self : Logic) (fs : FileSystem) (db : DICOMDatabase)
    (reportNode : Node) (filename : String) (res : ExportResult)
    (hdb : self.DICOMDatabase = some db)
    (hres : SaveReportToAIM self fs (some reportNode) (some filename) = .ok res)
    (hcode : res.code = EXIT_SUCCESS) :
    ∃ self1 mk gsc db1 seriesToImageList studyToSeriesList,
      SaveReportToAIM.markupHierarchyNode self reportNode = .ok (self1, some mk) ∧
      SaveReportToAIM.shapes self1 mk = .ok (some (gsc, res.loaded)) ∧
      SaveReportToAIM.headerLoop res.loaded db [] [] [] =
        .ok (db1, res.loaded, some (seriesToImageList, studyToSeriesList)) ∧
      res.doc = some { name := reportNode.Description, geometricShapeCollection := gsc,
                       imageReferenceCollection :=
                         SaveReportToAIM.imageReferences seriesToImageList studyToSeriesList } ∧
      res.files = fs.ofstream filename
        { name := reportNode.Description, geometricShapeCollection := gsc,
          imageReferenceCollection :=
            SaveReportToAIM.imageReferences seriesToImageList studyToSeriesList } := by
  have hne : EXIT_FAILURE ≠ EXIT_SUCCESS := by decide
  simp only [SaveReportToAIM, hdb] at hres
  cases hmk : SaveReportToAIM.markupHierarchyNode self reportNode with
  | error e => rw [hmk] at hres; cases hres
  | ok r =>
    obtain ⟨self1, mk⟩ := r
    rw [hmk] at hres
    cases mk with
    | none =>
      simp only [Except.ok.injEq] at hres
      rw [← hres] at hcode
      exact absurd hcode hne
    | some mk =>
      simp only [SaveReportToAIM.document] at hres
      cases hsh : SaveReportToAIM.shapes self1 mk with
      | error e => rw [hsh] at hres; cases hres
      | ok sh =>
        rw [hsh] at hres
        cases sh with
        | none =>
          simp only [Except.ok.injEq] at hres
          rw [← hres] at hcode
          exact absurd hcode hne
        | some sh =>
          obtain ⟨gsc, allInstanceUIDs⟩ := sh
          simp only at hres
          cases hhl : SaveReportToAIM.headerLoop allInstanceUIDs db [] [] [] with
          | error e => rw [hhl] at hres; cases hres
          | ok hl =>
            obtain ⟨db1, loaded, maps⟩ := hl
            rw [hhl] at hres
            cases maps with
            | none =>
              simp only [Except.ok.injEq] at hres
              rw [← hres] at hcode
              exact absurd hcode hne
            | some maps =>
              obtain ⟨s, t⟩ := maps
              simp only [Except.ok.injEq] at hres
              have hl := SaveReportToAIM.headerLoop_loaded _ _ _ _ _ _ _ _ hhl
              simp only [List.nil_append] at hl
              subst hl
              subst hres
              exact ⟨self1, mk, gsc, db1, s, t, rfl, hsh, hhl, rfl, rfl⟩

/-- C24: in an export that returns `EXIT_SUCCESS`, with the markup node of the volume of
the report found, the geometric shape collection of the document written holds one
record for every fiducial and ruler under the markup node, in the order of the
all-children sequence: a "Point" with one coordinate for a fiducial, a "MultiPoint"
with two coordinates for a ruler, every coordinate referring to the slice UID the
annotation resolves to. The headers loaded are those of these slice UIDs, in order. -/
theorem SaveReportToAIM_shape_records (self self1 : Logic) (fs : FileSystem)
    (db : DICOMDatabase) (scene : Scene) (reportNode markup : Node) (filename : String)
    (res : ExportResult)
    (hdb : self.DICOMDatabase = some db) (hscene : self.MRMLScene = some scene)
    (hmk : SaveReportToAIM.markupHierarchyNode self reportNode = .ok (self1, some (some markup)))
    (hres : SaveReportToAIM self fs (some reportNode) (some filename) = .ok res)
    (hcode : res.code = EXIT_SUCCESS) :
    ∃ doc, res.doc = some doc ∧ res.files = fs.ofstream filename doc ∧
      List.Forall₂ (IsShapeRecordOf self) (scene.markupNodesUnder markup)
        doc.geometricShapeCollection ∧
      List.Forall₂ (fun a uid => GetSliceUIDFromMarkUp self (some a) = .ok uid)
        (scene.markupNodesUnder markup) res.loaded := by
  obtain ⟨self2, mk, gsc, db1, s, t, hmk2, hsh, _, hdoc, hfiles⟩ :=
    SaveReportToAIM_success self fs db reportNode filename res hdb hres hcode
  rw [hmk] at hmk2
  simp only [Except.ok.injEq, Prod.mk.injEq, Option.some.injEq] at hmk2
  obtain ⟨id, hid⟩ := SaveReportToAIM.markupHierarchyNode_frame _ _ _ _ hmk
  have hs : self1.MRMLScene = self.MRMLScene := by rw [hid]
  rw [← hmk2.1, ← hmk2.2, SaveReportToAIM.shapes_eq self self1 scene markup hscene hs] at hsh
  obtain ⟨shapes, uids, hr, hshapes, huids⟩ :=
    SaveReportToAIM.shapeLoop_records self scene _ _ _ _ _ hsh
  simp only [List.nil_append, Prod.mk.injEq] at hr
  refine ⟨_, hdoc, hfiles, ?_, ?_⟩
  · rw [hr.1]
    exact hshapes
  · rw [hr.2]
    exact huids

/-- Witness of C24: in `exportScene` the one fiducial resolves to the slice "A"; the
document has the one record of type "Point" referring to "A". -/
theorem SaveReportToAIM_shape_records_witness :
    exportScene.markupNodesUnder exportMarkupHierarchyNode =
      [exportMarkupNode .vtkMRMLAnnotationFiducialNode "ann1" "vol1" [(3, 4, 0)]] ∧
    GetSliceUIDFromMarkUp exportLogic
      (some (exportMarkupNode .vtkMRMLAnnotationFiducialNode "ann1" "vol1" [(3, 4, 0)])) = .ok "A" ∧
    exportDocument.geometricShapeCollection =
      [{ xsiType := some "Point", shapeIdentifier := some 0,
         spatialCoordinateCollection := [{ imageReferenceUID := "A", x := 3, y := 4 }] }] ∧
    ∃ doc, some exportDocument = some doc ∧
      ({ files := [("report.xml", exportDocument)] } : FileSystem) =
        FileSystem.ofstream {} "report.xml" doc ∧
      List.Forall₂ (IsShapeRecordOf exportLogic)
        (exportScene.markupNodesUnder exportMarkupHierarchyNode) doc.geometricShapeCollection ∧
      List.Forall₂ (fun a uid => GetSliceUIDFromMarkUp exportLogic (some a) = .ok uid)
        (exportScene.markupNodesUnder exportMarkupHierarchyNode) ["A"] :=
  ⟨by decide!, by decide!, rfl,
    SaveReportToAIM_shape_records exportLogic
      { exportLogic with ActiveMarkupHierarchyID := some "vtkMRMLAnnotationHierarchyNode7" }
      {} exportDatabase exportScene testReport exportMarkupHierarchyNode "report.xml"
      { code := EXIT_SUCCESS
        logic := { exportLogic with
          ActiveMarkupHierarchyID := some "vtkMRMLAnnotationHierarchyNode7"
          DICOMDatabase := some (exportDatabase.loadInstanceHeader "A") }
        files := { files := [("report.xml", exportDocument)] }
        loaded := ["A"]
        doc := some exportDocument }
      rfl rfl (by decide!) (by decide!) rfl⟩
/-! ## Theorems: the image references of the exporter -/

theorem StringListMap.find_cons (m : StringListMap) (k key : String) (v : List String) :
    StringListMap.find ((k, v) :: m) key = if key = k then some v else StringListMap.find m key := by
  simp only [StringListMap.find, List.lookup_cons]
  by_cases h : key = k
  · simp [h]
  · have hb : (key == k) = false := by simpa using h
    simp only [hb, if_neg h]

theorem StringListMap.find_assign (key : String) (value : List String) :
    ∀ (m : StringListMap) (k : String),
      StringListMap.find (StringListMap.assign m key value) k =
        if k = key then some value else StringListMap.find m k
  | [], k => by
    simp only [StringListMap.assign, StringListMap.find_cons]
  | (k0, v0) :: rest, k => by
    simp only [StringListMap.assign]
    by_cases h1 : key = k0
    · subst h1
      simp only [if_true, StringListMap.find_cons]
      split <;> rfl
    · by_cases h2 : key < k0
      · simp only [h1, h2, if_true, if_false, StringListMap.find_cons]
      · simp only [h1, h2, if_false, StringListMap.find_cons,
          StringListMap.find_assign key value rest k]
        by_cases h3 : k = k0
        · have h4 : ¬ k = key := fun h => h1 (h ▸ h3)
          simp only [h3, if_true]
          rw [if_neg (fun h => h1 h.symm)]
        · simp only [h3, if_false]

theorem StringListMap.mem_keys_assign (key : String) (value : List String) :
    ∀ (m : StringListMap) (k : String),
      k ∈ (StringListMap.assign m key value).map Prod.fst ↔ k = key ∨ k ∈ m.map Prod.fst
  | [], k => by simp [StringListMap.assign]
  | (k0, v0) :: rest, k => by
    simp only [StringListMap.assign]
    by_cases h1 : key = k0
    · subst h1
      simp
    · by_cases h2 : key < k0
      · simp [h1, h2]
      · simp only [h1, h2, if_false, List.map_cons, List.mem_cons,
          StringListMap.mem_keys_assign key value rest k]
        tauto

theorem StringListMap.sorted_assign (key : String) (value : List String) :
    ∀ (m : StringListMap), (m.map Prod.fst).Pairwise (fun a b => a < b) →
      ((StringListMap.assign m key value).map Prod.fst).Pairwise (fun a b => a < b)
  | [], _ => by simp [StringListMap.assign]
  | (k0, v0) :: rest, h => by
    simp only [List.map_cons, List.pairwise_cons] at h
    simp only [StringListMap.assign]
    by_cases h1 : key = k0
    · subst h1
      simpa using h
    · by_cases h2 : key < k0
      · simp only [h1, h2, if_true, if_false, List.map_cons, List.pairwise_cons, List.mem_cons]
        refine ⟨?_, h⟩
        intro k hk
        rcases hk with rfl | hk
        · exact h2
        · exact lt_trans h2 (h.1 k hk)
      · simp only [h1, h2, if_false, List.map_cons, List.pairwise_cons]
        refine ⟨?_, StringListMap.sorted_assign key value rest h.2⟩
        intro k hk
        rcases (StringListMap.mem_keys_assign key value rest k).mp hk with rfl | hk
        · exact lt_of_le_of_ne (not_lt.mp h2) (Ne.symm h1)
        · exact h.1 k hk

theorem StringListMap.mem_iff_find :
    ∀ (m : StringListMap), (m.map Prod.fst).Pairwise (fun a b => a < b) →
      ∀ (k : String) (v : List String), (k, v) ∈ m ↔ StringListMap.find m k = some v
  | [], _, k, v => by simp [StringListMap.find]
  | (k0, v0) :: rest, h, k, v => by
    simp only [List.map_cons, List.pairwise_cons] at h
    rw [StringListMap.find_cons, List.mem_cons, StringListMap.mem_iff_find rest h.2 k v]
    by_cases h1 : k = k0
    · subst h1
      simp only [if_true, Prod.mk.injEq, true_and, Option.some.injEq]
      constructor
      · rintro (h2 | h2)
        · exact h2.symm
        · have h3 : k ∈ rest.map Prod.fst :=
            List.mem_map.mpr ⟨(k, v), (StringListMap.mem_iff_find rest h.2 k v).mpr h2, rfl⟩
          exact absurd (h.1 k h3) (lt_irrefl k)
      · intro h2
        exact Or.inl h2.symm
    · simp [h1]

theorem StringListMap.assign_assign (key : String) (value value1 : List String) :
    ∀ (m : StringListMap),
      StringListMap.assign (StringListMap.assign m key value) key value1 =
        StringListMap.assign m key value1
  | [] => by simp [StringListMap.assign]
  | (k0, v0) :: rest => by
    by_cases h1 : key = k0
    · subst h1
      simp [StringListMap.assign]
    · by_cases h2 : key < k0
      · simp [StringListMap.assign, h1, h2]
      · simp [StringListMap.assign, h1, h2, StringListMap.assign_assign key value value1 rest]

/-- The slip of line 1151 does not change what is recorded: the series is recorded for
its study as the image is for its series. -/
theorem SaveReportToAIM.recordSeries_eq (m : StringListMap) (k v : String) :
    SaveReportToAIM.recordSeries m k v = SaveReportToAIM.recordImage m k v := by
  simp only [SaveReportToAIM.recordSeries, SaveReportToAIM.recordImage, StringListMap.subscript]
  cases h : StringListMap.find m k with
  | none =>
    simp only [StringListMap.find_assign, if_true, Option.getD_some, List.contains_nil,
      Bool.false_eq_true, if_false, StringListMap.assign_assign, List.nil_append]
  | some vs =>
    simp only [h, Option.getD_some]

theorem StringListMap.Groups_nil : StringListMap.Groups [] [] := by
  refine ⟨List.Pairwise.nil, ?_, ?_⟩
  · intro _ _ _ hp
    cases hp
  · intro _ _ h
    cases h

/-- Recording a value for a key keeps the map a grouping of the pairs recorded. -/
theorem SaveReportToAIM.recordImage_groups (m : StringListMap) (pairs : List (String × String))
    (key value : String) (h : StringListMap.Groups m pairs) :
    StringListMap.Groups (SaveReportToAIM.recordImage m key value) (pairs ++ [(key, value)]) := by
  obtain ⟨hsorted, hnone, hsome⟩ := h
  unfold SaveReportToAIM.recordImage
  cases hf : StringListMap.find m key with
  | none =>
    simp only
    refine ⟨StringListMap.sorted_assign _ _ _ hsorted, ?_, ?_⟩
    · intro k hk p hp
      rw [StringListMap.find_assign] at hk
      by_cases hkk : k = key
      · simp [hkk] at hk
      · simp only [hkk, if_false] at hk
        rcases List.mem_append.mp hp with hp | hp
        · exact hnone k hk p hp
        · rw [List.mem_singleton.mp hp]
          exact fun h => hkk h.symm
    · intro k vs hk
      rw [StringListMap.find_assign] at hk
      by_cases hkk : k = key
      · subst hkk
        simp only [if_true, Option.some.injEq] at hk
        subst hk
        refine ⟨List.nodup_singleton _, fun v => ?_⟩
        simp only [List.mem_singleton, List.mem_append, Prod.mk.injEq, true_and]
        constructor
        · exact fun h => Or.inr h
        · rintro (h | h)
          · exact absurd rfl (hnone k hf _ h)
          · exact h
      · simp only [hkk, if_false] at hk
        obtain ⟨hnd, hmem⟩ := hsome k vs hk
        refine ⟨hnd, fun v => ?_⟩
        rw [hmem v]
        simp [hkk]
  | some images =>
    simp only
    obtain ⟨hnd, hmem⟩ := hsome key images hf
    by_cases hc : images.contains value = true
    · simp only [hc, if_true]
      have hin : (key, value) ∈ pairs := (hmem value).mp (by simpa using hc)
      refine ⟨hsorted, ?_, ?_⟩
      · intro k hk p hp
        rcases List.mem_append.mp hp with hp | hp
        · exact hnone k hk p hp
        · rw [List.mem_singleton.mp hp]
          exact hnone k hk _ hin
      · intro k vs hk
        obtain ⟨hnd1, hmem1⟩ := hsome k vs hk
        refine ⟨hnd1, fun v => ?_⟩
        rw [hmem1 v]
        simp only [List.mem_append, List.mem_singleton]
        constructor
        · exact fun h => Or.inl h
        · rintro (h | h)
          · exact h
          · rw [h]
            exact hin
    · have hni : value ∉ images := by simpa using hc
      rw [if_neg hc]
      refine ⟨StringListMap.sorted_assign _ _ _ hsorted, ?_, ?_⟩
      · intro k hk p hp
        rw [StringListMap.find_assign] at hk
        by_cases hkk : k = key
        · simp [hkk] at hk
        · simp only [hkk, if_false] at hk
          rcases List.mem_append.mp hp with hp | hp
          · exact hnone k hk p hp
          · rw [List.mem_singleton.mp hp]
            exact fun h => hkk h.symm
      · intro k vs hk
        rw [StringListMap.find_assign] at hk
        by_cases hkk : k = key
        · subst hkk
          simp only [if_true, Option.some.injEq] at hk
          subst hk
          refine ⟨?_, fun v => ?_⟩
          · exact List.Nodup.append hnd (List.nodup_singleton _)
              (by
                intro x hx hx1
                rw [List.mem_singleton.mp hx1] at hx
                exact hni hx)
          · simp only [List.mem_append, List.mem_singleton, hmem v, Prod.mk.injEq, true_and]
        · simp only [hkk, if_false] at hk
          obtain ⟨hnd1, hmem1⟩ := hsome k vs hk
          refine ⟨hnd1, fun v => ?_⟩
          rw [hmem1 v]
          simp [hkk]

/-- A loop over the instance UIDs that runs to its end has read an image, a study and a
series identifier for every instance, and its maps group the images by series and the
series by study. -/
theorem SaveReportToAIM.headerLoop_groups (db0 : DICOMDatabase) :
    ∀ (l : List String) (db : DICOMDatabase) (loaded : List String)
      (s t : StringListMap) (ts0 : List (String × String × String)) (db1 : DICOMDatabase)
      (loaded1 : List String) (s1 t1 : StringListMap),
      db.headers = db0.headers →
      StringListMap.Groups s (ts0.map (fun x => (x.2.2, x.1))) →
      StringListMap.Groups t (ts0.map (fun x => (x.2.1, x.2.2))) →
      SaveReportToAIM.headerLoop l db loaded s t = .ok (db1, loaded1, some (s1, t1)) →
      ∃ ts : List (String × String × String),
        l.map db0.instanceTriple = ts.map some ∧
        StringListMap.Groups s1 ((ts0 ++ ts).map (fun x => (x.2.2, x.1))) ∧
        StringListMap.Groups t1 ((ts0 ++ ts).map (fun x => (x.2.1, x.2.2))) := by
  intro l
  induction l with
  | nil =>
    intro db loaded s t ts0 db1 loaded1 s1 t1 _ hs ht h
    simp only [SaveReportToAIM.headerLoop, Except.ok.injEq, Prod.mk.injEq,
      Option.some.injEq] at h
    obtain ⟨_, _, h1, h2⟩ := h
    subst h1
    subst h2
    exact ⟨[], rfl, by simpa using hs, by simpa using ht⟩
  | cons instanceUID rest ih =>
    intro db loaded s t ts0 db1 loaded1 s1 t1 hdb hs ht h
    have hv : ∀ key, (db.loadInstanceHeader instanceUID).headerValue key =
        (db0.loadInstanceHeader instanceUID).headerValue key := by
      intro key
      simp only [DICOMDatabase.headerValue, DICOMDatabase.loadInstanceHeader, hdb]
    have hdb1 : (db.loadInstanceHeader instanceUID).headers = db0.headers := hdb
    simp only [SaveReportToAIM.headerLoop, hv] at h
    by_cases h1 : (db0.loadInstanceHeader instanceUID).headerValue "0008,0018" = ""
    · simp only [h1, if_true, Except.ok.injEq, Prod.mk.injEq] at h
      exact absurd h.2.2 (by simp)
    · rw [if_neg h1] at h
      cases hbi : bracketValue ((db0.loadInstanceHeader instanceUID).headerValue "0008,0018") with
      | error e => rw [hbi] at h; cases h
      | ok imageUID =>
        rw [hbi] at h
        simp only at h
        by_cases h2 : (db0.loadInstanceHeader instanceUID).headerValue "0020,000d" = ""
        · simp only [h2, if_true, Except.ok.injEq, Prod.mk.injEq] at h
          exact absurd h.2.2 (by simp)
        · rw [if_neg h2] at h
          cases hbs : bracketValue
              ((db0.loadInstanceHeader instanceUID).headerValue "0020,000d") with
          | error e => rw [hbs] at h; cases h
          | ok studyUID =>
            rw [hbs] at h
            simp only at h
            by_cases h3 : (db0.loadInstanceHeader instanceUID).headerValue "0020,000e" = ""
            · simp only [h3, if_true, Except.ok.injEq, Prod.mk.injEq] at h
              exact absurd h.2.2 (by simp)
            · rw [if_neg h3] at h
              cases hbe : bracketValue
                  ((db0.loadInstanceHeader instanceUID).headerValue "0020,000e") with
              | error e => rw [hbe] at h; cases h
              | ok seriesUID =>
                rw [hbe] at h
                simp only [SaveReportToAIM.record, SaveReportToAIM.recordSeries_eq] at h
                have hs1 := SaveReportToAIM.recordImage_groups s _ seriesUID imageUID hs
                have ht1 := SaveReportToAIM.recordImage_groups t _ studyUID seriesUID ht
                obtain ⟨ts, hts, hs2, ht2⟩ := ih _ _ _ _
                  (ts0 ++ [(imageUID, studyUID, seriesUID)]) _ _ _ _ hdb1
                  (by simpa using hs1) (by simpa using ht1) h
                refine ⟨(imageUID, studyUID, seriesUID) :: ts, ?_, ?_, ?_⟩
                · simp only [List.map_cons, hts, List.cons.injEq, and_true]
                  simp only [DICOMDatabase.instanceTriple, hbi, hbs, hbe]
                · simpa using hs2
                · simpa using ht2

/-- The image references made of two maps that group the identifiers of the instances
`ts`: one for every pair of study and series, each once, with the images of the
series, each once. -/
theorem SaveReportToAIM.imageReferences_groups (s t : StringListMap)
    (ts : List (String × String × String))
    (hs : StringListMap.Groups s (ts.map (fun x => (x.2.2, x.1))))
    (ht : StringListMap.Groups t (ts.map (fun x => (x.2.1, x.2.2)))) :
    ((SaveReportToAIM.imageReferences s t).map
      (fun r => (r.studyInstanceUID, r.seriesInstanceUID))).Nodup ∧
    (∀ study series,
      (study, series) ∈ (SaveReportToAIM.imageReferences s t).map
        (fun r => (r.studyInstanceUID, r.seriesInstanceUID)) ↔
      ∃ image, (image, study, series) ∈ ts) ∧
    (∀ r ∈ SaveReportToAIM.imageReferences s t,
      r.imageCollection.Nodup ∧
      ∀ image, image ∈ r.imageCollection ↔ ∃ study, (image, study, r.seriesInstanceUID) ∈ ts) := by
  obtain ⟨hssorted, hsnone, hssome⟩ := hs
  obtain ⟨htsorted, htnone, htsome⟩ := ht
  have hpairs : (SaveReportToAIM.imageReferences s t).map
      (fun r => (r.studyInstanceUID, r.seriesInstanceUID)) =
      t.flatMap (fun entry => entry.2.map (fun seriesUID => (entry.1, seriesUID))) := by
    simp only [SaveReportToAIM.imageReferences, List.map_flatMap, List.map_map,
      Function.comp_def]
  have hentry : ∀ entry ∈ t, StringListMap.find t entry.1 = some entry.2 := fun entry he =>
    (StringListMap.mem_iff_find t htsorted entry.1 entry.2).mp he
  have hmemS : ∀ series image, (series, image) ∈ ts.map (fun x => (x.2.2, x.1)) ↔
      ∃ study, (image, study, series) ∈ ts := by
    intro series image
    simp only [List.mem_map, Prod.mk.injEq, Prod.exists]
    constructor
    · rintro ⟨i, st, se, hmem, rfl, rfl⟩
      exact ⟨st, hmem⟩
    · rintro ⟨st, hmem⟩
      exact ⟨image, st, series, hmem, rfl, rfl⟩
  have hmemT : ∀ study series, (study, series) ∈ ts.map (fun x => (x.2.1, x.2.2)) ↔
      ∃ image, (image, study, series) ∈ ts := by
    intro study series
    simp only [List.mem_map, Prod.mk.injEq, Prod.exists]
    constructor
    · rintro ⟨i, st, se, hmem, rfl, rfl⟩
      exact ⟨i, hmem⟩
    · rintro ⟨i, hmem⟩
      exact ⟨i, study, series, hmem, rfl, rfl⟩
  refine ⟨?_, ?_, ?_⟩
  · rw [hpairs, List.nodup_flatMap]
    refine ⟨?_, ?_⟩
    · intro entry he
      exact ((htsome _ _ (hentry entry he)).1).map (fun a b h => (Prod.mk.inj h).2)
    · rw [List.pairwise_map] at htsorted
      refine htsorted.imp ?_
      intro a b hab x hxa hxb
      obtain ⟨_, _, rfl⟩ := List.mem_map.mp hxa
      obtain ⟨_, _, hb⟩ := List.mem_map.mp hxb
      have hne : b.1 = a.1 := (Prod.mk.inj hb).1
      rw [hne] at hab
      exact lt_irrefl _ hab
  · intro study series
    rw [hpairs, ← hmemT, List.mem_flatMap]
    constructor
    · rintro ⟨entry, he, hx⟩
      obtain ⟨se, hse, heq⟩ := List.mem_map.mp hx
      obtain ⟨rfl, rfl⟩ := Prod.mk.inj heq
      exact ((htsome _ _ (hentry entry he)).2 se).mp hse
    · intro hmem
      cases hf : StringListMap.find t study with
      | none => exact absurd rfl (htnone study hf _ hmem)
      | some seriesList =>
        refine ⟨(study, seriesList),
          (StringListMap.mem_iff_find t htsorted study seriesList).mpr hf, ?_⟩
        exact List.mem_map.mpr ⟨series, ((htsome _ _ hf).2 series).mpr hmem, rfl⟩
  · intro r hr
    simp only [SaveReportToAIM.imageReferences, List.mem_flatMap, List.mem_map] at hr
    obtain ⟨entry, he, seriesUID, hse, rfl⟩ := hr
    simp only
    have hin : (entry.1, seriesUID) ∈ ts.map (fun x => (x.2.1, x.2.2)) :=
      ((htsome _ _ (hentry entry he)).2 seriesUID).mp hse
    obtain ⟨image0, hin0⟩ := (hmemT _ _).mp hin
    cases hf : StringListMap.find s seriesUID with
    | none =>
      exact absurd rfl (hsnone seriesUID hf _ ((hmemS seriesUID image0).mpr ⟨_, hin0⟩))
    | some images =>
      simp only [Option.getD_some]
      refine ⟨(hssome _ _ hf).1, fun image => ?_⟩
      rw [(hssome _ _ hf).2 image, hmemS]

/-- C25, as the code has it: in an export that returns `EXIT_SUCCESS` every header lookup
has given an image, a study and a series identifier; the image reference collection
of the document has one `ImageReference` for every pair of study and series among them,
each pair once, and the image collection of the reference of a series holds the images
that the lookups gave with that series, each once. -/
theorem SaveReportToAIM_image_references (self : Logic) (fs : FileSystem) (db : DICOMDatabase)
    (reportNode : Node) (filename : String) (res : ExportResult)
    (hdb : self.DICOMDatabase = some db)
    (hres : SaveReportToAIM self fs (some reportNode) (some filename) = .ok res)
    (hcode : res.code = EXIT_SUCCESS) :
    ∃ (doc : AIMDocument) (triples : List (String × String × String)),
      res.doc = some doc ∧ res.files = fs.ofstream filename doc ∧
      res.loaded.map db.instanceTriple = triples.map some ∧
      (doc.imageReferenceCollection.map
        (fun r => (r.studyInstanceUID, r.seriesInstanceUID))).Nodup ∧
      (∀ study series,
        (study, series) ∈ doc.imageReferenceCollection.map
          (fun r => (r.studyInstanceUID, r.seriesInstanceUID)) ↔
        ∃ image, (image, study, series) ∈ triples) ∧
      (∀ r ∈ doc.imageReferenceCollection,
        r.imageCollection.Nodup ∧
        ∀ image, image ∈ r.imageCollection ↔
          ∃ study, (image, study, r.seriesInstanceUID) ∈ triples) := by
  obtain ⟨self1, mk, gsc, db1, s, t, _, _, hhl, hdoc, hfiles⟩ :=
    SaveReportToAIM_success self fs db reportNode filename res hdb hres hcode
  obtain ⟨ts, hts, hs, ht⟩ := SaveReportToAIM.headerLoop_groups db _ _ _ _ _ [] _ _ _ _ rfl
    StringListMap.Groups_nil StringListMap.Groups_nil hhl
  simp only [List.nil_append] at hs ht
  obtain ⟨h1, h2, h3⟩ := SaveReportToAIM.imageReferences_groups s t ts hs ht
  exact ⟨_, ts, hdoc, hfiles, hts, h1, h2, h3⟩

/-- Witness of C25: in `exportScene` the one slice "A" has the image "IMG1", the study
"ST1" and the series "SE1"; the document has the one reference of study "ST1" and series
"SE1" with the image "IMG1". -/
theorem SaveReportToAIM_image_references_witness :
    exportDatabase.instanceTriple "A" = some ("IMG1", "ST1", "SE1") ∧
    exportDocument.imageReferenceCollection =
      [{ studyInstanceUID := "ST1", seriesInstanceUID := "SE1", imageCollection := ["IMG1"] }] ∧
    ∃ (doc : AIMDocument) (triples : List (String × String × String)),
      some exportDocument = some doc ∧
      ({ files := [("report.xml", exportDocument)] } : FileSystem) =
        FileSystem.ofstream {} "report.xml" doc ∧
      ["A"].map exportDatabase.instanceTriple = triples.map some ∧
      (doc.imageReferenceCollection.map
        (fun r => (r.studyInstanceUID, r.seriesInstanceUID))).Nodup ∧
      (∀ study series,
        (study, series) ∈ doc.imageReferenceCollection.map
          (fun r => (r.studyInstanceUID, r.seriesInstanceUID)) ↔
        ∃ image, (image, study, series) ∈ triples) ∧
      (∀ r ∈ doc.imageReferenceCollection,
        r.imageCollection.Nodup ∧
        ∀ image, image ∈ r.imageCollection ↔
          ∃ study, (image, study, r.seriesInstanceUID) ∈ triples) :=
  ⟨by decide!, rfl,
    SaveReportToAIM_image_references exportLogic {} exportDatabase testReport "report.xml"
      { code := EXIT_SUCCESS
        logic := { exportLogic with
          ActiveMarkupHierarchyID := some "vtkMRMLAnnotationHierarchyNode7"
          DICOMDatabase := some (exportDatabase.loadInstanceHeader "A") }
        files := { files := [("report.xml", exportDocument)] }
        loaded := ["A"]
        doc := some exportDocument }
      rfl (by decide!) rfl⟩

/-- C25, two series of one study: in `twoSeriesScene` the slices "A" and "B" are of the
series "SE1" and "SE2" of the study "ST1"; the export returns `EXIT_SUCCESS` and the
document has two image references, both of the study "ST1". -/
theorem SaveReportToAIM_two_series_of_a_study :
    exportDatabase.instanceTriple "A" = some ("IMG1", "ST1", "SE1") ∧
    exportDatabase.instanceTriple "B" = some ("IMG2", "ST1", "SE2") ∧
    SaveReportToAIM twoSeriesLogic {} (some testReport) (some "report.xml") =
      .ok { code := EXIT_SUCCESS
            logic := { twoSeriesLogic with
              ActiveMarkupHierarchyID := some "vtkMRMLAnnotationHierarchyNode7"
              DICOMDatabase :=
                some ((exportDatabase.loadInstanceHeader "A").loadInstanceHeader "B") }
            files := { files := [("report.xml", twoSeriesDocument)] }
            loaded := ["A", "B"]
            doc := some twoSeriesDocument } ∧
    (twoSeriesDocument.imageReferenceCollection.filter
      (fun r => r.studyInstanceUID = "ST1")).length = 2 := by
  decide!
/-! ## Theorems: the node-added handler without an active markup node -/

/-- C26: with the GUI visible and no active markup node, for a fiducial or ruler
annotation of the scene whose slice UID is not "NONE" and that has a hierarchy node:
the handler returns, the active markup stays null, and the hierarchy node of the
annotation has a null parent after the call, whatever parent it had before. -/
theorem OnMRMLSceneNodeAdded_markup_detached (svc : SceneServices) (self : Logic) (node : Node)
    (scene : Scene) (UID : String) (hnodePtr : Nat) (hnode : Node)
    (htype : node.cls.IsA .vtkMRMLAnnotationFiducialNode = true ∨
      node.cls.IsA .vtkMRMLAnnotationRulerNode = true)
    (hgui : self.GUIHidden = false) (hscene : self.MRMLScene = some scene)
    (hactive : self.ActiveMarkupHierarchyID = none)
    (hin : node.InScene = true)
    (huid : GetSliceUIDFromMarkUp self (SafeDownCast .vtkMRMLAnnotationNode node) = .ok UID)
    (hnone : UID ≠ "NONE")
    (hh : GetAssociatedHierarchyNodePtr (some scene) node.ID = some (hnodePtr, hnode)) :
    ∃ scene1 : Scene,
      OnMRMLSceneNodeAdded svc self (some node) = .ok { self with MRMLScene := some scene1 } ∧
      (GetAssociatedHierarchyNode (some scene1) node.ID).map (fun h => h.ParentNodeID) =
        some none := by
  have hstart : ∃ annotationType, OnMRMLSceneNodeAdded svc self (some node) =
      OnMRMLSceneNodeAdded.markupNode svc self node annotationType := by
    rcases htype with hf | hr
    · exact ⟨"Fiducial", by simp [OnMRMLSceneNodeAdded, hf]⟩
    · exact ⟨"Ruler", by simp [OnMRMLSceneNodeAdded, hr, NodeClass.not_fiducial_of_ruler _ hr]⟩
  obtain ⟨annotationType, hstart⟩ := hstart
  have hann : node.cls.IsA .vtkMRMLAnnotationNode = true :=
    NodeClass.isAnnotation_of_markup _ htype
  obtain ⟨activeReportID, hreport⟩ := GetActiveReportHierarchyID_ok svc self scene hscene
  rw [hstart]
  cases hid : node.ID with
  | none => simp [hid, GetAssociatedHierarchyNodePtr] at hh
  | some nodeID =>
  rw [hid] at hh
  simp only [GetAssociatedHierarchyNodePtr] at hh
  have hcast : SafeDownCast .vtkMRMLAnnotationNode node = some node := by
    simp [SafeDownCast, hann]
  rw [hcast] at huid
  have hp1 : ∀ (newName : Option String) (x : Node),
      isAssociatedHierarchyNode nodeID { x with Name := newName } =
        isAssociatedHierarchyNode nodeID x := fun _ _ => rfl
  rw [show some (none : Option String) = some self.ActiveMarkupHierarchyID by rw [hactive]]
  have hparent : (GetAssociatedHierarchyNode
      (some (scene.modify hnodePtr
        (fun h => { h with ParentNodeID := self.ActiveMarkupHierarchyID }))) (some nodeID)).map
        (fun h => h.ParentNodeID) = some self.ActiveMarkupHierarchyID := by
    simp only [GetAssociatedHierarchyNode, find?_eq_findPtr, Scene.modify]
    rw [findPtr_modifyAt (isAssociatedHierarchyNode nodeID)
        (fun h => { h with ParentNodeID := self.ActiveMarkupHierarchyID }) (fun _ => rfl), hh]
    simp only [Option.map_some', if_true]
  obtain ⟨g, _, hchain⟩ := reportNode_modify scene hnodePtr self.ActiveMarkupHierarchyID
    activeReportID
  unfold OnMRMLSceneNodeAdded.markupNode
  rw [if_neg (by rw [hgui]; simp)]
  cases hrn : ((scene.GetNodeByID activeReportID).bind
      (SafeDownCast .vtkMRMLDisplayableHierarchyNode)).bind
        (fun reportHierarchyNode => scene.GetAssociatedNode reportHierarchyNode) with
  | none =>
    rw [hrn, Option.map_none'] at hchain
    simp only [hscene, hcast, huid, hnone, Logic.sceneOf, hin, hid,
      GetAssociatedHierarchyNodePtr, hh, GetActiveReportHierarchyID_modify svc self scene _ _ hscene,
      hreport, hchain, if_true, if_false]
    exact ⟨_, rfl, hparent⟩
  | some reportNode =>
    rw [hrn, Option.map_some'] at hchain
    simp only [hscene, hcast, huid, hnone, Logic.sceneOf, hin, hid,
      GetAssociatedHierarchyNodePtr, hh, GetActiveReportHierarchyID_modify svc self scene _ _ hscene,
      hreport, hchain, if_true, if_false]
    refine ⟨_, rfl, ?_⟩
    cases hw : (scene.modify hnodePtr
        (fun h => { h with ParentNodeID := self.ActiveMarkupHierarchyID })).GetNodeByIDPtr
        (some nodeID) with
    | none => exact hparent
    | some w =>
      simp only [GetAssociatedHierarchyNode, find?_eq_findPtr, Scene.modify]
      rw [findPtr_modifyAt (isAssociatedHierarchyNode nodeID) _ (hp1 _),
        findPtr_modifyAt (isAssociatedHierarchyNode nodeID)
          (fun h => { h with ParentNodeID := self.ActiveMarkupHierarchyID }) (fun _ => rfl), hh]
      simp only [Option.map_some', if_true]
      split <;> rfl

/-- Witness of C26: the fiducial of `attachedScene`, whose hierarchy node is under the
markup node before the call. -/
theorem OnMRMLSceneNodeAdded_markup_detached_witness :
    attachedLogic.GUIHidden = false ∧
    attachedLogic.ActiveMarkupHierarchyID = none ∧
    GetSliceUIDFromMarkUp attachedLogic (SafeDownCast .vtkMRMLAnnotationNode
      (testMarkupNode .vtkMRMLAnnotationFiducialNode [(0, 0, 1)])) = .ok "UID1" ∧
    (GetAssociatedHierarchyNode (some attachedScene) (some "ann1")).map (fun h => h.ParentNodeID) =
      some (some "vtkMRMLAnnotationHierarchyNode6") ∧
    ∃ scene1 : Scene,
      OnMRMLSceneNodeAdded testServices attachedLogic
          (some (testMarkupNode .vtkMRMLAnnotationFiducialNode [(0, 0, 1)])) =
        .ok { attachedLogic with MRMLScene := some scene1 } ∧
      (GetAssociatedHierarchyNode (some scene1) (some "ann1")).map (fun h => h.ParentNodeID) =
        some none :=
  ⟨rfl, rfl, by decide!, by decide!,
    OnMRMLSceneNodeAdded_markup_detached testServices attachedLogic
      (testMarkupNode .vtkMRMLAnnotationFiducialNode [(0, 0, 1)]) attachedScene "UID1" 6
      (hierarchyNode .vtkMRMLAnnotationHierarchyNode "vtkMRMLAnnotationHierarchyNode7"
         "A Hierarchy" true (some "vtkMRMLAnnotationHierarchyNode6") (some "ann1"))
      (Or.inl (by decide)) rfl rfl rfl rfl (by decide!) (by decide) (by decide!)⟩
end Reporting
